import Mathlib

/-!
# LOCATOR heap access method: bitmap scan, index fetch and tuple lock

A shallow embedding of parts of
`src/backend/access/heap/heapam_handler.c` (build with `DIVA` and `LOCATOR`
defined, `USING_LOCK` undefined) and of the foreign-table callbacks of
`contrib/lsm/lsm_fdw.c` (build with neither `LASER` nor `LSM_TXN` defined),
together with theorems about them.

Conventions of the embedding:

* C integers are `Nat`/`Int`; where a value is narrowed to a fixed width the
  reduction `% 2 ^ w` is written out.
* Functions of the server that live outside this file of the source
  (visibility tests, the chain lookup, `heap_lock_tuple`, `heap_fetch`, ...)
  are fields of an environment structure, so every theorem holds for every
  behaviour of those functions.
* Calls whose occurrence matters are recorded in an event log carried by the
  state.
-/

namespace Locator

/-! ## Basic types -/

abbrev OffsetNumber := Nat
abbrev BlockNumber := Nat
abbrev TransactionId := Nat
abbrev CommandId := Nat
abbrev Oid := Nat
abbrev Buffer := Nat

/-- First valid line pointer number of a page (`off.h`). -/
def FirstOffsetNumber : OffsetNumber := 1

/-- Kinds of snapshot (`SnapshotType` of `snapshot.h`). -/
inductive SnapshotType
  | SNAPSHOT_MVCC
  | SNAPSHOT_SELF
  | SNAPSHOT_ANY
  | SNAPSHOT_TOAST
  | SNAPSHOT_DIRTY
  | SNAPSHOT_HISTORIC_MVCC
  | SNAPSHOT_NON_VACUUMABLE
  deriving DecidableEq, Repr

/-- The fields of `SnapshotData` the embedded code or its collaborators read. -/
structure SnapshotData where
  snapshot_type : SnapshotType
  xmin : TransactionId
  xmax : TransactionId
  curcid : CommandId
  deriving DecidableEq, Repr

/-- Macro `IsMVCCSnapshot` of `snapmgr.h`. -/
def IsMVCCSnapshot (snapshot : SnapshotData) : Bool :=
  snapshot.snapshot_type == SnapshotType.SNAPSHOT_MVCC ||
    snapshot.snapshot_type == SnapshotType.SNAPSHOT_HISTORIC_MVCC

/-- Command kinds (`CmdType` of `nodes.h`); the global `curr_cmdtype` holds one. -/
inductive CmdType
  | CMD_UNKNOWN
  | CMD_SELECT
  | CMD_UPDATE
  | CMD_INSERT
  | CMD_DELETE
  | CMD_MERGE
  | CMD_UTILITY
  | CMD_NOTHING
  deriving DecidableEq, Repr

/-- A tuple identifier: block number and line pointer number. -/
structure ItemPointerData where
  ip_blkid : BlockNumber
  ip_posid : OffsetNumber
  deriving DecidableEq, Repr

/-- In-memory tuple descriptor; `t_data = none` is a pointer never assigned. -/
structure HeapTupleData where
  t_len : Nat
  t_self : ItemPointerData
  t_tableOid : Oid
  t_data : Option (List Nat)
  deriving DecidableEq, Repr

/-! ## Pages -/

/-- A line pointer together with the bytes it points to.  `pleaf_flag` is the
value of `LP_IS_PLEAF_FLAG`, `ovr_unused` of `LP_OVR_IS_UNUSED`, `normal` of
`ItemIdIsNormal`, `lp_len` of `ItemIdGetLength`, `item` the bytes at
`PageGetItem`. -/
structure ItemIdData where
  pleaf_flag : Bool
  ovr_unused : Bool
  normal : Bool
  lp_len : Nat
  item : List Nat
  deriving DecidableEq, Repr

/-- A heap page: its highest line pointer number and the line pointer array.
The array is total because the source indexes it without a bound check. -/
structure Page where
  maxoff : OffsetNumber
  lp : OffsetNumber → ItemIdData

def PageGetMaxOffsetNumber (dp : Page) : OffsetNumber := dp.maxoff

def PageGetItemId (dp : Page) (offnum : OffsetNumber) : ItemIdData := dp.lp offnum

/-- The effect of `memcpy(&x, p + pos, n)` into an unsigned integer of `n` bytes
on a little-endian machine; bytes past the end of the item read as zero. -/
def memcpy_le (p : List Nat) (pos n : Nat) : Nat :=
  ((List.range n).map fun i => (p.getD (pos + i) 0 % 256) * 256 ^ i).sum

/-! ## Lossy bitmap scan of a siro page -/

def CHECK_LEFT : Nat := 1

def CHECK_RIGHT : Nat := 2

def CHECK_BOTH : Nat := 3

/-- Outputs of `GetCheckVar`. -/
structure CheckVar where
  rec_ref_unit : Nat
  check_var : Nat
  set_hint_bits : Bool
  deriving DecidableEq, Repr

/-- Outputs of `PLeafLookupTuple`: the result id and, when the function stored
through its out-parameters, the length and bytes of the version found. -/
structure PLeafResult where
  ret_id : Int
  out : Option (Nat × List Nat)
  deriving DecidableEq, Repr

/-- Collaborators of the lossy siro scan that live outside the source file. -/
structure ScanEnv where
  HeapTupleSatisfiesVisibility : HeapTupleData → SnapshotData → Bool
  GetCheckVar : OffsetNumber → CheckVar
  PLeafIsLeftLookup : Nat → Nat → TransactionId → SnapshotData → Bool
  PLeafLookupTuple : Oid → Nat → SnapshotData → PLeafResult

/-- Calls made by the scan that the theorems speak about. -/
inductive ScanEvent
  | getCheckVar (offnum : OffsetNumber) (rec_ref_unit : Nat)
  | satisfiesVisibility (offnum : OffsetNumber) (test_var : Nat) (hint_bits : Bool)
  | pleafLookupTuple (offnum : OffsetNumber) (p_offset : Nat)
  | unpinEbiSubBuffer (ret_id : Int)
  | decrRefCnt (offnum : OffsetNumber) (rec_ref_unit : Nat)
  | pagePrune (buf : Buffer)
  | setPageRefUnit (buf : Buffer)
  | decrPageRef (buf : Buffer)
  | lockBuffer (buf : Buffer)
  | unlockBuffer (buf : Buffer)
  | predicateLockTID (offnum : OffsetNumber)
  | checkSerializableConflictOut (valid : Bool) (offnum : OffsetNumber)
  deriving DecidableEq, Repr

/-- The part of the scan descriptor and of the locals of
`heapam_scan_bitmap_next_block` that the lossy siro loop reads or writes. -/
structure ScanState where
  ntup : Nat
  rs_vistuples : Nat → OffsetNumber
  rs_vistuples_copied : Nat → Option HeapTupleData
  counter_in_heap : Nat
  counter_in_ebi : Nat
  v_loctup : HeapTupleData
  events : List ScanEvent

/-- The statements
`rs_vistuples_copied[ntup] = heap_copytuple(&v_loctup); rs_vistuples[ntup] = offnum; ntup++`
(the previous copy at that index, if any, is freed first). -/
def storeEntry (s : ScanState) (offnum : OffsetNumber) : ScanState :=
  { s with
    rs_vistuples_copied := Function.update s.rs_vistuples_copied s.ntup (some s.v_loctup)
    rs_vistuples := Function.update s.rs_vistuples s.ntup offnum
    ntup := s.ntup + 1 }

/-- The statement `if (rec_ref_unit != 0) DRefDecrRefCnt(drefDesc.dual_ref, rec_ref_unit)`. -/
def decrRecRef (s : ScanState) (offnum : OffsetNumber) (cv : CheckVar) : ScanState :=
  if cv.rec_ref_unit ≠ 0 then
    { s with events := s.events ++ [ScanEvent.decrRefCnt offnum cv.rec_ref_unit] }
  else s

/-- The loop `for (test_var = CHECK_RIGHT; test_var > CHECK_NONE; test_var--)`
(lines 3099-3169), entered with the given `test_var`.  Returns the final value
of `valid`.  The version of `test_var` sits at line pointer `offnum + test_var`
of the same page (`v_block == page` always, so `v_buffer == buffer`). -/
def checkVersions (env : ScanEnv) (snapshot : SnapshotData) (dp : Page)
    (offnum : OffsetNumber) (cv : CheckVar) : Nat → ScanState → Bool × ScanState
  | 0, s => (false, s)
  | test_var + 1, s =>
    if cv.check_var &&& (test_var + 1) = 0 then
      checkVersions env snapshot dp offnum cv test_var s
    else
      let v_offset := offnum + (test_var + 1)
      let v_lpp := PageGetItemId dp v_offset
      if v_lpp.ovr_unused then
        checkVersions env snapshot dp offnum cv test_var s
      else
        let s1 : ScanState :=
          { s with
            v_loctup := { s.v_loctup with t_data := some v_lpp.item, t_len := v_lpp.lp_len }
            events := s.events ++
              [ScanEvent.satisfiesVisibility offnum (test_var + 1) cv.set_hint_bits] }
        if env.HeapTupleSatisfiesVisibility s1.v_loctup snapshot then
          (true, storeEntry s1 offnum)
        else
          checkVersions env snapshot dp offnum cv test_var s1

/-- The chain part of the loop body (lines 3238-3279): decode the locator,
choose the branch, look the chain up and store the version found. -/
def chainLookup (env : ScanEnv) (snapshot : SnapshotData) (rel_id : Oid)
    (p_locator : List Nat) (offnum : OffsetNumber) (s : ScanState) : ScanState :=
  let l_off := memcpy_le p_locator 0 8
  let r_off := memcpy_le p_locator 8 8
  let xid_bound := memcpy_le p_locator 16 4
  let rs : Int × ScanState :=
    if l_off = 0 ∧ r_off = 0 then
      (-1, s)
    else
      let p_offset := if env.PLeafIsLeftLookup l_off r_off xid_bound snapshot then l_off else r_off
      let r := env.PLeafLookupTuple rel_id p_offset snapshot
      (r.ret_id,
        { s with
          v_loctup :=
            match r.out with
            | some (len, data) => { s.v_loctup with t_len := len, t_data := some data }
            | none => s.v_loctup
          events := s.events ++ [ScanEvent.pleafLookupTuple offnum p_offset] })
  if rs.1 > -1 then
    let s2 := storeEntry rs.2 offnum
    { s2 with
      events := s2.events ++ [ScanEvent.unpinEbiSubBuffer rs.1]
      counter_in_ebi := s2.counter_in_ebi + 1 }
  else rs.2

/-- The rest of the loop body once the loop over the two slots has ended with
`valid = r.1` (lines 3171-3287). -/
def finishLocator (env : ScanEnv) (snapshot : SnapshotData) (modification : Bool)
    (rel_id : Oid) (p_locator : List Nat) (offnum : OffsetNumber) (cv : CheckVar)
    (r : Bool × ScanState) : ScanState :=
  if r.1 then
    let s1 := decrRecRef r.2 offnum cv
    { s1 with counter_in_heap := s1.counter_in_heap + 1 }
  else if modification then
    decrRecRef (storeEntry r.2 offnum) offnum cv
  else if snapshot.snapshot_type ≠ SnapshotType.SNAPSHOT_MVCC then
    decrRecRef r.2 offnum cv
  else
    decrRecRef (chainLookup env snapshot rel_id p_locator offnum r.2) offnum cv

/-- The state in which the loop over the two slots is entered: `t_self` set to
the locator (line 3086) and `GetCheckVar` called (line 3094). -/
def enterLocator (env : ScanEnv) (page : BlockNumber) (offnum : OffsetNumber)
    (s : ScanState) : ScanState :=
  { s with
    v_loctup := { s.v_loctup with t_self := ⟨page, offnum⟩ }
    events := s.events ++ [ScanEvent.getCheckVar offnum (env.GetCheckVar offnum).rec_ref_unit] }

/-- One iteration of the loop over the line pointers of a siro page
(lines 3075-3287). -/
def scanLocator (env : ScanEnv) (snapshot : SnapshotData) (modification : Bool)
    (rel_id : Oid) (page : BlockNumber) (dp : Page) (offnum : OffsetNumber)
    (s : ScanState) : ScanState :=
  let lp := PageGetItemId dp offnum
  if !lp.pleaf_flag then s
  else
    let p_locator := lp.item
    let cv := env.GetCheckVar offnum
    finishLocator env snapshot modification rel_id p_locator offnum cv
      (checkVersions env snapshot dp offnum cv CHECK_RIGHT (enterLocator env page offnum s))

/-- The loop `for (offnum = FirstOffsetNumber; offnum <= maxoff; offnum++)` run
over the given offsets. -/
def scanOffsets (env : ScanEnv) (snapshot : SnapshotData) (modification : Bool)
    (rel_id : Oid) (page : BlockNumber) (dp : Page) (offs : List OffsetNumber)
    (s : ScanState) : ScanState :=
  offs.foldl (fun acc offnum => scanLocator env snapshot modification rel_id page dp offnum acc) s

/-- The lossy branch of `heapam_scan_bitmap_next_block` for a siro relation
(lines 3068-3288), with the initialisations that precede it: `ntup = 0`
(line 2944), `modification` from `curr_cmdtype` (lines 3051-3052) and
`v_loctup.t_tableOid = rel_id` (line 3070). -/
def heapam_scan_bitmap_next_block_siro_lossy (env : ScanEnv) (snapshot : SnapshotData)
    (curr_cmdtype : CmdType) (rel_id : Oid) (page : BlockNumber) (dp : Page)
    (s : ScanState) : ScanState :=
  let modification : Bool :=
    curr_cmdtype == CmdType.CMD_UPDATE || curr_cmdtype == CmdType.CMD_DELETE
  let maxoff := PageGetMaxOffsetNumber dp
  let s0 : ScanState :=
    { s with ntup := 0, v_loctup := { s.v_loctup with t_tableOid := rel_id } }
  scanOffsets env snapshot modification rel_id page dp
    (List.range' FirstOffsetNumber maxoff) s0

/-- The locators of a page: the line pointers the loop does not skip. -/
def pageLocators (dp : Page) : List OffsetNumber :=
  (List.range' FirstOffsetNumber dp.maxoff).filter fun o => (PageGetItemId dp o).pleaf_flag

/-! ## Index fetch and row-version search -/

/-- Marker of "no external-chain buffer pinned" (`ebi_sub_buf.h`, not part of
the sources at hand); only compared for equality. -/
def InvalidEbiSubBuf : Int := -1

/-- Conversion of a C unsigned value to `BlockNumber` (`uint32`). -/
def toBlockNumber (n : Nat) : BlockNumber := n % 2 ^ 32

/-- The fields of `LocatorTuplePositionData` the embedded code reads. -/
structure LocatorTuplePositionData where
  partitionLevel : Nat
  partitionNumber : Nat
  partitionGenerationNumber : Nat
  partitionTuplePosition : Nat
  deriving DecidableEq, Repr

/-- Arguments of a page request to the buffer pool for a partition
(`LocatorReleaseAndReadBuffer`, `ReadPartitionBufferExtended`). -/
structure PartitionBufferRequest where
  level : Nat
  number : Nat
  generation : Nat
  block : BlockNumber
  deriving DecidableEq, Repr

/-- Calls made by the fetch paths that the theorems speak about. -/
inductive FetchEvent
  | unpinEbiSubBuffer (id : Int)
  | releaseAndReadBuffer (old : Buffer) (block : BlockNumber)
  | readBuffer (block : BlockNumber)
  | readPartitionBuffer (req : PartitionBufferRequest)
  | pagePrune (buf : Buffer)
  | setPageRefUnit (buf : Buffer)
  | decrPageRef (buf : Buffer)
  | lockBuffer (buf : Buffer)
  | unlockBuffer (buf : Buffer)
  | storeTuple
  | releaseBuffer (buf : Buffer)
  deriving DecidableEq, Repr

/-- Collaborators of the fetch paths.  The searches return whether a visible
version was found and the value they leave in `xs_c_ebi_buf_id`. -/
structure FetchEnv where
  ReadBuffer : BlockNumber → Buffer
  ReleaseAndReadBuffer : Buffer → BlockNumber → Buffer
  LocatorReleaseAndReadBuffer : Buffer → PartitionBufferRequest → Buffer
  ReadPartitionBufferExtended : PartitionBufferRequest → Buffer
  heap_hot_search_buffer : ItemPointerData → Buffer → SnapshotData → Bool → Bool
  heap_hot_search_buffer_with_vc : ItemPointerData → Buffer → SnapshotData → Bool → Bool × Int
  locator_search_version : LocatorTuplePositionData → Buffer → SnapshotData → Bool → Bool × Int
  locator_search_and_deform_version :
    LocatorTuplePositionData → SnapshotData → CmdType → Bool → Bool × Int
  locator_is_columnar_layout : Nat → Bool
  LocatorRouteSynopsisGetTuplePositionForIndexscan : Nat → LocatorTuplePositionData
  LocatorRouteSynopsisGetTuplePositionForUpdate : Nat → LocatorTuplePositionData
  records_per_block : Nat

/-- The index-fetch descriptor (`IndexFetchHeapData`), the caller's
`*call_again` and the log of calls. -/
structure IndexFetchState where
  xs_cbuf : Buffer
  xs_c_ebi_buf_id : Int
  call_again : Bool
  events : List FetchEvent
  deriving DecidableEq, Repr

/-- The statement releasing a pinned external-chain buffer at function entry. -/
def releaseEbiBuffer (st : IndexFetchState) : IndexFetchState :=
  if st.xs_c_ebi_buf_id ≠ InvalidEbiSubBuf then
    { st with
      events := st.events ++ [FetchEvent.unpinEbiSubBuffer st.xs_c_ebi_buf_id]
      xs_c_ebi_buf_id := InvalidEbiSubBuf }
  else st

/-- The function `heapam_index_fetch_tuple` (lines 143-300); `siro` is
`IsSiro(hscan->xs_base.rel)`.  Returns `got_heap_tuple` and the new state. -/
def heapam_index_fetch_tuple (env : FetchEnv) (siro : Bool) (tid : ItemPointerData)
    (snapshot : SnapshotData) (st : IndexFetchState) : Bool × IndexFetchState :=
  let st1 := releaseEbiBuffer st
  let st2 : IndexFetchState :=
    if !st1.call_again then
      let prev_buf := st1.xs_cbuf
      let buf := env.ReleaseAndReadBuffer st1.xs_cbuf tid.ip_blkid
      let st' : IndexFetchState :=
        { st1 with
          xs_cbuf := buf
          events := st1.events ++ [FetchEvent.releaseAndReadBuffer prev_buf tid.ip_blkid] }
      if prev_buf ≠ buf then
        { st' with events := st'.events ++ [FetchEvent.pagePrune buf] }
      else st'
    else st1
  let st3 : IndexFetchState :=
    if siro then
      { st2 with events := st2.events ++ [FetchEvent.setPageRefUnit st2.xs_cbuf] }
    else
      { st2 with events := st2.events ++ [FetchEvent.lockBuffer st2.xs_cbuf] }
  let got : Bool × IndexFetchState :=
    if siro then
      let r := env.heap_hot_search_buffer_with_vc tid st3.xs_cbuf snapshot (!st3.call_again)
      (r.1, { st3 with xs_c_ebi_buf_id := r.2 })
    else
      (env.heap_hot_search_buffer tid st3.xs_cbuf snapshot (!st3.call_again), st3)
  let st4 : IndexFetchState :=
    if siro then
      { got.2 with events := got.2.events ++ [FetchEvent.decrPageRef got.2.xs_cbuf] }
    else
      { got.2 with events := got.2.events ++ [FetchEvent.unlockBuffer got.2.xs_cbuf] }
  if got.1 then
    (true,
      { st4 with
        call_again := !IsMVCCSnapshot snapshot
        events := st4.events ++ [FetchEvent.storeTuple] })
  else
    (false, { st4 with call_again := false })

/-- The function `locator_index_fetch_tuple` (lines 303-352). -/
def locator_index_fetch_tuple (env : FetchEnv) (curr_cmdtype : CmdType)
    (tuplePosition : LocatorTuplePositionData) (snapshot : SnapshotData)
    (st : IndexFetchState) : Bool × IndexFetchState :=
  let is_modification : Bool :=
    curr_cmdtype == CmdType.CMD_UPDATE || curr_cmdtype == CmdType.CMD_DELETE
  let r := env.locator_search_and_deform_version tuplePosition snapshot curr_cmdtype is_modification
  let st1 : IndexFetchState := { st with xs_c_ebi_buf_id := r.2 }
  if r.1 then
    (true, { st1 with call_again := !IsMVCCSnapshot snapshot })
  else
    (false, { st1 with call_again := false })

/-- The function `locatoram_index_fetch_tuple` (lines 359-481). -/
def locatoram_index_fetch_tuple (env : FetchEnv) (curr_cmdtype : CmdType)
    (route_synopsis : Nat) (snapshot : SnapshotData) (st : IndexFetchState) :
    Bool × IndexFetchState :=
  let st1 := releaseEbiBuffer st
  let tuplePosition := env.LocatorRouteSynopsisGetTuplePositionForIndexscan route_synopsis
  if env.locator_is_columnar_layout tuplePosition.partitionLevel then
    locator_index_fetch_tuple env curr_cmdtype tuplePosition snapshot st1
  else
    let st2 : IndexFetchState :=
      if !st1.call_again then
        let targetBlockNumber : BlockNumber :=
          toBlockNumber (tuplePosition.partitionTuplePosition / env.records_per_block)
        let req : PartitionBufferRequest :=
          { level := tuplePosition.partitionLevel
            number := tuplePosition.partitionNumber
            generation := tuplePosition.partitionGenerationNumber
            block := targetBlockNumber }
        { st1 with
          xs_cbuf := env.LocatorReleaseAndReadBuffer st1.xs_cbuf req
          events := st1.events ++ [FetchEvent.readPartitionBuffer req] }
      else st1
    let st3 : IndexFetchState :=
      { st2 with events := st2.events ++ [FetchEvent.setPageRefUnit st2.xs_cbuf] }
    let r := env.locator_search_version tuplePosition st3.xs_cbuf snapshot (!st3.call_again)
    let st4 : IndexFetchState :=
      { st3 with
        xs_c_ebi_buf_id := r.2
        events := st3.events ++ [FetchEvent.decrPageRef st3.xs_cbuf] }
    if r.1 then
      (true,
        { st4 with
          call_again := !IsMVCCSnapshot snapshot
          events := st4.events ++ [FetchEvent.storeTuple] })
    else
      (false, { st4 with call_again := false })

/-- The global `curr_cmdtype`, the caller's snapshot and the log of calls, as
seen by the row-version searches. -/
structure SearchState where
  curr_cmdtype : CmdType
  snapshot : SnapshotData
  events : List FetchEvent
  deriving DecidableEq, Repr

/-- The statements `snapshot->curcid += 1; curr_cmdtype = CMD_SELECT;` guarded by
`old_cmdtype != CMD_UPDATE && old_cmdtype != CMD_DELETE` (`CommandId` is `uint32`). -/
def bumpCurcid (old_cmdtype : CmdType) (s : SearchState) : SearchState :=
  if old_cmdtype ≠ CmdType.CMD_UPDATE ∧ old_cmdtype ≠ CmdType.CMD_DELETE then
    { s with
      snapshot := { s.snapshot with curcid := (s.snapshot.curcid + 1) % 2 ^ 32 }
      curr_cmdtype := CmdType.CMD_SELECT }
  else s

/-- The statements `snapshot->curcid -= 1; curr_cmdtype = old_cmdtype;` under the
same guard. -/
def restoreCurcid (old_cmdtype : CmdType) (s : SearchState) : SearchState :=
  if old_cmdtype ≠ CmdType.CMD_UPDATE ∧ old_cmdtype ≠ CmdType.CMD_DELETE then
    { s with
      snapshot := { s.snapshot with curcid := (s.snapshot.curcid + 2 ^ 32 - 1) % 2 ^ 32 }
      curr_cmdtype := old_cmdtype }
  else s

/-- The function `heapam_search_row_version` (lines 521-610). -/
def heapam_search_row_version (env : FetchEnv) (tid : ItemPointerData) (s : SearchState) :
    Bool × SearchState :=
  let old_cmdtype := s.curr_cmdtype
  let block := tid.ip_blkid
  let buffer := env.ReadBuffer block
  let s1 : SearchState :=
    { s with
      events := s.events ++ [FetchEvent.readBuffer block, FetchEvent.setPageRefUnit buffer] }
  let s2 := bumpCurcid old_cmdtype s1
  let r := env.heap_hot_search_buffer_with_vc tid buffer s2.snapshot false
  let s3 := restoreCurcid old_cmdtype s2
  let s4 : SearchState := { s3 with events := s3.events ++ [FetchEvent.decrPageRef buffer] }
  if r.1 then
    (true,
      { s4 with events := s4.events ++ [FetchEvent.storeTuple, FetchEvent.releaseBuffer buffer] })
  else
    (false, { s4 with events := s4.events ++ [FetchEvent.releaseBuffer buffer] })

/-- The function `locator_search_row_version` (lines 612-693). -/
def locator_search_row_version (env : FetchEnv) (tuplePosition : LocatorTuplePositionData)
    (s : SearchState) : Bool × SearchState :=
  let old_cmdtype := s.curr_cmdtype
  let s1 := bumpCurcid old_cmdtype s
  let is_modification : Bool :=
    s1.curr_cmdtype == CmdType.CMD_UPDATE || s1.curr_cmdtype == CmdType.CMD_DELETE
  let r := env.locator_search_and_deform_version tuplePosition s1.snapshot s1.curr_cmdtype
    is_modification
  (r.1, restoreCurcid old_cmdtype s1)

/-- The function `locatoram_search_row_version` (lines 701-809). -/
def locatoram_search_row_version (env : FetchEnv) (route_synopsis : Nat) (s : SearchState) :
    Bool × SearchState :=
  let old_cmdtype := s.curr_cmdtype
  let tuplePosition := env.LocatorRouteSynopsisGetTuplePositionForUpdate route_synopsis
  if env.locator_is_columnar_layout tuplePosition.partitionLevel then
    locator_search_row_version env tuplePosition s
  else
    let block : BlockNumber :=
      toBlockNumber (tuplePosition.partitionTuplePosition / env.records_per_block)
    let req : PartitionBufferRequest :=
      { level := tuplePosition.partitionLevel
        number := tuplePosition.partitionNumber
        generation := tuplePosition.partitionGenerationNumber
        block := block }
    let buffer := env.ReadPartitionBufferExtended req
    let s1 : SearchState :=
      { s with
        events := s.events ++
          [FetchEvent.readPartitionBuffer req, FetchEvent.setPageRefUnit buffer] }
    let s2 := bumpCurcid old_cmdtype s1
    let r := env.locator_search_version tuplePosition buffer s2.snapshot false
    let s3 := restoreCurcid old_cmdtype s2
    let s4 : SearchState := { s3 with events := s3.events ++ [FetchEvent.decrPageRef buffer] }
    if r.1 then
      (true,
        { s4 with events := s4.events ++ [FetchEvent.storeTuple, FetchEvent.releaseBuffer buffer] })
    else
      (false, { s4 with events := s4.events ++ [FetchEvent.releaseBuffer buffer] })

/-- The page requests among a list of events. -/
def partitionRequests (evs : List FetchEvent) : List PartitionBufferRequest :=
  evs.filterMap fun e =>
    match e with
    | FetchEvent.readPartitionBuffer req => some req
    | _ => none

/-! ## Tuple lock -/

/-- Results of the table modification routines (`TM_Result` of `tableam.h`). -/
inductive TM_Result
  | TM_Ok
  | TM_Invisible
  | TM_SelfModified
  | TM_Updated
  | TM_Deleted
  | TM_BeingModified
  | TM_WouldBlock
  deriving DecidableEq, Repr

inductive LockWaitPolicy
  | LockWaitBlock
  | LockWaitSkip
  | LockWaitError
  deriving DecidableEq, Repr

inductive LockTupleMode
  | LockTupleKeyShare
  | LockTupleShare
  | LockTupleNoKeyExclusive
  | LockTupleExclusive
  deriving DecidableEq, Repr

/-- Flag bit `(1 << 0)` of `tableam.h`: follow the update chain while locking. -/
def TUPLE_LOCK_FLAG_LOCK_UPDATE_IN_PROGRESS : Nat := 1

/-- Flag bit `(1 << 1)` of `tableam.h`: lock the latest version of the row. -/
def TUPLE_LOCK_FLAG_FIND_LAST_VERSION : Nat := 2

def InvalidTransactionId : TransactionId := 0

def TransactionIdIsValid (xid : TransactionId) : Bool := xid != InvalidTransactionId

def InvalidBlockNumber : BlockNumber := 0xFFFFFFFF

/-- Macro of `itemptr.h`: the forward pointer of a row moved to another partition. -/
def ItemPointerIndicatesMovedPartitions (tid : ItemPointerData) : Bool :=
  tid.ip_posid == 0xfffd && tid.ip_blkid == InvalidBlockNumber

/-- Failure data filled for the caller (`TM_FailureData`). -/
structure TM_FailureData where
  ctid : ItemPointerData
  xmax : TransactionId
  cmax : CommandId
  traversed : Bool
  deriving DecidableEq, Repr

/-- Errors raised with `ereport(ERROR, ...)`; `raisedByCallee` stands for any
error raised inside `heap_lock_tuple`. -/
inductive LockError
  | ERRCODE_T_R_SERIALIZATION_FAILURE
  | ERRCODE_DATA_CORRUPTED
  | ERRCODE_LOCK_NOT_AVAILABLE
  | raisedByCallee (code : Nat)
  deriving DecidableEq, Repr

/-- The fields of a tuple header the traversal reads: `HeapTupleHeaderGetXmin`,
`HeapTupleHeaderGetUpdateXid`, `HeapTupleHeaderGetCmin` and `t_ctid`. -/
structure TupleHeader where
  xmin : TransactionId
  update_xid : TransactionId
  cmin : CommandId
  t_ctid : ItemPointerData
  deriving DecidableEq, Repr

/-- Outcome of `heap_fetch(relation, &SnapshotDirty, tuple, &buffer, true)`:
`visible` when it returns true (with the `xmin`/`xmax` it leaves in the dirty
snapshot), `invisible` when it returns false and leaves `t_data` set,
`missing` when it returns false with `t_data == NULL`. -/
inductive HeapFetchResult
  | visible (hdr : TupleHeader) (dirty_xmin dirty_xmax : TransactionId)
  | invisible (hdr : TupleHeader)
  | missing
  deriving DecidableEq, Repr

/-- Outcome of `heap_lock_tuple`: its result and, when it filled `*tmfd`, the
`ctid`, `xmax` and `cmax` it stored. -/
structure LockAttempt where
  result : TM_Result
  failure : Option (ItemPointerData × TransactionId × CommandId)
  deriving DecidableEq, Repr

/-- Collaborators of `heapam_tuple_lock`.  The first argument of the stateful
ones is the number of collaborator calls made so far, so their answers may
change while the function runs. -/
structure LockEnv where
  heap_lock_tuple : Nat → ItemPointerData → CommandId → LockTupleMode → LockWaitPolicy →
    Bool → Except LockError LockAttempt
  heap_fetch : Nat → ItemPointerData → HeapFetchResult
  ConditionalXactLockTableWait : Nat → TransactionId → Bool
  TransactionIdIsCurrentTransactionId : TransactionId → Bool

/-- Calls made by `heapam_tuple_lock` that the theorems speak about. -/
inductive LockEvent
  | lockTuple (tid : ItemPointerData)
  | follow (src dst : ItemPointerData)
  | fetch (tid : ItemPointerData) (priorXmax : TransactionId)
  | xactLockTableWait (xid : TransactionId)
  | conditionalXactLockTableWait (xid : TransactionId)
  | storeTuple (tid : ItemPointerData)
  deriving DecidableEq, Repr

/-- Where control is: at the label `tuple_lock_retry` or at the top of the body
of the `for (;;)` loop. -/
inductive LockPc
  | tuple_lock_retry
  | fetch_loop
  deriving DecidableEq, Repr

/-- Variables of `heapam_tuple_lock`.  `hops` counts the assignments to `*tid`
(forward pointers followed), `attempts` the calls of `heap_lock_tuple`. -/
structure LockState where
  pc : LockPc
  clock : Nat
  tid : ItemPointerData
  t_self : ItemPointerData
  result : Option TM_Result
  priorXmax : TransactionId
  tmfd : TM_FailureData
  hops : Nat
  attempts : Nat
  trace : List LockEvent
  deriving DecidableEq, Repr

/-- Effect of one pass from the current control point to the next one. -/
inductive LockStep
  | next (s : LockState)
  | ret (r : TM_Result) (s : LockState)
  | error (e : LockError) (s : LockState)
  deriving DecidableEq, Repr

/-- From `tuple_lock_retry` (lines 1070-1100 and 1252-1265): one lock attempt
and the decision taken on its result. -/
def lockAttemptStep (env : LockEnv) (cid : CommandId) (mode : LockTupleMode)
    (wait_policy : LockWaitPolicy) (flags : Nat) (s : LockState) : LockStep :=
  let follow_updates : Bool := flags &&& TUPLE_LOCK_FLAG_LOCK_UPDATE_IN_PROGRESS != 0
  let s1 : LockState :=
    { s with
      t_self := s.tid
      clock := s.clock + 1
      attempts := s.attempts + 1
      trace := s.trace ++ [LockEvent.lockTuple s.tid] }
  match env.heap_lock_tuple s.clock s.tid cid mode wait_policy follow_updates with
  | Except.error e => LockStep.error e s1
  | Except.ok a =>
    let tmfd1 : TM_FailureData :=
      match a.failure with
      | some (ctid, xmax, cmax) => { s1.tmfd with ctid := ctid, xmax := xmax, cmax := cmax }
      | none => s1.tmfd
    let s2 : LockState := { s1 with result := some a.result, tmfd := tmfd1 }
    if a.result = TM_Result.TM_Updated ∧ flags &&& TUPLE_LOCK_FLAG_FIND_LAST_VERSION ≠ 0 then
      if s2.tmfd.ctid ≠ s2.t_self then
        LockStep.next
          { s2 with
            pc := LockPc.fetch_loop
            tid := s2.tmfd.ctid
            priorXmax := s2.tmfd.xmax
            tmfd := { s2.tmfd with traversed := true }
            hops := s2.hops + 1
            trace := s2.trace ++ [LockEvent.follow s2.t_self s2.tmfd.ctid] }
      else
        LockStep.ret TM_Result.TM_Deleted s2
    else
      LockStep.ret a.result { s2 with trace := s2.trace ++ [LockEvent.storeTuple s2.t_self] }

/-- One pass through the body of the `for (;;)` loop (lines 1102-1250). -/
def fetchStep (env : LockEnv) (cid : CommandId) (wait_policy : LockWaitPolicy)
    (s : LockState) : LockStep :=
  if ItemPointerIndicatesMovedPartitions s.tid then
    LockStep.error LockError.ERRCODE_T_R_SERIALIZATION_FAILURE s
  else
    let s1 : LockState :=
      { s with
        t_self := s.tid
        clock := s.clock + 1
        trace := s.trace ++ [LockEvent.fetch s.tid s.priorXmax] }
    match env.heap_fetch s.clock s.tid with
    | HeapFetchResult.visible hdr dirty_xmin dirty_xmax =>
      if hdr.xmin ≠ s1.priorXmax then
        LockStep.ret TM_Result.TM_Deleted s1
      else if TransactionIdIsValid dirty_xmin then
        LockStep.error LockError.ERRCODE_DATA_CORRUPTED s1
      else if TransactionIdIsValid dirty_xmax then
        match wait_policy with
        | LockWaitPolicy.LockWaitBlock =>
          LockStep.next
            { s1 with
              clock := s1.clock + 1
              trace := s1.trace ++ [LockEvent.xactLockTableWait dirty_xmax] }
        | LockWaitPolicy.LockWaitSkip =>
          let s2 : LockState :=
            { s1 with
              clock := s1.clock + 1
              trace := s1.trace ++ [LockEvent.conditionalXactLockTableWait dirty_xmax] }
          if !env.ConditionalXactLockTableWait s1.clock dirty_xmax then
            LockStep.ret TM_Result.TM_WouldBlock s2
          else LockStep.next s2
        | LockWaitPolicy.LockWaitError =>
          let s2 : LockState :=
            { s1 with
              clock := s1.clock + 1
              trace := s1.trace ++ [LockEvent.conditionalXactLockTableWait dirty_xmax] }
          if !env.ConditionalXactLockTableWait s1.clock dirty_xmax then
            LockStep.error LockError.ERRCODE_LOCK_NOT_AVAILABLE s2
          else LockStep.next s2
      else if env.TransactionIdIsCurrentTransactionId s1.priorXmax ∧ hdr.cmin ≥ cid then
        LockStep.ret TM_Result.TM_SelfModified
          { s1 with tmfd := { s1.tmfd with xmax := s1.priorXmax, cmax := hdr.cmin } }
      else
        LockStep.next { s1 with pc := LockPc.tuple_lock_retry }
    | HeapFetchResult.missing => LockStep.ret TM_Result.TM_Deleted s1
    | HeapFetchResult.invisible hdr =>
      if hdr.xmin ≠ s1.priorXmax then
        LockStep.ret TM_Result.TM_Deleted s1
      else if s1.t_self = hdr.t_ctid then
        LockStep.ret TM_Result.TM_Deleted s1
      else
        LockStep.next
          { s1 with
            tid := hdr.t_ctid
            priorXmax := hdr.update_xid
            hops := s1.hops + 1
            trace := s1.trace ++ [LockEvent.follow s1.t_self hdr.t_ctid] }

/-- One step of the `goto`/`for` state machine of `heapam_tuple_lock`. -/
def lockStep (env : LockEnv) (cid : CommandId) (mode : LockTupleMode)
    (wait_policy : LockWaitPolicy) (flags : Nat) (s : LockState) : LockStep :=
  match s.pc with
  | LockPc.tuple_lock_retry => lockAttemptStep env cid mode wait_policy flags s
  | LockPc.fetch_loop => fetchStep env cid wait_policy s

/-- How a call of `heapam_tuple_lock` ends: it returns a result or raises an error. -/
abbrev LockOutcome := Except LockError TM_Result × LockState

/-- Iteration of `lockStep`; `none` when the step budget is exhausted first. -/
def lockRun (env : LockEnv) (cid : CommandId) (mode : LockTupleMode)
    (wait_policy : LockWaitPolicy) (flags : Nat) : Nat → LockState → Option LockOutcome
  | 0, _ => none
  | fuel + 1, s =>
    match lockStep env cid mode wait_policy flags s with
    | LockStep.next s1 => lockRun env cid mode wait_policy flags fuel s1
    | LockStep.ret r s1 => some (Except.ok r, s1)
    | LockStep.error e s1 => some (Except.error e, s1)

/-- State at entry of `heapam_tuple_lock`: `tmfd->traversed = false`
(line 1066), control at `tuple_lock_retry`. -/
def lockInit (tid : ItemPointerData) (tuple_t_self : ItemPointerData) (tmfd : TM_FailureData) :
    LockState :=
  { pc := LockPc.tuple_lock_retry
    clock := 0
    tid := tid
    t_self := tuple_t_self
    result := none
    priorXmax := InvalidTransactionId
    tmfd := { tmfd with traversed := false }
    hops := 0
    attempts := 0
    trace := [] }

/-- The function `heapam_tuple_lock` (lines 1053-1266), run for at most `fuel`
passes through its two control points. -/
def heapam_tuple_lock (env : LockEnv) (fuel : Nat) (tid : ItemPointerData)
    (tuple_t_self : ItemPointerData) (cid : CommandId) (mode : LockTupleMode)
    (wait_policy : LockWaitPolicy) (flags : Nat) (tmfd : TM_FailureData) :
    Option LockOutcome :=
  lockRun env cid mode wait_policy flags fuel (lockInit tid tuple_t_self tmfd)

/-! ## Tuple update -/

/-- What `heap_update` or `heap_update_with_vc` leaves behind: its result, the
tuple's `t_self` after the call and the value of `HeapTupleIsHeapOnly(tuple)`. -/
structure UpdateOutcome where
  result : TM_Result
  t_self : ItemPointerData
  heap_only : Bool
  deriving DecidableEq, Repr

/-- Collaborators of the update callbacks.  `heap_update_with_vc` receives the
tuple position of the slot when the caller passes one (`NULL` otherwise). -/
structure UpdateEnv where
  heap_update : ItemPointerData → HeapTupleData → CommandId → Bool → UpdateOutcome
  heap_update_with_vc : ItemPointerData → Option LocatorTuplePositionData → HeapTupleData →
    CommandId → SnapshotData → Bool → UpdateOutcome

/-- What an update callback hands back: the returned result, `*update_indexes`,
the slot's `tts_tid` and `tts_tableOid`, and the tuple's `t_tableOid`. -/
structure UpdateResult where
  result : TM_Result
  update_indexes : Bool
  tts_tid : ItemPointerData
  tts_tableOid : Oid
  tuple_tableOid : Oid
  deriving DecidableEq, Repr

/-- The function `heapam_tuple_update` (lines 941-1002); `siro` is
`IsSiro(relation)`, `rel_id` is `RelationGetRelid(relation)`. -/
def heapam_tuple_update (env : UpdateEnv) (siro : Bool) (rel_id : Oid) (otid : ItemPointerData)
    (tuple : HeapTupleData) (cid : CommandId) (snapshot : SnapshotData) (wait : Bool) :
    UpdateResult :=
  let tts_tableOid := rel_id
  let tuple1 : HeapTupleData := { tuple with t_tableOid := tts_tableOid }
  let out : UpdateOutcome :=
    if siro then env.heap_update_with_vc otid none tuple1 cid snapshot wait
    else env.heap_update otid tuple1 cid wait
  let update_indexes : Bool :=
    if siro then false
    else out.result == TM_Result.TM_Ok && !out.heap_only
  { result := out.result
    update_indexes := update_indexes
    tts_tid := out.t_self
    tts_tableOid := tts_tableOid
    tuple_tableOid := tuple1.t_tableOid }

/-- The function `locatoram_tuple_update` (lines 1005-1050); `tts_tuple_position`
is the position held by the slot. -/
def locatoram_tuple_update (env : UpdateEnv) (rel_id : Oid) (otid : ItemPointerData)
    (tts_tuple_position : LocatorTuplePositionData) (tuple : HeapTupleData) (cid : CommandId)
    (snapshot : SnapshotData) (wait : Bool) : UpdateResult :=
  let tts_tableOid := rel_id
  let tuple1 : HeapTupleData := { tuple with t_tableOid := tts_tableOid }
  let out : UpdateOutcome :=
    env.heap_update_with_vc otid (some tts_tuple_position) tuple1 cid snapshot wait
  { result := out.result
    update_indexes := false
    tts_tid := out.t_self
    tts_tableOid := tts_tableOid
    tuple_tableOid := tuple1.t_tableOid }

/-! ## Bitmap heap scan of one block -/

/-- One result of the bitmap iterator (`TBMIterateResult`): a negative `ntuples`
marks a lossy page, otherwise `offsets[0..ntuples)` are the candidate offsets. -/
structure TBMIterateResult where
  blockno : BlockNumber
  ntuples : Int
  offsets : List OffsetNumber
  deriving DecidableEq, Repr

/-- Collaborators of `heapam_scan_bitmap_next_block` beyond those of the lossy
siro loop.  A HOT-chain search returns, when it finds a visible member, the
offset it leaves in `tid`; the search of a siro relation is also handed the
copy slot `rs_vistuples_copied[ntup]` and returns what it leaves there. -/
structure BitmapEnv extends ScanEnv where
  ReleaseAndReadBuffer : Buffer → BlockNumber → Buffer
  BufferGetPage : Buffer → Page
  heap_hot_search_buffer : ItemPointerData → Buffer → SnapshotData → Option OffsetNumber
  heap_hot_search_buffer_with_vc :
    ItemPointerData → Buffer → SnapshotData → Option HeapTupleData →
      Option OffsetNumber × Option HeapTupleData

/-- The fields of the heap scan descriptor used by the bitmap scan callbacks. -/
structure HeapScanDescData where
  scan : ScanState
  rs_cindex : Int
  rs_ntuples : Int
  rs_nblocks : BlockNumber
  rs_cbuf : Buffer
  rs_cblock : BlockNumber
  rs_ctup : HeapTupleData

/-- Body of the loop over `tbmres->offsets` for an exact page (lines 2987-3024). -/
def hotSearchOffset (env : BitmapEnv) (siro : Bool) (snapshot : SnapshotData)
    (page : BlockNumber) (buffer : Buffer) (s : ScanState) (offnum : OffsetNumber) :
    ScanState :=
  let tid : ItemPointerData := ⟨page, offnum⟩
  if siro then
    let r := env.heap_hot_search_buffer_with_vc tid buffer snapshot (s.rs_vistuples_copied s.ntup)
    let s1 : ScanState :=
      { s with rs_vistuples_copied := Function.update s.rs_vistuples_copied s.ntup r.2 }
    match r.1 with
    | some off =>
      { s1 with
        rs_vistuples := Function.update s1.rs_vistuples s1.ntup off
        ntup := s1.ntup + 1 }
    | none => s1
  else
    match env.heap_hot_search_buffer tid buffer snapshot with
    | some off =>
      { s with
        rs_vistuples := Function.update s.rs_vistuples s.ntup off
        ntup := s.ntup + 1 }
    | none => s

/-- Body of the loop over the line pointers of a lossy page of a relation that
is not siro (lines 3291-3311). -/
def scanPlainOffset (env : BitmapEnv) (snapshot : SnapshotData) (rel_id : Oid)
    (page : BlockNumber) (dp : Page) (s : ScanState) (offnum : OffsetNumber) : ScanState :=
  let lp := PageGetItemId dp offnum
  if !lp.normal then s
  else
    let loctup : HeapTupleData :=
      { t_data := some lp.item, t_len := lp.lp_len, t_tableOid := rel_id
        t_self := ⟨page, offnum⟩ }
    let valid := env.HeapTupleSatisfiesVisibility loctup snapshot
    let s1 : ScanState :=
      if valid then
        { s with
          rs_vistuples := Function.update s.rs_vistuples s.ntup offnum
          ntup := s.ntup + 1
          events := s.events ++ [ScanEvent.predicateLockTID offnum] }
      else s
    { s1 with events := s1.events ++ [ScanEvent.checkSerializableConflictOut valid offnum] }

/-- The function `heapam_scan_bitmap_next_block` (lines 2898-3355); `siro` is
`IsSiro(scan->rs_rd)` and `rel_id` is `RelationGetRelid(relation)`. -/
def heapam_scan_bitmap_next_block (env : BitmapEnv) (siro : Bool) (snapshot : SnapshotData)
    (curr_cmdtype : CmdType) (rel_id : Oid) (tbmres : TBMIterateResult)
    (hscan : HeapScanDescData) : Bool × HeapScanDescData :=
  let page := tbmres.blockno
  let h0 : HeapScanDescData := { hscan with rs_cindex := 0, rs_ntuples := 0 }
  if page ≥ h0.rs_nblocks then (false, h0)
  else
    let buffer := env.ReleaseAndReadBuffer h0.rs_cbuf page
    let h1 : HeapScanDescData := { h0 with rs_cbuf := buffer, rs_cblock := page }
    let sc0 : ScanState :=
      { h1.scan with
        ntup := 0
        events := h1.scan.events ++
          [ScanEvent.pagePrune buffer,
            if siro then ScanEvent.setPageRefUnit buffer else ScanEvent.lockBuffer buffer] }
    let sc1 : ScanState :=
      if tbmres.ntuples ≥ 0 then
        ((List.range tbmres.ntuples.toNat).map fun curslot => tbmres.offsets.getD curslot 0).foldl
          (hotSearchOffset env siro snapshot page buffer) sc0
      else
        let dp := env.BufferGetPage buffer
        if siro then
          heapam_scan_bitmap_next_block_siro_lossy env.toScanEnv snapshot curr_cmdtype rel_id
            page dp sc0
        else
          (List.range' FirstOffsetNumber (PageGetMaxOffsetNumber dp)).foldl
            (scanPlainOffset env snapshot rel_id page dp) sc0
    let sc2 : ScanState :=
      { sc1 with
        events := sc1.events ++
          [if siro then ScanEvent.decrPageRef buffer else ScanEvent.unlockBuffer buffer] }
    (decide (sc2.ntup > 0), { h1 with scan := sc2, rs_ntuples := sc2.ntup })

/-- The function `heapam_scan_bitmap_next_tuple` (lines 3357-3426); `siro` is
`IsSiro(scan->rs_rd)`, `rd_id` is `scan->rs_rd->rd_id`.  The last component is
the tuple held by the slot: the one handed to `ExecStoreBufferHeapTuple`, or the
previous content when the function returns false. -/
def heapam_scan_bitmap_next_tuple (env : BitmapEnv) (siro : Bool) (rd_id : Oid)
    (hscan : HeapScanDescData) (slot : Option HeapTupleData) :
    Bool × HeapScanDescData × Option HeapTupleData :=
  if hscan.rs_cindex < 0 ∨ hscan.rs_cindex ≥ hscan.rs_ntuples then (false, hscan, slot)
  else
    let targoffset := hscan.scan.rs_vistuples hscan.rs_cindex.toNat
    let dp := env.BufferGetPage hscan.rs_cbuf
    let lp := PageGetItemId dp targoffset
    let h1 : HeapScanDescData :=
      { hscan with
        rs_ctup :=
          { t_data := some lp.item, t_len := lp.lp_len, t_tableOid := rd_id
            t_self := ⟨hscan.rs_cblock, targoffset⟩ } }
    if siro then
      (true,
        { h1 with
          scan :=
            { h1.scan with
              rs_vistuples_copied :=
                Function.update h1.scan.rs_vistuples_copied h1.rs_cindex.toNat none }
          rs_cindex := h1.rs_cindex + 1 },
        h1.scan.rs_vistuples_copied h1.rs_cindex.toNat)
    else
      (true, { h1 with rs_cindex := h1.rs_cindex + 1 }, some h1.rs_ctup)

/-! ## Dual-reference bookkeeping -/

/-- A unit of the dual-reference counter held by a reader: the page-level unit of
the descriptor set up on a buffer, or the per-record unit `GetCheckVar` returns
for a locator. -/
inductive RefUnit
  | page (buf : Buffer)
  | record (offnum : OffsetNumber) (unit : Nat)
  deriving DecidableEq, Repr

/-- Acquisition or release of a unit. -/
inductive RefOp
  | acquire (u : RefUnit)
  | release (u : RefUnit)
  deriving DecidableEq, Repr

/-- The effect of a scan event on the dual reference: `SetPageRefUnit` acquires
the page unit, `GetCheckVar` acquires the record unit it returns unless that is
zero, `DRefDecrRefCnt` releases the unit it is given. -/
def ScanEvent.refOps : ScanEvent → List RefOp
  | ScanEvent.setPageRefUnit buf => [RefOp.acquire (RefUnit.page buf)]
  | ScanEvent.decrPageRef buf => [RefOp.release (RefUnit.page buf)]
  | ScanEvent.getCheckVar offnum unit =>
    if unit ≠ 0 then [RefOp.acquire (RefUnit.record offnum unit)] else []
  | ScanEvent.decrRefCnt offnum unit => [RefOp.release (RefUnit.record offnum unit)]
  | _ => []

/-- The effect of a fetch event on the dual reference. -/
def FetchEvent.refOps : FetchEvent → List RefOp
  | FetchEvent.setPageRefUnit buf => [RefOp.acquire (RefUnit.page buf)]
  | FetchEvent.decrPageRef buf => [RefOp.release (RefUnit.page buf)]
  | _ => []

def scanRefOps : List ScanEvent → List RefOp
  | [] => []
  | e :: rest => e.refOps ++ scanRefOps rest

def fetchRefOps : List FetchEvent → List RefOp
  | [] => []
  | e :: rest => e.refOps ++ fetchRefOps rest

/-- Replays acquisitions and releases on the multiset of units held; fails
(`none`) at a release of a unit that is not held. -/
def refRun : List RefUnit → List RefOp → Option (List RefUnit)
  | held, [] => some held
  | held, RefOp.acquire u :: rest => refRun (u :: held) rest
  | held, RefOp.release u :: rest =>
    if u ∈ held then refRun (held.erase u) rest else none

/-- Every acquisition is followed by exactly one release of the same unit and
nothing else is released: whatever is held before is what is held after. -/
def refBalanced (ops : List RefOp) : Prop := ∀ held, refRun held ops = some held

/-- One acquisition of a page unit and its release. -/
def pagePair (buf : Buffer) : List RefOp :=
  [RefOp.acquire (RefUnit.page buf), RefOp.release (RefUnit.page buf)]

/-- The acquisition and release expected for the line pointer `offnum` of a
siro page: none unless it is a locator and `GetCheckVar` returns a unit. -/
def recordPair (env : ScanEnv) (dp : Page) (offnum : OffsetNumber) : List RefOp :=
  if (PageGetItemId dp offnum).pleaf_flag = true ∧ (env.GetCheckVar offnum).rec_ref_unit ≠ 0 then
    [RefOp.acquire (RefUnit.record offnum (env.GetCheckVar offnum).rec_ref_unit),
      RefOp.release (RefUnit.record offnum (env.GetCheckVar offnum).rec_ref_unit)]
  else []

def recordPairs (env : ScanEnv) (dp : Page) : List OffsetNumber → List RefOp
  | [] => []
  | offnum :: rest => recordPair env dp offnum ++ recordPairs env dp rest

/-- The acquisitions and releases expected of `heapam_scan_bitmap_next_block`:
none for a block past the end or a relation that is not siro; otherwise the
page unit of the buffer read, around the record units of a lossy page. -/
def bitmapBlockRefOps (env : BitmapEnv) (siro : Bool) (tbmres : TBMIterateResult)
    (hscan : HeapScanDescData) : List RefOp :=
  let buffer := env.ReleaseAndReadBuffer hscan.rs_cbuf tbmres.blockno
  let dp := env.BufferGetPage buffer
  if tbmres.blockno ≥ hscan.rs_nblocks ∨ siro = false then []
  else
    [RefOp.acquire (RefUnit.page buffer)] ++
      (if tbmres.ntuples ≥ 0 then []
        else recordPairs env.toScanEnv dp (List.range' FirstOffsetNumber (PageGetMaxOffsetNumber dp)))
      ++ [RefOp.release (RefUnit.page buffer)]

/-- The log `after` extends `before` by events whose effect on the dual
reference is `ops`. -/
def ScanRefs (before after : List ScanEvent) (ops : List RefOp) : Prop :=
  ∃ evs, after = before ++ evs ∧ scanRefOps evs = ops

/-- The effect on the dual reference of the scan events logged from `s` to `u`. -/
def newScanRefOps (s u : ScanState) : List RefOp :=
  scanRefOps (u.events.drop s.events.length)

/-- The effect on the dual reference of the fetch events logged after the first `k`. -/
def newFetchRefOps (k : Nat) (evs : List FetchEvent) : List RefOp :=
  fetchRefOps (evs.drop k)

/-! ## Foreign table over the key-value store (`lsm_fdw.c`)

The build modelled has neither `LASER` nor `LSM_TXN` defined.  Buffers are
lists of bytes; the store is reached through `LsmLookup` and `LsmReadNext`. -/

/-- Collaborators of the foreign-table callbacks.  `LsmLookup` returns the value
it writes to the buffer when it finds the key.  `LsmReadNext rel cursor i` is
the `i`-th batch the cursor delivers: whether more batches follow, and the
bytes of the batch.  `SerializeAttribute index datum` and
`SerializeNullAttribute datum` are the bytes the serializers append. -/
structure LsmEnv where
  LsmLookup : Oid → List Nat → Option (List Nat)
  LsmReadNext : Oid → Nat → Nat → Bool × List Nat
  operatorName : Oid → Option String
  paramValue : Nat → Nat
  ShortVarlena : Nat → Oid → Nat
  SerializeAttribute : Nat → Nat → List Nat
  SerializeNullAttribute : Nat → List Nat

/-- The fields of `TableReadState`; `next` is the offset of the pointer `next`
into `buf`. -/
structure TableReadState where
  isKeyBased : Bool
  operationId : Nat
  done : Bool
  key : Option (List Nat)
  hasNext : Bool
  buf : List Nat
  bufLen : Nat
  next : Int
  deriving DecidableEq, Repr

/-- Calls to the store that the theorems speak about. -/
inductive LsmEvent
  | lookup (key : List Nat)
  | readNext (operationId : Nat)
  deriving DecidableEq, Repr

/-- The scan node as the callbacks see it: `fdw_state`, the scan tuple slot
(empty, or holding the row deserialized from the given key and value bytes), the
number of batches already taken from the cursor, and the log of calls. -/
structure ForeignScanState where
  fdw_state : TableReadState
  slot : Option (List Nat × List Nat)
  batchesRead : Nat
  events : List LsmEvent
  deriving DecidableEq, Repr

/-- Errors raised with `ereport(ERROR, ...)` in `lsm_fdw.c`. -/
inductive LsmError
  | operatorCacheLookupFailed (opno : Oid)
  | firstColumnNull
  deriving DecidableEq, Repr

/-- The message of an error. -/
def LsmError.errmsg : LsmError → String
  | LsmError.operatorCacheLookupFailed _ => "LSM: cache lookup failed for operator"
  | LsmError.firstColumnNull => "LSM: first column cannot be null!"

/-- The expression nodes `GetKeyBasedQual` tells apart. -/
inductive QualNode
  | null
  | other
  | var (varattno : Nat)
  | const (constvalue : Nat) (consttype : Oid)
  | param (paramid : Nat) (paramtype : Oid)
  | relabelType (arg : QualNode)
  | opExpr (opno : Oid) (args : List QualNode)

/-- The function `GetKeyBasedQual` (lines 157-236). -/
def GetKeyBasedQual (env : LsmEnv) (node : QualNode) (readState : TableReadState) :
    Except LsmError TableReadState :=
  match node with
  | QualNode.opExpr opno [left, right0] =>
    match left with
    | QualNode.var varattno =>
      let right : QualNode :=
        match right0 with
        | QualNode.relabelType arg => arg
        | r => r
      let key : Option (Nat × Oid) :=
        match right with
        | QualNode.const constvalue consttype => some (constvalue, consttype)
        | QualNode.param paramid paramtype => some (env.paramValue (paramid - 1), paramtype)
        | _ => none
      match key with
      | none => Except.ok readState
      | some (keyDatum, keyType) =>
        if varattno ≠ 1 then Except.ok readState
        else
          match env.operatorName opno with
          | none => Except.error (LsmError.operatorCacheLookupFailed opno)
          | some oprname =>
            if oprname ≠ "=" then Except.ok readState
            else
              Except.ok
                { readState with
                  isKeyBased := true
                  key := some (env.SerializeAttribute (varattno - 1)
                    (env.ShortVarlena keyDatum keyType)) }
    | _ => Except.ok readState
  | _ => Except.ok readState

/-- The loop `foreach (lc, plan->qual)` of `BeginForeignScan` (lines 343-353). -/
def scanQuals (env : LsmEnv) : List QualNode → TableReadState → Except LsmError TableReadState
  | [], readState => Except.ok readState
  | node :: rest, readState =>
    match GetKeyBasedQual env node readState with
    | Except.error e => Except.error e
    | Except.ok rs => if rs.isKeyBased then Except.ok rs else scanQuals env rest rs

/-- The function `BeginForeignScan` (lines 238-365); `operationId` is the static
counter before the call, the second component of the result its value after. -/
def BeginForeignScan (env : LsmEnv) (relationId : Oid) (quals : List QualNode)
    (explainOnly : Bool) (operationId : Nat) : Except LsmError (ForeignScanState × Nat) :=
  let readState : TableReadState :=
    { isKeyBased := false, operationId := 0, done := false, key := none, hasNext := false
      buf := [], bufLen := 0, next := 0 }
  let st : ForeignScanState := { fdw_state := readState, slot := none, batchesRead := 0, events := [] }
  if explainOnly then Except.ok (st, operationId)
  else
    match scanQuals env quals readState with
    | Except.error e => Except.error e
    | Except.ok rs =>
      if !rs.isKeyBased then
        let id := operationId + 1
        let r := env.LsmReadNext relationId id 0
        Except.ok
          ({ st with
              fdw_state :=
                { rs with
                  hasNext := r.1, buf := r.2, bufLen := r.2.length, next := 0
                  operationId := id }
              batchesRead := 1
              events := [LsmEvent.readNext id] },
            id)
      else Except.ok ({ st with fdw_state := rs }, operationId)

/-- The value of a C `int` holding the 32-bit pattern `n`. -/
def toInt32 (n : Nat) : Int :=
  if n % 2 ^ 32 < 2 ^ 31 then (n % 2 ^ 32 : Nat) else (n % 2 ^ 32 : Nat) - 2 ^ 32

/-- The value of a `size_t` assigned from a C `int`. -/
def toSizeT (len : Int) : Nat := (len % 2 ^ 64).toNat

/-- The `n` bytes of `buf` from offset `pos` on. -/
def bytesAt (buf : List Nat) (pos : Int) (n : Nat) : List Nat :=
  (buf.drop pos.toNat).take n

/-- The function `GetNextFromBatch` (lines 442-484).  Returns `found` and, when
a record was found, its key and value bytes. -/
def GetNextFromBatch (env : LsmEnv) (relationId : Oid) (st : ForeignScanState) :
    Bool × ForeignScanState × List Nat × List Nat :=
  let rs := st.fdw_state
  let r : Bool × ForeignScanState :=
    if rs.next < rs.bufLen then (true, st)
    else if rs.hasNext then
      let b := env.LsmReadNext relationId rs.operationId st.batchesRead
      (decide (b.2.length > 0),
        { st with
          fdw_state := { rs with hasNext := b.1, buf := b.2, bufLen := b.2.length, next := 0 }
          batchesRead := st.batchesRead + 1
          events := st.events ++ [LsmEvent.readNext rs.operationId] })
    else (false, st)
  if r.1 then
    let rs1 := r.2.fdw_state
    let klen := toInt32 (memcpy_le rs1.buf rs1.next.toNat 4)
    let kpos := rs1.next + 4
    let vlen := toInt32 (memcpy_le rs1.buf (kpos + klen).toNat 4)
    let vpos := kpos + klen + 4
    (true, { r.2 with fdw_state := { rs1 with next := vpos + vlen } },
      bytesAt rs1.buf kpos (toSizeT klen), bytesAt rs1.buf vpos (toSizeT vlen))
  else (false, r.2, [], [])

/-- The function `IterateForeignScan` (lines 486-560).  `DeserializeTuple` and
`ExecStoreVirtualTuple` are represented by the key and value bytes the row is
built from. -/
def IterateForeignScan (env : LsmEnv) (relationId : Oid) (st : ForeignScanState) :
    ForeignScanState :=
  let st0 : ForeignScanState := { st with slot := none }
  let readState := st0.fdw_state
  let r : Bool × ForeignScanState × List Nat × List Nat :=
    if readState.isKeyBased then
      if !readState.done then
        let k := readState.key.getD []
        let st1 : ForeignScanState :=
          { st0 with events := st0.events ++ [LsmEvent.lookup k] }
        match env.LsmLookup relationId k with
        | some v =>
          (true,
            { st1 with
              fdw_state :=
                { readState with done := true, buf := v ++ readState.buf.drop v.length } },
            k, v)
        | none => (false, { st1 with fdw_state := { readState with done := true } }, [], [])
      else (false, st0, [], [])
    else GetNextFromBatch env relationId st0
  if r.1 then { r.2.1 with slot := some (r.2.2.1, r.2.2.2) }
  else r.2.1

/-- The function `ReScanForeignScan` (lines 562-572): it only reports a debug
message. -/
def ReScanForeignScan (st : ForeignScanState) : ForeignScanState := st

/-- The function `SerializeTuple` (lines 797-821) from column `index` on;
`cols` are the pairs `(tts_values[i], tts_isnull[i])` still to be visited.  An
error carries the buffers as they are when it is raised. -/
def serializeColumns (env : LsmEnv) :
    Nat → List (Nat × Bool) → List Nat → List Nat →
      Except (LsmError × List Nat × List Nat) (List Nat × List Nat)
  | _, [], key, val => Except.ok (key, val)
  | index, (datum, isnull) :: rest, key, val =>
    if isnull then
      if index = 0 then Except.error (LsmError.firstColumnNull, key, val)
      else serializeColumns env (index + 1) rest key (val ++ env.SerializeNullAttribute datum)
    else if index = 0 then
      serializeColumns env (index + 1) rest (key ++ env.SerializeAttribute index datum) val
    else
      serializeColumns env (index + 1) rest key (val ++ env.SerializeAttribute index datum)

/-- The function `SerializeTuple` (lines 797-821). -/
def SerializeTuple (env : LsmEnv) (cols : List (Nat × Bool)) (key val : List Nat) :
    Except (LsmError × List Nat × List Nat) (List Nat × List Nat) :=
  serializeColumns env 0 cols key val

/-! ## The access-method tables -/

/-- The table `heapam_methods` (lines 3699-3762, with `DIVA` defined): field
name and registered function, in source order. -/
def heapam_methods : List (String × String) :=
  [("slot_callbacks", "heapam_slot_callbacks"),
    ("scan_begin", "heap_beginscan"),
    ("scan_end", "heap_endscan"),
    ("scan_rescan", "heap_rescan"),
    ("scan_getnextslot", "heap_getnextslot"),
    ("scan_getnextslot_from_ebi", "ebi_getnextslot"),
    ("scan_set_tidrange", "heap_set_tidrange"),
    ("scan_getnextslot_tidrange", "heap_getnextslot_tidrange"),
    ("parallelscan_estimate", "table_block_parallelscan_estimate"),
    ("parallelscan_initialize", "table_block_parallelscan_initialize"),
    ("parallelscan_reinitialize", "table_block_parallelscan_reinitialize"),
    ("index_fetch_begin", "heapam_index_fetch_begin"),
    ("index_fetch_reset", "heapam_index_fetch_reset"),
    ("index_fetch_end", "heapam_index_fetch_end"),
    ("index_fetch_tuple", "heapam_index_fetch_tuple"),
    ("tuple_insert", "heapam_tuple_insert"),
    ("tuple_insert_speculative", "heapam_tuple_insert_speculative"),
    ("tuple_complete_speculative", "heapam_tuple_complete_speculative"),
    ("multi_insert", "heap_multi_insert"),
    ("tuple_delete", "heapam_tuple_delete"),
    ("tuple_update", "heapam_tuple_update"),
    ("tuple_lock", "heapam_tuple_lock"),
    ("tuple_fetch_row_version", "heapam_fetch_row_version"),
    ("tuple_search_row_version", "heapam_search_row_version"),
    ("tuple_get_latest_tid", "heap_get_latest_tid"),
    ("tuple_tid_valid", "heapam_tuple_tid_valid"),
    ("tuple_satisfies_snapshot", "heapam_tuple_satisfies_snapshot"),
    ("index_delete_tuples", "heap_index_delete_tuples"),
    ("relation_set_new_filenode", "heapam_relation_set_new_filenode"),
    ("relation_nontransactional_truncate", "heapam_relation_nontransactional_truncate"),
    ("relation_copy_data", "heapam_relation_copy_data"),
    ("relation_copy_for_cluster", "heapam_relation_copy_for_cluster"),
    ("relation_vacuum", "heap_vacuum_rel"),
    ("scan_analyze_next_block", "heapam_scan_analyze_next_block"),
    ("scan_analyze_next_tuple", "heapam_scan_analyze_next_tuple"),
    ("index_build_range_scan", "heapam_index_build_range_scan"),
    ("index_validate_scan", "heapam_index_validate_scan"),
    ("relation_size", "table_block_relation_size"),
    ("relation_needs_toast_table", "heapam_relation_needs_toast_table"),
    ("relation_toast_am", "heapam_relation_toast_am"),
    ("relation_fetch_toast_slice", "heap_fetch_toast_slice"),
    ("relation_estimate_size", "heapam_estimate_rel_size"),
    ("scan_bitmap_next_block", "heapam_scan_bitmap_next_block"),
    ("scan_bitmap_next_tuple", "heapam_scan_bitmap_next_tuple"),
    ("scan_sample_next_block", "heapam_scan_sample_next_block"),
    ("scan_sample_next_tuple", "heapam_scan_sample_next_tuple")]

/-- The table `locatoram_methods` (lines 3809-3870). -/
def locatoram_methods : List (String × String) :=
  [("slot_callbacks", "heapam_slot_callbacks"),
    ("scan_begin", "locator_beginscan"),
    ("scan_end", "locator_endscan"),
    ("scan_rescan", "locator_rescan"),
    ("scan_getnextslot", "locator_getnextslot"),
    ("scan_getnextslot_from_ebi", "ebi_getnextslot"),
    ("scan_set_tidrange", "heap_set_tidrange"),
    ("scan_getnextslot_tidrange", "heap_getnextslot_tidrange"),
    ("parallelscan_estimate", "table_block_parallelscan_estimate"),
    ("parallelscan_initialize", "table_block_parallelscan_initialize"),
    ("parallelscan_reinitialize", "table_block_parallelscan_reinitialize"),
    ("index_fetch_begin", "heapam_index_fetch_begin"),
    ("index_fetch_reset", "heapam_index_fetch_reset"),
    ("index_fetch_end", "heapam_index_fetch_end"),
    ("index_fetch_tuple", "locatoram_index_fetch_tuple"),
    ("tuple_insert", "locatoram_tuple_insert"),
    ("tuple_insert_speculative", "heapam_tuple_insert_speculative"),
    ("tuple_complete_speculative", "heapam_tuple_complete_speculative"),
    ("multi_insert", "heap_multi_insert"),
    ("tuple_delete", "heapam_tuple_delete"),
    ("tuple_update", "locatoram_tuple_update"),
    ("tuple_lock", "heapam_tuple_lock"),
    ("tuple_fetch_row_version", "heapam_fetch_row_version"),
    ("tuple_search_row_version", "locatoram_search_row_version"),
    ("tuple_get_latest_tid", "heap_get_latest_tid"),
    ("tuple_tid_valid", "heapam_tuple_tid_valid"),
    ("tuple_satisfies_snapshot", "heapam_tuple_satisfies_snapshot"),
    ("index_delete_tuples", "heap_index_delete_tuples"),
    ("relation_set_new_filenode", "heapam_relation_set_new_filenode"),
    ("relation_nontransactional_truncate", "heapam_relation_nontransactional_truncate"),
    ("relation_copy_data", "heapam_relation_copy_data"),
    ("relation_copy_for_cluster", "heapam_relation_copy_for_cluster"),
    ("relation_vacuum", "heap_vacuum_rel"),
    ("scan_analyze_next_block", "heapam_scan_analyze_next_block"),
    ("scan_analyze_next_tuple", "heapam_scan_analyze_next_tuple"),
    ("index_build_range_scan", "heapam_index_build_range_scan"),
    ("index_validate_scan", "heapam_index_validate_scan"),
    ("relation_size", "table_block_relation_size"),
    ("relation_needs_toast_table", "heapam_relation_needs_toast_table"),
    ("relation_toast_am", "heapam_relation_toast_am"),
    ("relation_fetch_toast_slice", "heap_fetch_toast_slice"),
    ("relation_estimate_size", "heapam_estimate_rel_size"),
    ("scan_bitmap_next_block", "heapam_scan_bitmap_next_block"),
    ("scan_bitmap_next_tuple", "heapam_scan_bitmap_next_tuple"),
    ("scan_sample_next_block", "heapam_scan_sample_next_block"),
    ("scan_sample_next_tuple", "heapam_scan_sample_next_tuple")]

/-- The kind of a relation: the values of `IsSiro(relation)` and
`IsLocator(relation)`. -/
structure RelationKind where
  siro : Bool
  locator : Bool
  deriving DecidableEq, Repr

/-- The functions of `heapam_handler.c` among the registered callbacks; the
others (`heap_*`, `locator_*`, `ebi_*`, `table_block_*`) are defined elsewhere. -/
def definedInHandler (fn : String) : Bool :=
  "heapam_".toList.isPrefixOf fn.toList || "locatoram_".toList.isPrefixOf fn.toList

/-- The assertions on the kind of the relation that a function of
`heapam_handler.c` makes at its entry (lines 159, 377, 501, 542, 720-721,
1015-1016 and 2922); a function without such an assertion accepts every kind. -/
def entryAssertion (fn : String) (k : RelationKind) : Bool :=
  if fn = "heapam_index_fetch_tuple" then !k.locator
  else if fn = "locatoram_index_fetch_tuple" then k.siro && k.locator
  else if fn = "heapam_fetch_row_version" then !k.siro
  else if fn = "heapam_search_row_version" then k.siro
  else if fn = "locatoram_search_row_version" then k.siro && k.locator
  else if fn = "locatoram_tuple_update" then k.siro && k.locator
  else if fn = "heapam_scan_bitmap_next_block" then !k.locator
  else true

/-- The fields at which two tables register different functions. -/
def replacedFields (t1 t2 : List (String × String)) : List String :=
  ((t1.zip t2).filter fun e => e.1.2 != e.2.2).map fun e => e.1.1

/-! ## Visibility of a sampled tuple -/

/-- The value a C `int` takes when the mathematical result of an operation is
`x` (two's complement wrap-around). -/
def wrapInt32 (x : Int) : Int := (x + 2147483648) % 4294967296 - 2147483648

/-- The loop `while (start <= end)` of `SampleHeapTupleVisible` (lines
3664-3676), run for at most `fuel` iterations.  Returns the value returned and
the number of iterations made; `none` when the budget is exhausted first. -/
def sampleSearchLoop (rs_vistuples : Nat → OffsetNumber) (tupoffset : OffsetNumber) :
    Nat → Int → Int → Option (Bool × Nat)
  | 0, start, stop => if start ≤ stop then none else some (false, 0)
  | fuel + 1, start, stop =>
    if start ≤ stop then
      let mid := Int.tdiv (wrapInt32 (start + stop)) 2
      let curoffset := rs_vistuples mid.toNat
      if tupoffset = curoffset then some (true, 1)
      else if tupoffset < curoffset then
        (sampleSearchLoop rs_vistuples tupoffset fuel start (wrapInt32 (mid - 1))).map
          fun r => (r.1, r.2 + 1)
      else
        (sampleSearchLoop rs_vistuples tupoffset fuel (wrapInt32 (mid + 1)) stop).map
          fun r => (r.1, r.2 + 1)
    else some (false, 0)

/-- The function `SampleHeapTupleVisible` (lines 3649-3691); `pagemode` is
`scan->rs_flags & SO_ALLOW_PAGEMODE` and `satisfies` the answer of
`HeapTupleSatisfiesVisibility` for the tuple. -/
def SampleHeapTupleVisible (pagemode : Bool) (satisfies : Bool) (rs_ntuples : Int)
    (rs_vistuples : Nat → OffsetNumber) (tupoffset : OffsetNumber) (fuel : Nat) :
    Option (Bool × Nat) :=
  if pagemode then
    sampleSearchLoop rs_vistuples tupoffset fuel 0 (wrapInt32 (rs_ntuples - 1))
  else some (satisfies, 0)

/-! ## Notions used to state the properties -/

/-- Whether an event is a call of the external chain lookup. -/
def ScanEvent.isChainLookup : ScanEvent → Bool
  | ScanEvent.pleafLookupTuple _ _ => true
  | _ => false

/-- The events logged after the first `k`. -/
def eventsSince (k : Nat) (evs : List ScanEvent) : List ScanEvent := evs.drop k

/-- The descriptor handed to the visibility test for the slot `test_var` of the
locator at `offnum`. -/
def slotTuple (dp : Page) (page : BlockNumber) (rel_id : Oid) (offnum : OffsetNumber)
    (test_var : Nat) : HeapTupleData :=
  { t_len := (PageGetItemId dp (offnum + test_var)).lp_len
    t_self := ⟨page, offnum⟩
    t_tableOid := rel_id
    t_data := some (PageGetItemId dp (offnum + test_var)).item }

/-- A slot is checked when `check_var` selects it and its line pointer is in use. -/
def slotChecked (dp : Page) (offnum : OffsetNumber) (cv : CheckVar) (test_var : Nat) : Bool :=
  (cv.check_var &&& test_var != 0) && !(PageGetItemId dp (offnum + test_var)).ovr_unused

/-- A slot is visible when it is checked and passes the visibility test. -/
def slotVisible (env : ScanEnv) (snapshot : SnapshotData) (dp : Page) (page : BlockNumber)
    (rel_id : Oid) (offnum : OffsetNumber) (cv : CheckVar) (test_var : Nat) : Bool :=
  slotChecked dp offnum cv test_var &&
    env.HeapTupleSatisfiesVisibility (slotTuple dp page rel_id offnum test_var) snapshot

/-- The first visible slot in the order right, left. -/
def firstVisibleSlot (env : ScanEnv) (snapshot : SnapshotData) (dp : Page) (page : BlockNumber)
    (rel_id : Oid) (offnum : OffsetNumber) (cv : CheckVar) : Option Nat :=
  [CHECK_RIGHT, CHECK_LEFT].find? fun tv => slotVisible env snapshot dp page rel_id offnum cv tv

/-- The offset the chain part passes to the lookup for a locator with bytes `p`. -/
def chosenOffset (env : ScanEnv) (snapshot : SnapshotData) (p : List Nat) : Nat :=
  if env.PLeafIsLeftLookup (memcpy_le p 0 8) (memcpy_le p 8 8) (memcpy_le p 16 4) snapshot then
    memcpy_le p 0 8
  else memcpy_le p 8 8

/-- The outcome of resolving one locator on the way from state `s` to state `u`:
the version stored for it, or `none` when no entry was added. -/
def emitted (s u : ScanState) : Option HeapTupleData :=
  if u.ntup = s.ntup + 1 then u.rs_vistuples_copied s.ntup else none

/-- The descriptor `v_loctup` after a chain lookup for a locator with bytes `p`:
length and data are those the lookup stored, if it stored any. -/
def chainTuple (env : ScanEnv) (snapshot : SnapshotData) (rel_id : Oid) (p : List Nat)
    (v : HeapTupleData) : HeapTupleData :=
  match (env.PLeafLookupTuple rel_id (chosenOffset env snapshot p) snapshot).out with
  | some (len, data) => { v with t_len := len, t_data := some data }
  | none => v

/-- Successive calls of `heapam_scan_bitmap_next_tuple` on the same block: what
each call returns with the content of the slot after it, and the descriptor and
slot after the last call. -/
def bitmapNextTuples (env : BitmapEnv) (siro : Bool) (rd_id : Oid) :
    Nat → HeapScanDescData → Option HeapTupleData →
      List (Bool × Option HeapTupleData) × HeapScanDescData × Option HeapTupleData
  | 0, hscan, slot => ([], hscan, slot)
  | k + 1, hscan, slot =>
    let r := heapam_scan_bitmap_next_tuple env siro rd_id hscan slot
    let rest := bitmapNextTuples env siro rd_id k r.2.1 r.2.2
    ((r.1, r.2.2) :: rest.1, rest.2)

/-- The tuple expected in the slot for entry `i` of the block described by
`hscan`: the stored copy for a siro relation, otherwise the tuple on the page at
the offset `rs_vistuples[i]`. -/
def entryTuple (env : BitmapEnv) (siro : Bool) (rd_id : Oid) (hscan : HeapScanDescData)
    (i : Nat) : Option HeapTupleData :=
  if siro then hscan.scan.rs_vistuples_copied i
  else
    some
      { t_data := some (PageGetItemId (env.BufferGetPage hscan.rs_cbuf)
          (hscan.scan.rs_vistuples i)).item
        t_len := (PageGetItemId (env.BufferGetPage hscan.rs_cbuf)
          (hscan.scan.rs_vistuples i)).lp_len
        t_tableOid := rd_id
        t_self := ⟨hscan.rs_cblock, hscan.scan.rs_vistuples i⟩ }

/-- Successive calls of `IterateForeignScan`: the slot each call returns and the
state after the last call. -/
def iterateForeignScans (env : LsmEnv) (relationId : Oid) :
    Nat → ForeignScanState → List (Option (List Nat × List Nat)) × ForeignScanState
  | 0, st => ([], st)
  | n + 1, st =>
    let st1 := IterateForeignScan env relationId st
    let rest := iterateForeignScans env relationId n st1
    (st1.slot :: rest.1, rest.2)

/-- Whether an event is a key lookup against the store. -/
def LsmEvent.isLookup : LsmEvent → Bool
  | LsmEvent.lookup _ => true
  | _ => false

/-- The bytes columns `1 .. n-1` of a row contribute, in increasing column
order; `cols` are the columns after the first. -/
def valueColumnBytes (env : LsmEnv) (cols : List (Nat × Bool)) : List Nat :=
  ((cols.enumFrom 1).map fun c =>
    if c.2.2 then env.SerializeNullAttribute c.2.1 else env.SerializeAttribute c.1 c.2.1).flatten

/-- The chain lookups among a list of events. -/
def chainLookups (evs : List ScanEvent) : List ScanEvent :=
  evs.filter ScanEvent.isChainLookup

/-- The chain lookups logged on the way from state `s` to state `u`. -/
def newChainLookups (s u : ScanState) : List ScanEvent :=
  chainLookups (eventsSince s.events.length u.events)

/-! ## A concrete page and environment -/

/-- Bytes of a locator with the given chain offsets and boundary id (each below 256). -/
def locatorBytes (l_off r_off xid_bound : Nat) : List Nat :=
  [l_off, 0, 0, 0, 0, 0, 0, 0, r_off, 0, 0, 0, 0, 0, 0, 0, xid_bound, 0, 0, 0]

def locatorItem (l_off r_off xid_bound : Nat) : ItemIdData :=
  { pleaf_flag := true, ovr_unused := false, normal := true, lp_len := 20
    item := locatorBytes l_off r_off xid_bound }

def versionItem (payload : Nat) : ItemIdData :=
  { pleaf_flag := false, ovr_unused := false, normal := true, lp_len := 1, item := [payload] }

def unusedItem : ItemIdData :=
  { pleaf_flag := false, ovr_unused := true, normal := false, lp_len := 0, item := [] }

/-- A page with four rows: line pointers 1, 4, 7 and 10 are locators, each
followed by its left and right slot.  Row 1 has invisible slots and a chain at
offset 7, row 4 a visible left slot, row 7 invisible slots and no chain, row 10
invisible slots and a chain at offset 8. -/
def samplePage : Page where
  maxoff := 12
  lp := fun o =>
    match o with
    | 1 => locatorItem 7 0 5
    | 2 => versionItem 0
    | 3 => versionItem 0
    | 4 => locatorItem 0 0 0
    | 5 => versionItem 1
    | 6 => unusedItem
    | 7 => locatorItem 0 0 0
    | 8 => versionItem 0
    | 9 => versionItem 0
    | 10 => locatorItem 0 8 5
    | 11 => versionItem 0
    | 12 => versionItem 0
    | _ => unusedItem

/-- An environment in which a version is visible when its payload is `[1]`, both
slots are always checked, the left chain is chosen when the snapshot's `xmin`
is below the boundary id, and only the chain at offset 7 holds a version. -/
def sampleEnv : ScanEnv where
  HeapTupleSatisfiesVisibility := fun tup _ => tup.t_data == some [1]
  GetCheckVar := fun _ => { rec_ref_unit := 1, check_var := CHECK_BOTH, set_hint_bits := false }
  PLeafIsLeftLookup := fun _ _ xid_bound snapshot => decide (snapshot.xmin < xid_bound)
  PLeafLookupTuple := fun _ p_offset _ =>
    if p_offset = 7 then { ret_id := 3, out := some (2, [4, 2]) }
    else { ret_id := -1, out := none }

def sampleSnapshot : SnapshotData :=
  { snapshot_type := SnapshotType.SNAPSHOT_MVCC, xmin := 3, xmax := 9, curcid := 0 }

def sampleScanState : ScanState where
  ntup := 0
  rs_vistuples := fun _ => 0
  rs_vistuples_copied := fun _ => none
  counter_in_heap := 0
  counter_in_ebi := 0
  v_loctup := { t_len := 0, t_self := ⟨0, 0⟩, t_tableOid := 42, t_data := none }
  events := []

/-- The page requests logged after the first `k` events. -/
def newPartitionRequests (k : Nat) (evs : List FetchEvent) : List PartitionBufferRequest :=
  partitionRequests (evs.drop k)

/-- The physical address `(level, partition, generation, block)` of a position
for `d` records per block. -/
def positionAddress (pos : LocatorTuplePositionData) (d : Nat) : PartitionBufferRequest :=
  { level := pos.partitionLevel
    number := pos.partitionNumber
    generation := pos.partitionGenerationNumber
    block := pos.partitionTuplePosition / d }

/-- A fetch environment with row-oriented partitions of 8 records per block in
which every route synopsis resolves to position 21 of partition (1, 2, 3). -/
def sampleFetchEnv : FetchEnv where
  ReadBuffer := fun block => block + 1
  ReleaseAndReadBuffer := fun _ block => block + 1
  LocatorReleaseAndReadBuffer := fun _ req => req.block + 1
  ReadPartitionBufferExtended := fun req => req.block + 1
  heap_hot_search_buffer := fun _ _ _ _ => true
  heap_hot_search_buffer_with_vc := fun _ _ _ _ => (true, -1)
  locator_search_version := fun _ _ _ _ => (true, -1)
  locator_search_and_deform_version := fun _ _ _ _ => (true, -1)
  locator_is_columnar_layout := fun _ => false
  LocatorRouteSynopsisGetTuplePositionForIndexscan := fun _ =>
    { partitionLevel := 1, partitionNumber := 2, partitionGenerationNumber := 3
      partitionTuplePosition := 21 }
  LocatorRouteSynopsisGetTuplePositionForUpdate := fun _ =>
    { partitionLevel := 1, partitionNumber := 2, partitionGenerationNumber := 3
      partitionTuplePosition := 21 }
  records_per_block := 8

def sampleIndexFetchState : IndexFetchState :=
  { xs_cbuf := 0, xs_c_ebi_buf_id := InvalidEbiSubBuf, call_again := false, events := [] }

def sampleSearchState : SearchState :=
  { curr_cmdtype := CmdType.CMD_SELECT, snapshot := sampleSnapshot, events := [] }

/-- A row whose forward version chain is `chain` (version `i + 1` is the update
of version `i`), as seen by the collaborators of `heapam_tuple_lock`: a lock
attempt on a version that reports `TM_Updated` reports as forward pointer the
version itself or the next one; a fetched version that fails the dirty snapshot
points to itself or to the next one; and no fetched version has an updater
still in progress. -/
structure ChainOfUpdates (env : LockEnv) (cid : CommandId) (mode : LockTupleMode)
    (wait_policy : LockWaitPolicy) (follow_updates : Bool)
    (chain : List ItemPointerData) : Prop where
  lock_forward : ∀ (clock i : Nat) (v : ItemPointerData) (a : LockAttempt),
    chain[i]? = some v →
    env.heap_lock_tuple clock v cid mode wait_policy follow_updates = Except.ok a →
    a.result = TM_Result.TM_Updated →
    ∃ c x m, a.failure = some (c, x, m) ∧ (c = v ∨ chain[i + 1]? = some c)
  fetch_forward : ∀ (clock i : Nat) (v : ItemPointerData) (hdr : TupleHeader),
    chain[i]? = some v →
    env.heap_fetch clock v = HeapFetchResult.invisible hdr →
    hdr.t_ctid = v ∨ chain[i + 1]? = some hdr.t_ctid
  no_updater_in_progress : ∀ (clock i : Nat) (v : ItemPointerData) (hdr : TupleHeader)
    (dx1 dx2 : TransactionId),
    chain[i]? = some v →
    env.heap_fetch clock v = HeapFetchResult.visible hdr dx1 dx2 →
    TransactionIdIsValid dx2 = false

/-- Number of passes `heapam_tuple_lock` can still make when it stands at
version `i` of a chain of `len` versions. -/
def lockMeasure (len i : Nat) (pc : LockPc) : Nat :=
  match pc with
  | LockPc.tuple_lock_retry => 2 * (len - i) - 1
  | LockPc.fetch_loop => 2 * (len - i)

/-- A row of three versions `(0,1) → (0,2) → (0,3)`, updated by transactions 10
and 11, both finished; the last version is live and can be locked. -/
def sampleChain : List ItemPointerData := [⟨0, 1⟩, ⟨0, 2⟩, ⟨0, 3⟩]

def sampleLockEnv : LockEnv where
  heap_lock_tuple := fun _ tid _ _ _ _ =>
    if tid = ⟨0, 1⟩ then
      Except.ok { result := TM_Result.TM_Updated, failure := some (⟨0, 2⟩, 10, 0) }
    else if tid = ⟨0, 2⟩ then
      Except.ok { result := TM_Result.TM_Updated, failure := some (⟨0, 3⟩, 11, 0) }
    else Except.ok { result := TM_Result.TM_Ok, failure := none }
  heap_fetch := fun _ tid =>
    if tid = ⟨0, 2⟩ then
      HeapFetchResult.invisible { xmin := 10, update_xid := 11, cmin := 0, t_ctid := ⟨0, 3⟩ }
    else if tid = ⟨0, 3⟩ then
      HeapFetchResult.visible { xmin := 11, update_xid := 0, cmin := 0, t_ctid := ⟨0, 3⟩ } 0 0
    else HeapFetchResult.missing
  ConditionalXactLockTableWait := fun _ _ => true
  TransactionIdIsCurrentTransactionId := fun _ => false

/-- A row with a single version on which another transaction holds a row lock,
so that a lock attempt under the skip policy reports `TM_WouldBlock`. -/
def lockedRowEnv : LockEnv where
  heap_lock_tuple := fun _ _ _ _ _ _ =>
    Except.ok { result := TM_Result.TM_WouldBlock, failure := none }
  heap_fetch := fun _ _ => HeapFetchResult.missing
  ConditionalXactLockTableWait := fun _ _ => false
  TransactionIdIsCurrentTransactionId := fun _ => false

def sampleFailureData : TM_FailureData :=
  { ctid := ⟨0, 0⟩, xmax := 0, cmax := 0, traversed := true }

/-- An environment in which the lock attempt on version `(0, 1)` reports `first`
and every other lock attempt succeeds, every fetch reports `fetched`, the
conditional wait reports `waited`, and `own` tells whether a transaction id is
the locking transaction. -/
def stubLockEnv (first : LockAttempt) (fetched : HeapFetchResult) (waited own : Bool) :
    LockEnv where
  heap_lock_tuple := fun _ tid _ _ _ _ =>
    if tid = ⟨0, 1⟩ then Except.ok first
    else Except.ok { result := TM_Result.TM_Ok, failure := none }
  heap_fetch := fun _ _ => fetched
  ConditionalXactLockTableWait := fun _ _ => waited
  TransactionIdIsCurrentTransactionId := fun _ => own

/-- The state a step leaves behind, whatever its kind. -/
def LockStep.state : LockStep → LockState
  | LockStep.next s => s
  | LockStep.ret _ s => s
  | LockStep.error _ s => s

/-- A state of `heapam_tuple_lock` inside the traversal, standing at version
`(0, 2)` reached from a version updated by transaction 10. -/
def sampleTraversalState : LockState :=
  { pc := LockPc.fetch_loop
    clock := 1
    tid := ⟨0, 2⟩
    t_self := ⟨0, 1⟩
    result := some TM_Result.TM_Updated
    priorXmax := 10
    tmfd := { ctid := ⟨0, 2⟩, xmax := 10, cmax := 0, traversed := true }
    hops := 1
    attempts := 1
    trace := [LockEvent.lockTuple ⟨0, 1⟩, LockEvent.follow ⟨0, 1⟩ ⟨0, 2⟩] }

/-- What the loop over the two slots may change, for a run from `s` ending in
`r`: no counter and not `t_tableOid`, it logs no chain lookup,
and it stores an entry exactly when it ends with `valid` set. -/
structure CheckFrame (offnum : OffsetNumber) (s : ScanState) (r : Bool × ScanState) : Prop where
  heap_eq : r.2.counter_in_heap = s.counter_in_heap
  ebi_eq : r.2.counter_in_ebi = s.counter_in_ebi
  oid_eq : r.2.v_loctup.t_tableOid = s.v_loctup.t_tableOid
  events_eq : ∃ evs, r.2.events = s.events ++ evs ∧ ∀ e ∈ evs, e.isChainLookup = false
  invalid : r.1 = false →
    r.2.ntup = s.ntup ∧ r.2.rs_vistuples = s.rs_vistuples ∧
      r.2.rs_vistuples_copied = s.rs_vistuples_copied
  valid : r.1 = true →
    r.2.ntup = s.ntup + 1 ∧ r.2.rs_vistuples = Function.update s.rs_vistuples s.ntup offnum ∧
      r.2.rs_vistuples_copied = Function.update s.rs_vistuples_copied s.ntup (some r.2.v_loctup)

/-- What one iteration of the page loop may change: it stores at most one
entry, at index `ntup` and for the offset `offnum`; it counts at most one
version, in one of the two counters, and only together with an entry. -/
structure LocatorFrame (offnum : OffsetNumber) (s t : ScanState) : Prop where
  entry :
    (t.ntup = s.ntup ∧ t.rs_vistuples = s.rs_vistuples ∧
      t.rs_vistuples_copied = s.rs_vistuples_copied) ∨
    (t.ntup = s.ntup + 1 ∧ t.rs_vistuples = Function.update s.rs_vistuples s.ntup offnum ∧
      ∃ c, t.rs_vistuples_copied = Function.update s.rs_vistuples_copied s.ntup (some c))
  counters :
    (t.counter_in_heap = s.counter_in_heap ∧ t.counter_in_ebi = s.counter_in_ebi) ∨
    (t.ntup = s.ntup + 1 ∧
      ((t.counter_in_heap = s.counter_in_heap + 1 ∧ t.counter_in_ebi = s.counter_in_ebi) ∨
        (t.counter_in_heap = s.counter_in_heap ∧ t.counter_in_ebi = s.counter_in_ebi + 1)))
  events_ext : ∃ evs, t.events = s.events ++ evs
  oid_eq : t.v_loctup.t_tableOid = s.v_loctup.t_tableOid

/-- Invariant of the page loop before line pointer `k` is examined: at most `c`
entries are stored, every entry is the offset of a locator in `[lo, k)`, and the
entries are strictly increasing. -/
structure PageInv (dp : Page) (lo k c : Nat) (s : ScanState) : Prop where
  bound : s.ntup ≤ c
  mem : ∀ i, i < s.ntup →
    lo ≤ s.rs_vistuples i ∧ s.rs_vistuples i < k ∧
      (PageGetItemId dp (s.rs_vistuples i)).pleaf_flag = true
  sorted : ∀ i j, i < j → j < s.ntup → s.rs_vistuples i < s.rs_vistuples j

/-- A bitmap environment over the sample scan environment. -/
def sampleBitmapEnv : BitmapEnv where
  toScanEnv := sampleEnv
  ReleaseAndReadBuffer := fun _ block => block + 1
  BufferGetPage := fun _ => samplePage
  heap_hot_search_buffer := fun tid _ _ => some tid.ip_posid
  heap_hot_search_buffer_with_vc := fun tid _ _ copy =>
    if tid.ip_posid = 4 then
      (some 4, some { t_len := 1, t_self := tid, t_tableOid := 42, t_data := some [1] })
    else (none, copy)

def sampleHeapScanDesc : HeapScanDescData :=
  { scan := sampleScanState, rs_cindex := 0, rs_ntuples := 0, rs_nblocks := 8, rs_cbuf := 0
    rs_cblock := 0
    rs_ctup := { t_len := 0, t_self := ⟨0, 0⟩, t_tableOid := 0, t_data := none } }

/-- The sample descriptor after the lossy scan of block 0 of a siro relation. -/
def sampleLoadedBlock : HeapScanDescData :=
  (heapam_scan_bitmap_next_block sampleBitmapEnv true sampleSnapshot CmdType.CMD_SELECT 42
    ⟨0, -1, []⟩ sampleHeapScanDesc).2

/-- A store holding the key `[1]` with value `[7, 7]`, and one batch of one
record for every cursor. -/
def sampleLsmEnv : LsmEnv where
  LsmLookup := fun _ key => if key = [1] then some [7, 7] else none
  LsmReadNext := fun _ _ i => if i = 0 then (false, [1, 0, 0, 0, 1, 2, 0, 0, 0, 7, 7]) else (false, [])
  operatorName := fun opno => if opno = 96 then some "=" else some "<"
  paramValue := fun _ => 0
  ShortVarlena := fun datum _ => datum
  SerializeAttribute := fun _ datum => [datum]
  SerializeNullAttribute := fun _ => [0]

/-- The state `BeginForeignScan` leaves for the qualifier `column 1 = 1`. -/
def sampleKeyScan : ForeignScanState :=
  { fdw_state :=
      { isKeyBased := true, operationId := 0, done := false, key := some [1], hasNext := false
        buf := [], bufLen := 0, next := 0 }
    slot := none, batchesRead := 0, events := [] }

/-- The state `BeginForeignScan` leaves for a scan without a pushed-down
qualifier: the first batch is loaded. -/
def sampleBatchScan : ForeignScanState :=
  { fdw_state :=
      { isKeyBased := false, operationId := 1, done := false, key := none, hasNext := false
        buf := [1, 0, 0, 0, 1, 2, 0, 0, 0, 7, 7], bufLen := 11, next := 0 }
    slot := none, batchesRead := 1, events := [LsmEvent.readNext 1] }

/-- The state `heapam_tuple_lock` stands in after `k` passes through its control
points, counted from the state `s`, when none of them returned or raised;
`none` when one of them ended the call. -/
def lockPasses (env : LockEnv) (cid : CommandId) (mode : LockTupleMode)
    (wait_policy : LockWaitPolicy) (flags : Nat) : Nat → LockState → Option LockState
  | 0, s => some s
  | k + 1, s =>
    match lockStep env cid mode wait_policy flags s with
    | LockStep.next s1 => lockPasses env cid mode wait_policy flags k s1
    | LockStep.ret _ _ => none
    | LockStep.error _ _ => none

theorem checkVersions_frame (env : ScanEnv) (snapshot : SnapshotData) (dp : Page)
    (offnum : OffsetNumber) (cv : CheckVar) :
    ∀ (n : Nat) (s : ScanState) (r : Bool × ScanState),
      checkVersions env snapshot dp offnum cv n s = r → CheckFrame offnum s r := by
  intro n
  induction n with
  | zero =>
    intro s r hr
    simp only [checkVersions] at hr
    subst hr
    exact ⟨rfl, rfl, rfl, ⟨[], by simp, by simp⟩, fun _ => ⟨rfl, rfl, rfl⟩,
      fun h => by simp at h⟩
  | succ k ih =>
    intro s r hr
    unfold checkVersions at hr
    dsimp only at hr
    split_ifs at hr
    · exact ih s r hr
    · exact ih s r hr
    · subst hr
      refine ⟨rfl, rfl, rfl, ⟨_, rfl, ?_⟩, fun h => by simp at h,
        fun _ => ⟨rfl, rfl, rfl⟩⟩
      intro e he
      simp only [List.mem_singleton] at he
      subst he
      rfl
    · have f := ih _ r hr
      refine ⟨f.heap_eq, f.ebi_eq, f.oid_eq, ?_, f.invalid, f.valid⟩
      obtain ⟨evs, e1, e2⟩ := f.events_eq
      refine ⟨ScanEvent.satisfiesVisibility offnum (k + 1) cv.set_hint_bits :: evs, ?_, ?_⟩
      · rw [e1]
        simp
      · intro e he
        rcases List.mem_cons.mp he with h | h
        · subst h
          rfl
        · exact e2 e h

theorem checkVersions_none_visible (env : ScanEnv) (snapshot : SnapshotData) (dp : Page)
    (page : BlockNumber) (rel_id : Oid) (offnum : OffsetNumber) (cv : CheckVar) :
    ∀ (n : Nat) (s : ScanState),
      s.v_loctup.t_self = ⟨page, offnum⟩ → s.v_loctup.t_tableOid = rel_id →
      (∀ tv, 1 ≤ tv → tv ≤ n → slotVisible env snapshot dp page rel_id offnum cv tv = false) →
      (checkVersions env snapshot dp offnum cv n s).1 = false := by
  intro n
  induction n with
  | zero =>
    intro s _ _ _
    rfl
  | succ k ih =>
    intro s hself hoid hinv
    have hk := hinv (k + 1) (by omega) (le_refl _)
    have hrest : ∀ tv, 1 ≤ tv → tv ≤ k →
        slotVisible env snapshot dp page rel_id offnum cv tv = false :=
      fun tv h1 h2 => hinv tv h1 (by omega)
    unfold checkVersions
    dsimp only
    split_ifs with h1 h2 h3
    · exact ih s hself hoid hrest
    · exact ih s hself hoid hrest
    · exfalso
      have hv : slotVisible env snapshot dp page rel_id offnum cv (k + 1) = true := by
        simp only [slotVisible, slotChecked, slotTuple, Bool.and_eq_true, bne_iff_ne, ne_eq,
          Bool.not_eq_true']
        refine ⟨⟨h1, by simpa using h2⟩, ?_⟩
        rw [← hself, ← hoid]
        exact h3
      rw [hk] at hv
      exact Bool.false_ne_true hv
    · exact ih _ hself hoid hrest

theorem checkVersions_first_visible (env : ScanEnv) (snapshot : SnapshotData) (dp : Page)
    (page : BlockNumber) (rel_id : Oid) (offnum : OffsetNumber) (cv : CheckVar) (tv : Nat) :
    ∀ (n : Nat) (s : ScanState),
      s.v_loctup.t_self = ⟨page, offnum⟩ → s.v_loctup.t_tableOid = rel_id →
      1 ≤ tv → tv ≤ n →
      slotVisible env snapshot dp page rel_id offnum cv tv = true →
      (∀ tv1, tv < tv1 → tv1 ≤ n →
        slotVisible env snapshot dp page rel_id offnum cv tv1 = false) →
      (checkVersions env snapshot dp offnum cv n s).1 = true ∧
        (checkVersions env snapshot dp offnum cv n s).2.v_loctup
          = slotTuple dp page rel_id offnum tv := by
  intro n
  induction n with
  | zero =>
    intro s _ _ h1 h2
    omega
  | succ k ih =>
    intro s hself hoid h1 h2 hvis hfirst
    have hcases : tv = k + 1 ∨ tv ≤ k := by omega
    unfold checkVersions
    dsimp only
    rcases hcases with heq | hle
    · subst heq
      simp only [slotVisible, slotChecked, slotTuple, Bool.and_eq_true, bne_iff_ne, ne_eq,
        Bool.not_eq_true'] at hvis
      obtain ⟨⟨c1, c2⟩, c3⟩ := hvis
      rw [← hself, ← hoid] at c3
      simp only [c1, c2, if_false, Bool.false_eq_true]
      rw [if_pos c3]
      refine ⟨rfl, ?_⟩
      simp only [storeEntry, slotTuple]
      rw [← hself, ← hoid]
    · have hk := hfirst (k + 1) (by omega) (le_refl _)
      have hrest : ∀ tv1, tv < tv1 → tv1 ≤ k →
          slotVisible env snapshot dp page rel_id offnum cv tv1 = false :=
        fun tv1 a b => hfirst tv1 a (by omega)
      split_ifs with a1 a2 a3
      · exact ih s hself hoid h1 hle hvis hrest
      · exact ih s hself hoid h1 hle hvis hrest
      · exfalso
        have hv : slotVisible env snapshot dp page rel_id offnum cv (k + 1) = true := by
          simp only [slotVisible, slotChecked, slotTuple, Bool.and_eq_true, bne_iff_ne, ne_eq,
            Bool.not_eq_true']
          refine ⟨⟨a1, by simpa using a2⟩, ?_⟩
          rw [← hself, ← hoid]
          exact a3
        rw [hk] at hv
        exact Bool.false_ne_true hv
      · exact ih _ hself hoid h1 hle hvis hrest

theorem firstVisibleSlot_eq_none (env : ScanEnv) (snapshot : SnapshotData) (dp : Page)
    (page : BlockNumber) (rel_id : Oid) (offnum : OffsetNumber) (cv : CheckVar) :
    firstVisibleSlot env snapshot dp page rel_id offnum cv = none ↔
      ∀ tv, 1 ≤ tv → tv ≤ 2 → slotVisible env snapshot dp page rel_id offnum cv tv = false := by
  simp only [firstVisibleSlot, List.find?_eq_none, List.mem_cons, List.mem_singleton,
    CHECK_RIGHT, CHECK_LEFT, Bool.not_eq_true, List.not_mem_nil, or_false]
  constructor
  · intro h tv h1 h2
    have : tv = 2 ∨ tv = 1 := by omega
    exact h tv this
  · intro h tv htv
    rcases htv with rfl | rfl
    · exact h 2 (by omega) (by omega)
    · exact h 1 (by omega) (by omega)

theorem firstVisibleSlot_eq_some (env : ScanEnv) (snapshot : SnapshotData) (dp : Page)
    (page : BlockNumber) (rel_id : Oid) (offnum : OffsetNumber) (cv : CheckVar) (tv : Nat)
    (h : firstVisibleSlot env snapshot dp page rel_id offnum cv = some tv) :
    1 ≤ tv ∧ tv ≤ 2 ∧ slotVisible env snapshot dp page rel_id offnum cv tv = true ∧
      ∀ tv1, tv < tv1 → tv1 ≤ 2 →
        slotVisible env snapshot dp page rel_id offnum cv tv1 = false := by
  simp only [firstVisibleSlot, CHECK_RIGHT, CHECK_LEFT, List.find?] at h
  cases h2 : slotVisible env snapshot dp page rel_id offnum cv 2 with
  | true =>
    rw [h2] at h
    simp only [Option.some.injEq] at h
    subst h
    exact ⟨by omega, by omega, h2, fun tv1 a b => by omega⟩
  | false =>
    rw [h2] at h
    cases h1 : slotVisible env snapshot dp page rel_id offnum cv 1 with
    | true =>
      rw [h1] at h
      simp only [Option.some.injEq] at h
      subst h
      refine ⟨by omega, by omega, h1, fun tv1 a b => ?_⟩
      have : tv1 = 2 := by omega
      subst this
      exact h2
    | false =>
      rw [h1] at h
      simp at h

theorem decrRecRef_events (s : ScanState) (offnum : OffsetNumber) (cv : CheckVar) :
    ∃ evs, (decrRecRef s offnum cv).events = s.events ++ evs ∧
      ∀ e ∈ evs, e.isChainLookup = false := by
  unfold decrRecRef
  split_ifs
  · refine ⟨_, rfl, ?_⟩
    intro e he
    simp only [List.mem_singleton] at he
    subst he
    rfl
  · exact ⟨[], by simp, by simp⟩

@[simp] theorem decrRecRef_ntup (s : ScanState) (offnum : OffsetNumber) (cv : CheckVar) :
    (decrRecRef s offnum cv).ntup = s.ntup := by
  unfold decrRecRef
  split_ifs <;> rfl

@[simp] theorem decrRecRef_vistuples (s : ScanState) (offnum : OffsetNumber) (cv : CheckVar) :
    (decrRecRef s offnum cv).rs_vistuples = s.rs_vistuples := by
  unfold decrRecRef
  split_ifs <;> rfl

@[simp] theorem decrRecRef_copied (s : ScanState) (offnum : OffsetNumber) (cv : CheckVar) :
    (decrRecRef s offnum cv).rs_vistuples_copied = s.rs_vistuples_copied := by
  unfold decrRecRef
  split_ifs <;> rfl

@[simp] theorem decrRecRef_heap (s : ScanState) (offnum : OffsetNumber) (cv : CheckVar) :
    (decrRecRef s offnum cv).counter_in_heap = s.counter_in_heap := by
  unfold decrRecRef
  split_ifs <;> rfl

@[simp] theorem decrRecRef_ebi (s : ScanState) (offnum : OffsetNumber) (cv : CheckVar) :
    (decrRecRef s offnum cv).counter_in_ebi = s.counter_in_ebi := by
  unfold decrRecRef
  split_ifs <;> rfl

@[simp] theorem decrRecRef_loctup (s : ScanState) (offnum : OffsetNumber) (cv : CheckVar) :
    (decrRecRef s offnum cv).v_loctup = s.v_loctup := by
  unfold decrRecRef
  split_ifs <;> rfl

theorem chainLookup_zero (env : ScanEnv) (snapshot : SnapshotData) (rel_id : Oid)
    (p : List Nat) (offnum : OffsetNumber) (s : ScanState)
    (hl : memcpy_le p 0 8 = 0) (hr : memcpy_le p 8 8 = 0) :
    chainLookup env snapshot rel_id p offnum s = s := by
  simp [chainLookup, hl, hr]

theorem chainLookup_found (env : ScanEnv) (snapshot : SnapshotData) (rel_id : Oid)
    (p : List Nat) (offnum : OffsetNumber) (s : ScanState)
    (hnz : ¬(memcpy_le p 0 8 = 0 ∧ memcpy_le p 8 8 = 0))
    (hret : (env.PLeafLookupTuple rel_id (chosenOffset env snapshot p) snapshot).ret_id > -1) :
    (chainLookup env snapshot rel_id p offnum s).ntup = s.ntup + 1 ∧
    (chainLookup env snapshot rel_id p offnum s).rs_vistuples
      = Function.update s.rs_vistuples s.ntup offnum ∧
    (chainLookup env snapshot rel_id p offnum s).rs_vistuples_copied
      = Function.update s.rs_vistuples_copied s.ntup
          (some (chainLookup env snapshot rel_id p offnum s).v_loctup) ∧
    (chainLookup env snapshot rel_id p offnum s).counter_in_heap = s.counter_in_heap ∧
    (chainLookup env snapshot rel_id p offnum s).counter_in_ebi = s.counter_in_ebi + 1 ∧
    (chainLookup env snapshot rel_id p offnum s).events = s.events ++
      [ScanEvent.pleafLookupTuple offnum (chosenOffset env snapshot p),
        ScanEvent.unpinEbiSubBuffer
          (env.PLeafLookupTuple rel_id (chosenOffset env snapshot p) snapshot).ret_id] := by
  unfold chosenOffset at hret
  simp only [chainLookup, chosenOffset, hnz, if_false, hret, if_true, storeEntry]
  simp

theorem chainLookup_not_found (env : ScanEnv) (snapshot : SnapshotData) (rel_id : Oid)
    (p : List Nat) (offnum : OffsetNumber) (s : ScanState)
    (hnz : ¬(memcpy_le p 0 8 = 0 ∧ memcpy_le p 8 8 = 0))
    (hret : ¬(env.PLeafLookupTuple rel_id (chosenOffset env snapshot p) snapshot).ret_id > -1) :
    (chainLookup env snapshot rel_id p offnum s).ntup = s.ntup ∧
    (chainLookup env snapshot rel_id p offnum s).rs_vistuples = s.rs_vistuples ∧
    (chainLookup env snapshot rel_id p offnum s).rs_vistuples_copied = s.rs_vistuples_copied ∧
    (chainLookup env snapshot rel_id p offnum s).counter_in_heap = s.counter_in_heap ∧
    (chainLookup env snapshot rel_id p offnum s).counter_in_ebi = s.counter_in_ebi ∧
    (chainLookup env snapshot rel_id p offnum s).events = s.events ++
      [ScanEvent.pleafLookupTuple offnum (chosenOffset env snapshot p)] := by
  unfold chosenOffset at hret
  simp only [chainLookup, chosenOffset, hnz, if_false, hret]
  simp

theorem chainLookup_oid (env : ScanEnv) (snapshot : SnapshotData) (rel_id : Oid)
    (p : List Nat) (offnum : OffsetNumber) (s : ScanState) :
    (chainLookup env snapshot rel_id p offnum s).v_loctup.t_tableOid = s.v_loctup.t_tableOid := by
  by_cases hz : memcpy_le p 0 8 = 0 ∧ memcpy_le p 8 8 = 0
  · rw [chainLookup_zero env snapshot rel_id p offnum s hz.1 hz.2]
  · by_cases hret :
        (env.PLeafLookupTuple rel_id (chosenOffset env snapshot p) snapshot).ret_id > -1
    · unfold chosenOffset at hret
      simp only [chainLookup, hz, if_false, hret, if_true, storeEntry]
      cases (env.PLeafLookupTuple rel_id
        (if env.PLeafIsLeftLookup (memcpy_le p 0 8) (memcpy_le p 8 8) (memcpy_le p 16 4) snapshot
          = true then memcpy_le p 0 8 else memcpy_le p 8 8) snapshot).out <;> rfl
    · unfold chosenOffset at hret
      simp only [chainLookup, hz, if_false, hret]
      cases (env.PLeafLookupTuple rel_id
        (if env.PLeafIsLeftLookup (memcpy_le p 0 8) (memcpy_le p 8 8) (memcpy_le p 16 4) snapshot
          = true then memcpy_le p 0 8 else memcpy_le p 8 8) snapshot).out <;> rfl

theorem LocatorFrame.refl (offnum : OffsetNumber) (s : ScanState) : LocatorFrame offnum s s :=
  ⟨Or.inl ⟨rfl, rfl, rfl⟩, Or.inl ⟨rfl, rfl⟩, ⟨[], by simp⟩, rfl⟩

theorem finishLocator_frame (env : ScanEnv) (snapshot : SnapshotData) (modification : Bool)
    (rel_id : Oid) (p : List Nat) (offnum : OffsetNumber) (cv : CheckVar)
    (s : ScanState) (r : Bool × ScanState) (f : CheckFrame offnum s r) :
    LocatorFrame offnum s (finishLocator env snapshot modification rel_id p offnum cv r) := by
  obtain ⟨evs, he, _⟩ := f.events_eq
  unfold finishLocator
  split_ifs with h1 h2 h3
  · obtain ⟨a, b, c⟩ := f.valid h1
    obtain ⟨dv, hd, _⟩ := decrRecRef_events r.2 offnum cv
    refine ⟨Or.inr ?_, Or.inr ?_, ⟨evs ++ dv, ?_⟩, ?_⟩
    · simp only [decrRecRef_ntup, decrRecRef_vistuples, decrRecRef_copied]
      exact ⟨a, b, _, c⟩
    · simp only [decrRecRef_ntup, decrRecRef_heap, decrRecRef_ebi]
      exact ⟨a, Or.inl ⟨by rw [f.heap_eq], f.ebi_eq⟩⟩
    · simp only [hd, he, List.append_assoc]
    · simp only [decrRecRef_loctup]
      exact f.oid_eq
  · have h1f : r.1 = false := by simpa using h1
    obtain ⟨a, b, c⟩ := f.invalid h1f
    obtain ⟨dv, hd, _⟩ := decrRecRef_events (storeEntry r.2 offnum) offnum cv
    refine ⟨Or.inr ?_, Or.inl ?_, ⟨evs ++ dv, ?_⟩, ?_⟩
    · simp only [decrRecRef_ntup, decrRecRef_vistuples, decrRecRef_copied, storeEntry]
      exact ⟨by rw [a], by rw [a, b], _, by rw [a, c]⟩
    · simp only [decrRecRef_heap, decrRecRef_ebi, storeEntry]
      exact ⟨f.heap_eq, f.ebi_eq⟩
    · rw [hd]
      simp only [storeEntry, he, List.append_assoc]
    · simp only [decrRecRef_loctup, storeEntry]
      exact f.oid_eq
  · have h1f : r.1 = false := by simpa using h1
    obtain ⟨a, b, c⟩ := f.invalid h1f
    obtain ⟨dv, hd, _⟩ := decrRecRef_events r.2 offnum cv
    refine ⟨Or.inl ?_, Or.inl ?_, ⟨evs ++ dv, ?_⟩, ?_⟩
    · simp only [decrRecRef_ntup, decrRecRef_vistuples, decrRecRef_copied]
      exact ⟨a, b, c⟩
    · simp only [decrRecRef_heap, decrRecRef_ebi]
      exact ⟨f.heap_eq, f.ebi_eq⟩
    · simp only [hd, he, List.append_assoc]
    · simp only [decrRecRef_loctup]
      exact f.oid_eq
  · have h1f : r.1 = false := by simpa using h1
    obtain ⟨a, b, c⟩ := f.invalid h1f
    obtain ⟨dv, hd, _⟩ :=
      decrRecRef_events (chainLookup env snapshot rel_id p offnum r.2) offnum cv
    have hoid := chainLookup_oid env snapshot rel_id p offnum r.2
    by_cases hz : memcpy_le p 0 8 = 0 ∧ memcpy_le p 8 8 = 0
    · have hc := chainLookup_zero env snapshot rel_id p offnum r.2 hz.1 hz.2
      rw [hc] at hd
      refine ⟨Or.inl ?_, Or.inl ?_, ⟨evs ++ dv, ?_⟩, ?_⟩
      · simp only [decrRecRef_ntup, decrRecRef_vistuples, decrRecRef_copied, hc]
        exact ⟨a, b, c⟩
      · simp only [decrRecRef_heap, decrRecRef_ebi, hc]
        exact ⟨f.heap_eq, f.ebi_eq⟩
      · rw [hc, hd, he, List.append_assoc]
      · simp only [decrRecRef_loctup, hc]
        exact f.oid_eq
    · by_cases hret :
          (env.PLeafLookupTuple rel_id (chosenOffset env snapshot p) snapshot).ret_id > -1
      · obtain ⟨c1, c2, c3, c4, c5, c6⟩ :=
          chainLookup_found env snapshot rel_id p offnum r.2 hz hret
        refine ⟨Or.inr ?_, Or.inr ?_,
          ⟨evs ++ ([ScanEvent.pleafLookupTuple offnum (chosenOffset env snapshot p),
            ScanEvent.unpinEbiSubBuffer
              (env.PLeafLookupTuple rel_id (chosenOffset env snapshot p) snapshot).ret_id]
            ++ dv), ?_⟩, ?_⟩
        · simp only [decrRecRef_ntup, decrRecRef_vistuples, decrRecRef_copied]
          rw [c1, c2, c3, a, b, c]
          exact ⟨rfl, rfl, _, rfl⟩
        · simp only [decrRecRef_ntup, decrRecRef_heap, decrRecRef_ebi]
          rw [c1, c4, c5, a, f.heap_eq, f.ebi_eq]
          exact ⟨rfl, Or.inr ⟨rfl, rfl⟩⟩
        · rw [hd, c6, he]
          simp only [List.append_assoc]
        · simp only [decrRecRef_loctup]
          rw [hoid]
          exact f.oid_eq
      · obtain ⟨c1, c2, c3, c4, c5, c6⟩ :=
          chainLookup_not_found env snapshot rel_id p offnum r.2 hz hret
        refine ⟨Or.inl ?_, Or.inl ?_,
          ⟨evs ++ ([ScanEvent.pleafLookupTuple offnum (chosenOffset env snapshot p)] ++ dv),
            ?_⟩, ?_⟩
        · simp only [decrRecRef_ntup, decrRecRef_vistuples, decrRecRef_copied]
          rw [c1, c2, c3]
          exact ⟨a, b, c⟩
        · simp only [decrRecRef_heap, decrRecRef_ebi]
          rw [c4, c5]
          exact ⟨f.heap_eq, f.ebi_eq⟩
        · rw [hd, c6, he]
          simp only [List.append_assoc]
        · simp only [decrRecRef_loctup]
          rw [hoid]
          exact f.oid_eq

theorem enterLocator_frame (env : ScanEnv) (snapshot : SnapshotData) (dp : Page)
    (page : BlockNumber) (offnum : OffsetNumber) (s : ScanState) :
    CheckFrame offnum s
      (checkVersions env snapshot dp offnum (env.GetCheckVar offnum) CHECK_RIGHT
        (enterLocator env page offnum s)) := by
  have f := checkVersions_frame env snapshot dp offnum (env.GetCheckVar offnum) CHECK_RIGHT
    (enterLocator env page offnum s) _ rfl
  obtain ⟨evs, e1, e2⟩ := f.events_eq
  refine ⟨f.heap_eq, f.ebi_eq, f.oid_eq, ?_, f.invalid, f.valid⟩
  · refine ⟨ScanEvent.getCheckVar offnum (env.GetCheckVar offnum).rec_ref_unit :: evs, ?_, ?_⟩
    · rw [e1]
      simp [enterLocator]
    · intro e he
      rcases List.mem_cons.mp he with h | h
      · subst h
        rfl
      · exact e2 e h

theorem scanLocator_frame (env : ScanEnv) (snapshot : SnapshotData) (modification : Bool)
    (rel_id : Oid) (page : BlockNumber) (dp : Page) (offnum : OffsetNumber) (s : ScanState) :
    LocatorFrame offnum s (scanLocator env snapshot modification rel_id page dp offnum s) ∧
      ((scanLocator env snapshot modification rel_id page dp offnum s).ntup = s.ntup + 1 →
        (PageGetItemId dp offnum).pleaf_flag = true) := by
  unfold scanLocator
  dsimp only
  split_ifs with h
  · exact ⟨LocatorFrame.refl offnum s, fun h => by omega⟩
  · refine ⟨finishLocator_frame env snapshot modification rel_id _ offnum _ s _
      (enterLocator_frame env snapshot dp page offnum s), fun _ => by simpa using h⟩

theorem scanLocator_inv (env : ScanEnv) (snapshot : SnapshotData) (modification : Bool)
    (rel_id : Oid) (page : BlockNumber) (dp : Page) (lo k c : Nat) (s : ScanState)
    (hk : lo ≤ k) (h : PageInv dp lo k c s) :
    PageInv dp lo (k + 1)
      (c + ([k].filter fun o => (PageGetItemId dp o).pleaf_flag).length)
      (scanLocator env snapshot modification rel_id page dp k s) := by
  obtain ⟨f, hp⟩ := scanLocator_frame env snapshot modification rel_id page dp k s
  rcases f.entry with ⟨a, b, _⟩ | ⟨a, b, _⟩
  · refine ⟨?_, ?_, ?_⟩
    · rw [a]
      exact le_trans h.bound (Nat.le_add_right _ _)
    · intro i hi
      rw [a] at hi
      rw [b]
      obtain ⟨m1, m2, m3⟩ := h.mem i hi
      exact ⟨m1, Nat.lt_succ_of_lt m2, m3⟩
    · intro i j hij hj
      rw [a] at hj
      rw [b]
      exact h.sorted i j hij hj
  · have hflag := hp a
    refine ⟨?_, ?_, ?_⟩
    · rw [a]
      simp only [List.filter_cons, hflag, if_true, List.filter_nil, List.length_singleton]
      have := h.bound
      omega
    · intro i hi
      rw [a] at hi
      rw [b]
      by_cases hin : i = s.ntup
      · subst hin
        simp only [Function.update_same]
        exact ⟨hk, Nat.lt_succ_self k, hflag⟩
      · rw [Function.update_noteq hin]
        obtain ⟨m1, m2, m3⟩ := h.mem i (by omega)
        exact ⟨m1, Nat.lt_succ_of_lt m2, m3⟩
    · intro i j hij hj
      rw [a] at hj
      rw [b]
      have hi : i ≠ s.ntup := by omega
      rw [Function.update_noteq hi]
      by_cases hjn : j = s.ntup
      · subst hjn
        simp only [Function.update_same]
        exact (h.mem i hij).2.1
      · rw [Function.update_noteq hjn]
        exact h.sorted i j hij (by omega)

theorem scanOffsets_inv (env : ScanEnv) (snapshot : SnapshotData) (modification : Bool)
    (rel_id : Oid) (page : BlockNumber) (dp : Page) (lo : Nat) :
    ∀ (n a c : Nat) (s : ScanState), lo ≤ a → PageInv dp lo a c s →
      PageInv dp lo (a + n)
        (c + ((List.range' a n).filter fun o => (PageGetItemId dp o).pleaf_flag).length)
        (scanOffsets env snapshot modification rel_id page dp (List.range' a n) s) := by
  intro n
  induction n with
  | zero =>
    intro a c s _ h
    simpa [scanOffsets] using h
  | succ m ih =>
    intro a c s ha h
    have h1 := scanLocator_inv env snapshot modification rel_id page dp lo a c s ha h
    have h2 := ih (a + 1) _ _ (by omega) h1
    have e1 : a + 1 + m = a + (m + 1) := by omega
    have e2 : c + ([a].filter fun o => (PageGetItemId dp o).pleaf_flag).length +
        ((List.range' (a + 1) m).filter fun o => (PageGetItemId dp o).pleaf_flag).length
        = c + ((List.range' a (m + 1)).filter fun o => (PageGetItemId dp o).pleaf_flag).length := by
      rw [List.range'_succ]
      by_cases hf : (PageGetItemId dp a).pleaf_flag = true
      · simp [List.filter_cons, hf]
        omega
      · simp [List.filter_cons, hf]
    rw [e1, e2] at h2
    simpa [scanOffsets, List.range'_succ] using h2

theorem chainLookups_eq_nil (evs : List ScanEvent)
    (h : ∀ e ∈ evs, e.isChainLookup = false) : chainLookups evs = [] := by
  simp only [chainLookups, List.filter_eq_nil_iff]
  intro e he
  simp [h e he]

theorem chainLookups_append (l₁ l₂ : List ScanEvent) :
    chainLookups (l₁ ++ l₂) = chainLookups l₁ ++ chainLookups l₂ := by
  simp [chainLookups]

theorem newChainLookups_of_eq (s u : ScanState) (evs : List ScanEvent)
    (h : u.events = s.events ++ evs) : newChainLookups s u = chainLookups evs := by
  simp [newChainLookups, eventsSince, h]

theorem decrRecRef_lookups (s : ScanState) (offnum : OffsetNumber) (cv : CheckVar)
    (t : ScanState) (evs : List ScanEvent) (h : s.events = t.events ++ evs) :
    newChainLookups t (decrRecRef s offnum cv) = chainLookups evs := by
  obtain ⟨dv, hd, hdv⟩ := decrRecRef_events s offnum cv
  rw [newChainLookups_of_eq t _ (evs ++ dv) (by rw [hd, h, List.append_assoc]),
    chainLookups_append, chainLookups_eq_nil dv hdv, List.append_nil]

theorem finishLocator_chain_path (env : ScanEnv) (snapshot : SnapshotData)
    (rel_id : Oid) (p : List Nat) (offnum : OffsetNumber) (cv : CheckVar)
    (r : Bool × ScanState) (h1 : r.1 = false)
    (h3 : snapshot.snapshot_type = SnapshotType.SNAPSHOT_MVCC) :
    finishLocator env snapshot false rel_id p offnum cv r
      = decrRecRef (chainLookup env snapshot rel_id p offnum r.2) offnum cv := by
  simp [finishLocator, h1, h3]

theorem finishLocator_lookups (env : ScanEnv) (snapshot : SnapshotData) (modification : Bool)
    (rel_id : Oid) (p : List Nat) (offnum : OffsetNumber) (cv : CheckVar)
    (s : ScanState) (r : Bool × ScanState) (f : CheckFrame offnum s r) :
    newChainLookups s (finishLocator env snapshot modification rel_id p offnum cv r) =
      if r.1 = false ∧ modification = false ∧
          snapshot.snapshot_type = SnapshotType.SNAPSHOT_MVCC ∧
          ¬(memcpy_le p 0 8 = 0 ∧ memcpy_le p 8 8 = 0) then
        [ScanEvent.pleafLookupTuple offnum (chosenOffset env snapshot p)]
      else [] := by
  obtain ⟨evs, he, hev⟩ := f.events_eq
  have hevs := chainLookups_eq_nil evs hev
  by_cases h1 : r.1 = true
  · rw [if_neg (by simp [h1])]
    have e : finishLocator env snapshot modification rel_id p offnum cv r =
        { decrRecRef r.2 offnum cv with
          counter_in_heap := (decrRecRef r.2 offnum cv).counter_in_heap + 1 } := by
      simp [finishLocator, h1]
    rw [e]
    exact (decrRecRef_lookups r.2 offnum cv s evs he).trans hevs
  · have h1f : r.1 = false := by simpa using h1
    by_cases h2 : modification = true
    · rw [if_neg (by simp [h2])]
      have e : finishLocator env snapshot modification rel_id p offnum cv r =
          decrRecRef (storeEntry r.2 offnum) offnum cv := by
        simp [finishLocator, h1f, h2]
      rw [e]
      exact (decrRecRef_lookups (storeEntry r.2 offnum) offnum cv s evs he).trans hevs
    · have h2f : modification = false := by simpa using h2
      subst h2f
      by_cases h3 : snapshot.snapshot_type = SnapshotType.SNAPSHOT_MVCC
      · rw [finishLocator_chain_path env snapshot rel_id p offnum cv r h1f h3]
        by_cases hz : memcpy_le p 0 8 = 0 ∧ memcpy_le p 8 8 = 0
        · rw [if_neg (by simp [hz])]
          rw [chainLookup_zero env snapshot rel_id p offnum r.2 hz.1 hz.2]
          exact (decrRecRef_lookups r.2 offnum cv s evs he).trans hevs
        · rw [if_pos ⟨h1f, rfl, h3, hz⟩]
          by_cases hret :
              (env.PLeafLookupTuple rel_id (chosenOffset env snapshot p) snapshot).ret_id > -1
          · obtain ⟨_, _, _, _, _, c6⟩ :=
              chainLookup_found env snapshot rel_id p offnum r.2 hz hret
            rw [decrRecRef_lookups _ offnum cv s
              (evs ++ [ScanEvent.pleafLookupTuple offnum (chosenOffset env snapshot p),
                ScanEvent.unpinEbiSubBuffer
                  (env.PLeafLookupTuple rel_id (chosenOffset env snapshot p) snapshot).ret_id])
              (by rw [c6, he, List.append_assoc]),
              chainLookups_append, hevs]
            rfl
          · obtain ⟨_, _, _, _, _, c6⟩ :=
              chainLookup_not_found env snapshot rel_id p offnum r.2 hz hret
            rw [decrRecRef_lookups _ offnum cv s
              (evs ++ [ScanEvent.pleafLookupTuple offnum (chosenOffset env snapshot p)])
              (by rw [c6, he, List.append_assoc]),
              chainLookups_append, hevs]
            rfl
      · rw [if_neg (by simp [h3])]
        have e : finishLocator env snapshot false rel_id p offnum cv r =
            decrRecRef r.2 offnum cv := by
          simp [finishLocator, h1f, h3]
        rw [e]
        exact (decrRecRef_lookups r.2 offnum cv s evs he).trans hevs

theorem checkVersions_enter (env : ScanEnv) (snapshot : SnapshotData) (dp : Page)
    (page : BlockNumber) (offnum : OffsetNumber) (s : ScanState) :
    (firstVisibleSlot env snapshot dp page s.v_loctup.t_tableOid offnum (env.GetCheckVar offnum)
        = none →
      (checkVersions env snapshot dp offnum (env.GetCheckVar offnum) CHECK_RIGHT
        (enterLocator env page offnum s)).1 = false) ∧
    (∀ tv,
      firstVisibleSlot env snapshot dp page s.v_loctup.t_tableOid offnum (env.GetCheckVar offnum)
        = some tv →
      (checkVersions env snapshot dp offnum (env.GetCheckVar offnum) CHECK_RIGHT
        (enterLocator env page offnum s)).1 = true ∧
      (checkVersions env snapshot dp offnum (env.GetCheckVar offnum) CHECK_RIGHT
        (enterLocator env page offnum s)).2.v_loctup
        = slotTuple dp page s.v_loctup.t_tableOid offnum tv) := by
  constructor
  · intro h
    exact checkVersions_none_visible env snapshot dp page s.v_loctup.t_tableOid offnum
      (env.GetCheckVar offnum) 2 (enterLocator env page offnum s) rfl rfl
      ((firstVisibleSlot_eq_none env snapshot dp page _ offnum _).mp h)
  · intro tv h
    obtain ⟨a, b, c, d⟩ := firstVisibleSlot_eq_some env snapshot dp page _ offnum _ tv h
    exact checkVersions_first_visible env snapshot dp page s.v_loctup.t_tableOid offnum
      (env.GetCheckVar offnum) tv 2 (enterLocator env page offnum s) rfl rfl a b c d

theorem scanLocator_of_locator (env : ScanEnv) (snapshot : SnapshotData) (modification : Bool)
    (rel_id : Oid) (page : BlockNumber) (dp : Page) (offnum : OffsetNumber) (s : ScanState)
    (hloc : (PageGetItemId dp offnum).pleaf_flag = true) :
    scanLocator env snapshot modification rel_id page dp offnum s =
      finishLocator env snapshot modification rel_id (PageGetItemId dp offnum).item offnum
        (env.GetCheckVar offnum)
        (checkVersions env snapshot dp offnum (env.GetCheckVar offnum) CHECK_RIGHT
          (enterLocator env page offnum s)) := by
  simp [scanLocator, hloc]

theorem scanLocator_lookups (env : ScanEnv) (snapshot : SnapshotData) (modification : Bool)
    (rel_id : Oid) (page : BlockNumber) (dp : Page) (offnum : OffsetNumber) (s : ScanState) :
    newChainLookups s (scanLocator env snapshot modification rel_id page dp offnum s) =
      if (PageGetItemId dp offnum).pleaf_flag = true ∧
          firstVisibleSlot env snapshot dp page s.v_loctup.t_tableOid offnum
            (env.GetCheckVar offnum) = none ∧
          modification = false ∧
          snapshot.snapshot_type = SnapshotType.SNAPSHOT_MVCC ∧
          ¬(memcpy_le (PageGetItemId dp offnum).item 0 8 = 0 ∧
            memcpy_le (PageGetItemId dp offnum).item 8 8 = 0) then
        [ScanEvent.pleafLookupTuple offnum
          (chosenOffset env snapshot (PageGetItemId dp offnum).item)]
      else [] := by
  by_cases hloc : (PageGetItemId dp offnum).pleaf_flag = true
  · rw [scanLocator_of_locator env snapshot modification rel_id page dp offnum s hloc,
      finishLocator_lookups env snapshot modification rel_id _ offnum _ s _
        (enterLocator_frame env snapshot dp page offnum s)]
    obtain ⟨hn, hs⟩ := checkVersions_enter env snapshot dp page offnum s
    cases hf : firstVisibleSlot env snapshot dp page s.v_loctup.t_tableOid offnum
        (env.GetCheckVar offnum) with
    | none =>
      simp only [hn hf, hloc, true_and]
    | some tv =>
      simp only [(hs tv hf).1, hloc, true_and]
      simp
  · have e : scanLocator env snapshot modification rel_id page dp offnum s = s := by
      simp [scanLocator, hloc]
    rw [e, if_neg (by simp [hloc])]
    simp [newChainLookups, eventsSince, chainLookups]

/-! ## Properties of the lossy siro scan -/

/-- C1: in the lossy bitmap scan of a siro page every locator adds at most one
entry to `rs_vistuples` and at most one to `counter_in_heap + counter_in_ebi`
(a counted version always comes with its entry, so an entry has one source);
after the page loop the offsets in `rs_vistuples[0..ntup)` are strictly
increasing, each is the offset of a locator of the page, and `ntup` is at most
the number of locators of the page. -/
theorem siro_lossy_at_most_one_entry_per_locator (env : ScanEnv) (snapshot : SnapshotData)
    (curr_cmdtype : CmdType) (rel_id : Oid) (page : BlockNumber) (dp : Page) (s : ScanState) :
    (∀ (modification : Bool) (offnum : OffsetNumber) (t : ScanState),
      t.ntup ≤ (scanLocator env snapshot modification rel_id page dp offnum t).ntup ∧
      (scanLocator env snapshot modification rel_id page dp offnum t).ntup ≤ t.ntup + 1 ∧
      t.counter_in_heap + t.counter_in_ebi ≤
        (scanLocator env snapshot modification rel_id page dp offnum t).counter_in_heap +
          (scanLocator env snapshot modification rel_id page dp offnum t).counter_in_ebi ∧
      (scanLocator env snapshot modification rel_id page dp offnum t).counter_in_heap +
          (scanLocator env snapshot modification rel_id page dp offnum t).counter_in_ebi ≤
        t.counter_in_heap + t.counter_in_ebi + 1 ∧
      (scanLocator env snapshot modification rel_id page dp offnum t).counter_in_heap +
          (scanLocator env snapshot modification rel_id page dp offnum t).counter_in_ebi +
          t.ntup ≤
        t.counter_in_heap + t.counter_in_ebi +
          (scanLocator env snapshot modification rel_id page dp offnum t).ntup ∧
      (∀ i, i < t.ntup →
        (scanLocator env snapshot modification rel_id page dp offnum t).rs_vistuples i
          = t.rs_vistuples i) ∧
      ((scanLocator env snapshot modification rel_id page dp offnum t).ntup = t.ntup + 1 →
        (scanLocator env snapshot modification rel_id page dp offnum t).rs_vistuples t.ntup
          = offnum ∧ (PageGetItemId dp offnum).pleaf_flag = true)) ∧
    (∀ i j, i < j →
      j < (heapam_scan_bitmap_next_block_siro_lossy env snapshot curr_cmdtype rel_id page dp
        s).ntup →
      (heapam_scan_bitmap_next_block_siro_lossy env snapshot curr_cmdtype rel_id page dp
        s).rs_vistuples i <
      (heapam_scan_bitmap_next_block_siro_lossy env snapshot curr_cmdtype rel_id page dp
        s).rs_vistuples j) ∧
    (∀ i,
      i < (heapam_scan_bitmap_next_block_siro_lossy env snapshot curr_cmdtype rel_id page dp
        s).ntup →
      (heapam_scan_bitmap_next_block_siro_lossy env snapshot curr_cmdtype rel_id page dp
        s).rs_vistuples i ∈ pageLocators dp) ∧
    (heapam_scan_bitmap_next_block_siro_lossy env snapshot curr_cmdtype rel_id page dp s).ntup
      ≤ (pageLocators dp).length := by
  refine ⟨?_, ?_⟩
  · intro modification offnum t
    obtain ⟨f, hp⟩ := scanLocator_frame env snapshot modification rel_id page dp offnum t
    have hc := f.counters
    have he := f.entry
    refine ⟨?_, ?_, ?_, ?_, ?_, ?_, ?_⟩
    · rcases he with ⟨a, _, _⟩ | ⟨a, _, _⟩ <;> omega
    · rcases he with ⟨a, _, _⟩ | ⟨a, _, _⟩ <;> omega
    · rcases hc with ⟨a, b⟩ | ⟨_, ⟨a, b⟩ | ⟨a, b⟩⟩ <;> omega
    · rcases hc with ⟨a, b⟩ | ⟨_, ⟨a, b⟩ | ⟨a, b⟩⟩ <;> omega
    · rcases he with ⟨n1, _, _⟩ | ⟨n1, _, _⟩ <;>
        rcases hc with ⟨a, b⟩ | ⟨n2, ⟨a, b⟩ | ⟨a, b⟩⟩ <;> omega
    · intro i hi
      rcases he with ⟨_, b, _⟩ | ⟨_, b, _⟩
      · rw [b]
      · rw [b, Function.update_noteq (by omega)]
    · intro hn
      rcases he with ⟨a, _, _⟩ | ⟨_, b, _⟩
      · omega
      · rw [b]
        exact ⟨by simp, hp hn⟩
  · have h0 : PageInv dp FirstOffsetNumber FirstOffsetNumber 0
        { s with ntup := 0, v_loctup := { s.v_loctup with t_tableOid := rel_id } } :=
      ⟨le_refl _, fun i hi => absurd hi (Nat.not_lt_zero i),
        fun i j _ hj => absurd hj (Nat.not_lt_zero j)⟩
    have h := scanOffsets_inv env snapshot
      (curr_cmdtype == CmdType.CMD_UPDATE || curr_cmdtype == CmdType.CMD_DELETE)
      rel_id page dp FirstOffsetNumber dp.maxoff FirstOffsetNumber 0 _ (le_refl _) h0
    refine ⟨h.sorted, ?_, ?_⟩
    · intro i hi
      obtain ⟨m1, m2, m3⟩ := h.mem i hi
      simp only [pageLocators, List.mem_filter, List.mem_range'_1]
      exact ⟨⟨m1, m2⟩, m3⟩
    · have hb := h.bound
      simpa [pageLocators] using hb


/-- C2: for a locator of a siro page, if some checked in-place slot is visible,
the lossy scan stores a copy of the first visible one in the order right slot,
left slot, counts it in `counter_in_heap` and makes no chain lookup for the row;
and a chain lookup is made only if no checked slot is visible and the snapshot
type is `SNAPSHOT_MVCC`. -/
theorem siro_lossy_in_place_slot_first (env : ScanEnv) (snapshot : SnapshotData)
    (modification : Bool) (rel_id : Oid) (page : BlockNumber) (dp : Page)
    (offnum : OffsetNumber) (s : ScanState)
    (hloc : (PageGetItemId dp offnum).pleaf_flag = true) :
    (∀ tv,
      firstVisibleSlot env snapshot dp page s.v_loctup.t_tableOid offnum (env.GetCheckVar offnum)
        = some tv →
      (scanLocator env snapshot modification rel_id page dp offnum s).ntup = s.ntup + 1 ∧
      (scanLocator env snapshot modification rel_id page dp offnum s).rs_vistuples s.ntup
        = offnum ∧
      (scanLocator env snapshot modification rel_id page dp offnum s).rs_vistuples_copied s.ntup
        = some (slotTuple dp page s.v_loctup.t_tableOid offnum tv) ∧
      (scanLocator env snapshot modification rel_id page dp offnum s).counter_in_heap
        = s.counter_in_heap + 1 ∧
      newChainLookups s (scanLocator env snapshot modification rel_id page dp offnum s) = []) ∧
    (newChainLookups s (scanLocator env snapshot modification rel_id page dp offnum s) ≠ [] →
      firstVisibleSlot env snapshot dp page s.v_loctup.t_tableOid offnum (env.GetCheckVar offnum)
        = none ∧
      snapshot.snapshot_type = SnapshotType.SNAPSHOT_MVCC) := by
  constructor
  · intro tv htv
    obtain ⟨hv, hl⟩ := (checkVersions_enter env snapshot dp page offnum s).2 tv htv
    obtain ⟨a, b, c⟩ := (enterLocator_frame env snapshot dp page offnum s).valid hv
    have hh := (enterLocator_frame env snapshot dp page offnum s).heap_eq
    have hlk := scanLocator_lookups env snapshot modification rel_id page dp offnum s
    rw [if_neg (by simp [htv])] at hlk
    rw [scanLocator_of_locator env snapshot modification rel_id page dp offnum s hloc] at hlk ⊢
    simp only [finishLocator, hv, if_true, decrRecRef_ntup, decrRecRef_vistuples,
      decrRecRef_copied, decrRecRef_heap] at hlk ⊢
    refine ⟨a, ?_, ?_, by rw [hh], hlk⟩
    · rw [b]
      simp
    · rw [c, hl]
      simp
  · intro hne
    rw [scanLocator_lookups env snapshot modification rel_id page dp offnum s] at hne
    by_cases hc : (PageGetItemId dp offnum).pleaf_flag = true ∧
          firstVisibleSlot env snapshot dp page s.v_loctup.t_tableOid offnum
            (env.GetCheckVar offnum) = none ∧
          modification = false ∧
          snapshot.snapshot_type = SnapshotType.SNAPSHOT_MVCC ∧
          ¬(memcpy_le (PageGetItemId dp offnum).item 0 8 = 0 ∧
            memcpy_le (PageGetItemId dp offnum).item 8 8 = 0)
    · exact ⟨hc.2.1, hc.2.2.2.1⟩
    · rw [if_neg hc] at hne
      exact absurd rfl hne


/-- Witness of C2: row 4 of the sample page, whose left slot is visible. -/
theorem siro_lossy_in_place_slot_first_witness :
    (PageGetItemId samplePage 4).pleaf_flag = true ∧
    firstVisibleSlot sampleEnv sampleSnapshot samplePage 0 42 4 (sampleEnv.GetCheckVar 4)
      = some CHECK_LEFT ∧
    (scanLocator sampleEnv sampleSnapshot false 42 0 samplePage 4
      sampleScanState).rs_vistuples_copied 0 = some (slotTuple samplePage 0 42 4 CHECK_LEFT) ∧
    newChainLookups sampleScanState
      (scanLocator sampleEnv sampleSnapshot false 42 0 samplePage 4 sampleScanState) = [] :=
  have h := (siro_lossy_in_place_slot_first sampleEnv sampleSnapshot false 42 0 samplePage 4
    sampleScanState (by decide)).1 CHECK_LEFT (by decide)
  ⟨by decide, by decide, h.2.2.1, h.2.2.2.2⟩

theorem scanOffsets_no_lookups (env : ScanEnv) (snapshot : SnapshotData) (modification : Bool)
    (rel_id : Oid) (page : BlockNumber) (dp : Page)
    (hstep : ∀ offnum t,
      newChainLookups t (scanLocator env snapshot modification rel_id page dp offnum t) = []) :
    ∀ (offs : List OffsetNumber) (s : ScanState),
      ∃ evs, (scanOffsets env snapshot modification rel_id page dp offs s).events
          = s.events ++ evs ∧ chainLookups evs = [] := by
  intro offs
  induction offs with
  | nil =>
    intro s
    exact ⟨[], by simp [scanOffsets], rfl⟩
  | cons o rest ih =>
    intro s
    obtain ⟨f, _⟩ := scanLocator_frame env snapshot modification rel_id page dp o s
    obtain ⟨e1, h1⟩ := f.events_ext
    have hl := hstep o s
    rw [newChainLookups_of_eq s _ e1 h1] at hl
    obtain ⟨e2, h2, hl2⟩ := ih (scanLocator env snapshot modification rel_id page dp o s)
    refine ⟨e1 ++ e2, ?_, ?_⟩
    · simp only [scanOffsets, List.foldl_cons] at h2 ⊢
      rw [h2, h1, List.append_assoc]
    · rw [chainLookups_append, hl, hl2]
      rfl

/-- C3: when the current command is UPDATE or DELETE, the lossy scan of a siro
page makes no chain lookup (`PLeafLookupTuple`): not for a locator whose in-place
slots are both invisible, whatever its chain offsets, and hence nowhere in the
page loop. -/
theorem siro_lossy_modification_skips_chain (env : ScanEnv) (snapshot : SnapshotData)
    (curr_cmdtype : CmdType) (rel_id : Oid) (page : BlockNumber) (dp : Page) (s : ScanState)
    (hmod : curr_cmdtype = CmdType.CMD_UPDATE ∨ curr_cmdtype = CmdType.CMD_DELETE) :
    (∀ (offnum : OffsetNumber) (t : ScanState),
      firstVisibleSlot env snapshot dp page t.v_loctup.t_tableOid offnum (env.GetCheckVar offnum)
        = none →
      newChainLookups t
        (scanLocator env snapshot
          (curr_cmdtype == CmdType.CMD_UPDATE || curr_cmdtype == CmdType.CMD_DELETE)
          rel_id page dp offnum t) = []) ∧
    newChainLookups s
      (heapam_scan_bitmap_next_block_siro_lossy env snapshot curr_cmdtype rel_id page dp s)
      = [] := by
  have hm : (curr_cmdtype == CmdType.CMD_UPDATE || curr_cmdtype == CmdType.CMD_DELETE) = true := by
    rcases hmod with h | h <;> subst h <;> rfl
  have hstep : ∀ offnum t,
      newChainLookups t (scanLocator env snapshot true rel_id page dp offnum t) = [] := by
    intro offnum t
    rw [scanLocator_lookups, if_neg]
    simp
  constructor
  · intro offnum t _
    rw [hm]
    exact hstep offnum t
  · unfold heapam_scan_bitmap_next_block_siro_lossy
    dsimp only
    rw [hm]
    obtain ⟨evs, h1, h2⟩ := scanOffsets_no_lookups env snapshot true rel_id page dp hstep
      (List.range' FirstOffsetNumber (PageGetMaxOffsetNumber dp))
      { s with ntup := 0, v_loctup := { s.v_loctup with t_tableOid := rel_id } }
    rw [newChainLookups_of_eq s _ evs h1, h2]

/-- Witness of C3: an UPDATE scanning the sample page, whose rows 1 and 10 have
invisible slots and a chain. -/
theorem siro_lossy_modification_skips_chain_witness :
    firstVisibleSlot sampleEnv sampleSnapshot samplePage 0 42 1 (sampleEnv.GetCheckVar 1) = none ∧
    newChainLookups sampleScanState
      (scanLocator sampleEnv sampleSnapshot
        (CmdType.CMD_UPDATE == CmdType.CMD_UPDATE || CmdType.CMD_UPDATE == CmdType.CMD_DELETE)
        42 0 samplePage 1 sampleScanState) = [] ∧
    newChainLookups sampleScanState
      (heapam_scan_bitmap_next_block_siro_lossy sampleEnv sampleSnapshot CmdType.CMD_UPDATE 42 0
        samplePage sampleScanState) = [] :=
  have h := siro_lossy_modification_skips_chain sampleEnv sampleSnapshot CmdType.CMD_UPDATE 42 0
    samplePage sampleScanState (Or.inl rfl)
  ⟨by decide, h.1 1 sampleScanState (by decide), h.2⟩

/-- C4: outside modification mode, for a locator whose two chain offsets are
both zero and whose in-place slots are both invisible, the lossy scan makes no
chain lookup and adds no entry: `ntup`, `rs_vistuples` and the stored copies are
unchanged (under an MVCC snapshot as under any other). -/
theorem siro_lossy_zero_offsets_skip_chain (env : ScanEnv) (snapshot : SnapshotData)
    (rel_id : Oid) (page : BlockNumber) (dp : Page) (offnum : OffsetNumber) (s : ScanState)
    (hloc : (PageGetItemId dp offnum).pleaf_flag = true)
    (hl : memcpy_le (PageGetItemId dp offnum).item 0 8 = 0)
    (hr : memcpy_le (PageGetItemId dp offnum).item 8 8 = 0)
    (hinv : firstVisibleSlot env snapshot dp page s.v_loctup.t_tableOid offnum
      (env.GetCheckVar offnum) = none) :
    newChainLookups s (scanLocator env snapshot false rel_id page dp offnum s) = [] ∧
    (scanLocator env snapshot false rel_id page dp offnum s).ntup = s.ntup ∧
    (scanLocator env snapshot false rel_id page dp offnum s).rs_vistuples = s.rs_vistuples ∧
    (scanLocator env snapshot false rel_id page dp offnum s).rs_vistuples_copied
      = s.rs_vistuples_copied ∧
    (scanLocator env snapshot false rel_id page dp offnum s).counter_in_ebi
      = s.counter_in_ebi := by
  have hv := (checkVersions_enter env snapshot dp page offnum s).1 hinv
  obtain ⟨a, b, c⟩ := (enterLocator_frame env snapshot dp page offnum s).invalid hv
  have he := (enterLocator_frame env snapshot dp page offnum s).ebi_eq
  refine ⟨?_, ?_⟩
  · rw [scanLocator_lookups, if_neg]
    simp [hl, hr]
  · rw [scanLocator_of_locator env snapshot false rel_id page dp offnum s hloc]
    by_cases h3 : snapshot.snapshot_type = SnapshotType.SNAPSHOT_MVCC
    · rw [finishLocator_chain_path env snapshot rel_id _ offnum _ _ hv h3,
        chainLookup_zero env snapshot rel_id _ offnum _ hl hr]
      simp only [decrRecRef_ntup, decrRecRef_vistuples, decrRecRef_copied, decrRecRef_ebi]
      exact ⟨a, b, c, he⟩
    · simp only [finishLocator, hv, Bool.false_eq_true, if_false, ne_eq, h3, not_false_eq_true,
        if_true, decrRecRef_ntup, decrRecRef_vistuples, decrRecRef_copied, decrRecRef_ebi]
      exact ⟨a, b, c, he⟩

/-- Witness of C4: row 7 of the sample page under the MVCC sample snapshot. -/
theorem siro_lossy_zero_offsets_skip_chain_witness :
    sampleSnapshot.snapshot_type = SnapshotType.SNAPSHOT_MVCC ∧
    newChainLookups sampleScanState
      (scanLocator sampleEnv sampleSnapshot false 42 0 samplePage 7 sampleScanState) = [] ∧
    (scanLocator sampleEnv sampleSnapshot false 42 0 samplePage 7 sampleScanState).ntup = 0 :=
  have h := siro_lossy_zero_offsets_skip_chain sampleEnv sampleSnapshot 42 0 samplePage 7
    sampleScanState (by decide) (by decide) (by decide) (by decide)
  ⟨rfl, h.1, h.2.1⟩

/-- C5: every chain lookup the lossy scan makes for a locator passes the left
chain offset if `PLeafIsLeftLookup(l_off, r_off, xid_bound, snapshot)` holds and
the right chain offset otherwise, where the three values are read from bytes
0-7, 8-15 and 16-19 of the locator; there is at most one lookup per locator,
and there is one when the slots are invisible, the scan is not a modification,
the snapshot is MVCC and the offsets are not both zero. -/
theorem siro_lossy_chain_offset_choice (env : ScanEnv) (snapshot : SnapshotData)
    (modification : Bool) (rel_id : Oid) (page : BlockNumber) (dp : Page)
    (offnum : OffsetNumber) (s : ScanState) :
    (∀ e ∈ newChainLookups s (scanLocator env snapshot modification rel_id page dp offnum s),
      e = ScanEvent.pleafLookupTuple offnum
        (if env.PLeafIsLeftLookup (memcpy_le (PageGetItemId dp offnum).item 0 8)
            (memcpy_le (PageGetItemId dp offnum).item 8 8)
            (memcpy_le (PageGetItemId dp offnum).item 16 4) snapshot then
          memcpy_le (PageGetItemId dp offnum).item 0 8
        else memcpy_le (PageGetItemId dp offnum).item 8 8)) ∧
    (newChainLookups s
      (scanLocator env snapshot modification rel_id page dp offnum s)).length ≤ 1 ∧
    ((PageGetItemId dp offnum).pleaf_flag = true ∧
        firstVisibleSlot env snapshot dp page s.v_loctup.t_tableOid offnum
          (env.GetCheckVar offnum) = none ∧
        modification = false ∧
        snapshot.snapshot_type = SnapshotType.SNAPSHOT_MVCC ∧
        ¬(memcpy_le (PageGetItemId dp offnum).item 0 8 = 0 ∧
          memcpy_le (PageGetItemId dp offnum).item 8 8 = 0) →
      (newChainLookups s
        (scanLocator env snapshot modification rel_id page dp offnum s)).length = 1) := by
  rw [scanLocator_lookups]
  refine ⟨?_, ?_, ?_⟩
  · intro e he
    split_ifs at he with hc
    · simp only [List.mem_singleton] at he
      rw [he]
      rfl
    · simp at he
  · split_ifs <;> simp
  · intro hc
    rw [if_pos hc]
    rfl

/-- C6: when the chain lookup made by the lossy scan for a locator reports not
found (a negative result id), the scan adds no entry for the row: `ntup`, the
collected offsets and copies and both counters are unchanged, and the page loop
goes on with the next line pointer. -/
theorem siro_lossy_chain_not_found (env : ScanEnv) (snapshot : SnapshotData)
    (modification : Bool) (rel_id : Oid) (page : BlockNumber) (dp : Page)
    (offnum : OffsetNumber) (s : ScanState)
    (hcall : newChainLookups s (scanLocator env snapshot modification rel_id page dp offnum s)
      ≠ [])
    (hneg : (env.PLeafLookupTuple rel_id
      (chosenOffset env snapshot (PageGetItemId dp offnum).item) snapshot).ret_id < 0) :
    (scanLocator env snapshot modification rel_id page dp offnum s).ntup = s.ntup ∧
    (scanLocator env snapshot modification rel_id page dp offnum s).rs_vistuples
      = s.rs_vistuples ∧
    (scanLocator env snapshot modification rel_id page dp offnum s).rs_vistuples_copied
      = s.rs_vistuples_copied ∧
    (scanLocator env snapshot modification rel_id page dp offnum s).counter_in_heap
      = s.counter_in_heap ∧
    (scanLocator env snapshot modification rel_id page dp offnum s).counter_in_ebi
      = s.counter_in_ebi ∧
    ∀ rest, scanOffsets env snapshot modification rel_id page dp (offnum :: rest) s
      = scanOffsets env snapshot modification rel_id page dp rest
          (scanLocator env snapshot modification rel_id page dp offnum s) := by
  rw [scanLocator_lookups env snapshot modification rel_id page dp offnum s] at hcall
  by_cases hc : (PageGetItemId dp offnum).pleaf_flag = true ∧
        firstVisibleSlot env snapshot dp page s.v_loctup.t_tableOid offnum
          (env.GetCheckVar offnum) = none ∧
        modification = false ∧
        snapshot.snapshot_type = SnapshotType.SNAPSHOT_MVCC ∧
        ¬(memcpy_le (PageGetItemId dp offnum).item 0 8 = 0 ∧
          memcpy_le (PageGetItemId dp offnum).item 8 8 = 0)
  · obtain ⟨hloc, hinv, hm, h3, hz⟩ := hc
    subst hm
    have hv := (checkVersions_enter env snapshot dp page offnum s).1 hinv
    obtain ⟨a, b, c⟩ := (enterLocator_frame env snapshot dp page offnum s).invalid hv
    have hh := (enterLocator_frame env snapshot dp page offnum s).heap_eq
    have he := (enterLocator_frame env snapshot dp page offnum s).ebi_eq
    have hret : ¬(env.PLeafLookupTuple rel_id
        (chosenOffset env snapshot (PageGetItemId dp offnum).item) snapshot).ret_id > -1 := by
      omega
    obtain ⟨c1, c2, c3, c4, c5, _⟩ := chainLookup_not_found env snapshot rel_id
      (PageGetItemId dp offnum).item offnum
      (checkVersions env snapshot dp offnum (env.GetCheckVar offnum) CHECK_RIGHT
        (enterLocator env page offnum s)).2 hz hret
    rw [scanLocator_of_locator env snapshot false rel_id page dp offnum s hloc,
      finishLocator_chain_path env snapshot rel_id _ offnum _ _ hv h3]
    simp only [decrRecRef_ntup, decrRecRef_vistuples, decrRecRef_copied, decrRecRef_heap,
      decrRecRef_ebi]
    refine ⟨by rw [c1, a], by rw [c2, b], by rw [c3, c], by rw [c4, hh], by rw [c5, he], ?_⟩
    intro rest
    rw [← finishLocator_chain_path env snapshot rel_id _ offnum _ _ hv h3,
      ← scanLocator_of_locator env snapshot false rel_id page dp offnum s hloc]
    rfl
  · rw [if_neg hc] at hcall
    exact absurd rfl hcall

/-- Witness of C6: row 10 of the sample page, whose lookup finds nothing. -/
theorem siro_lossy_chain_not_found_witness :
    newChainLookups sampleScanState
      (scanLocator sampleEnv sampleSnapshot false 42 0 samplePage 10 sampleScanState)
      = [ScanEvent.pleafLookupTuple 10 0] ∧
    (scanLocator sampleEnv sampleSnapshot false 42 0 samplePage 10 sampleScanState).ntup = 0 :=
  ⟨by decide,
    (siro_lossy_chain_not_found sampleEnv sampleSnapshot false 42 0 samplePage 10
      sampleScanState (by decide) (by decide)).1⟩


/-! ## Properties of the fetch paths -/

theorem toBlockNumber_of_lt (n : Nat) (h : n < 2 ^ 32) : toBlockNumber n = n :=
  Nat.mod_eq_of_lt h

theorem releaseEbiBuffer_requests (st : IndexFetchState) :
    ∃ evs, (releaseEbiBuffer st).events = st.events ++ evs ∧ partitionRequests evs = [] ∧
      (releaseEbiBuffer st).call_again = st.call_again := by
  unfold releaseEbiBuffer
  split_ifs
  · exact ⟨_, rfl, rfl, rfl⟩
  · exact ⟨[], by simp, rfl, rfl⟩

theorem locatoram_index_fetch_tuple_requests (env : FetchEnv) (curr_cmdtype : CmdType)
    (route_synopsis : Nat) (snapshot : SnapshotData) (st : IndexFetchState) :
    newPartitionRequests st.events.length
        (locatoram_index_fetch_tuple env curr_cmdtype route_synopsis snapshot st).2.events =
      if env.locator_is_columnar_layout
            (env.LocatorRouteSynopsisGetTuplePositionForIndexscan
              route_synopsis).partitionLevel = true ∨ st.call_again = true then []
      else
        [{ level := (env.LocatorRouteSynopsisGetTuplePositionForIndexscan
              route_synopsis).partitionLevel
           number := (env.LocatorRouteSynopsisGetTuplePositionForIndexscan
              route_synopsis).partitionNumber
           generation := (env.LocatorRouteSynopsisGetTuplePositionForIndexscan
              route_synopsis).partitionGenerationNumber
           block := toBlockNumber
            ((env.LocatorRouteSynopsisGetTuplePositionForIndexscan
              route_synopsis).partitionTuplePosition / env.records_per_block) }] := by
  obtain ⟨evs, he, hp, hc⟩ := releaseEbiBuffer_requests st
  unfold locatoram_index_fetch_tuple locator_index_fetch_tuple newPartitionRequests
  dsimp only
  rw [hc]
  by_cases hcol : env.locator_is_columnar_layout
      (env.LocatorRouteSynopsisGetTuplePositionForIndexscan route_synopsis).partitionLevel = true
  · simp only [hcol, if_true, true_or]
    split_ifs <;> simp [he, hp]
  · by_cases hca : st.call_again = true
    · simp only [hcol, hca, if_false, or_true, if_true, Bool.not_true, Bool.false_eq_true]
      split_ifs <;> simp [he, partitionRequests, List.filterMap_append] <;>
        simpa [partitionRequests] using hp
    · have hca' : st.call_again = false := by simpa using hca
      simp only [hcol, hca', if_false, or_self, Bool.not_false, if_true, Bool.false_eq_true]
      split_ifs <;> simp [he, partitionRequests, List.filterMap_append] <;>
        simpa [partitionRequests] using hp

@[simp] theorem bumpCurcid_events (c : CmdType) (s : SearchState) :
    (bumpCurcid c s).events = s.events := by
  unfold bumpCurcid
  split_ifs <;> rfl

@[simp] theorem restoreCurcid_events (c : CmdType) (s : SearchState) :
    (restoreCurcid c s).events = s.events := by
  unfold restoreCurcid
  split_ifs <;> rfl

theorem locatoram_search_row_version_requests (env : FetchEnv) (route_synopsis : Nat)
    (s : SearchState) :
    newPartitionRequests s.events.length
        (locatoram_search_row_version env route_synopsis s).2.events =
      if env.locator_is_columnar_layout
            (env.LocatorRouteSynopsisGetTuplePositionForUpdate
              route_synopsis).partitionLevel = true then []
      else
        [{ level := (env.LocatorRouteSynopsisGetTuplePositionForUpdate
              route_synopsis).partitionLevel
           number := (env.LocatorRouteSynopsisGetTuplePositionForUpdate
              route_synopsis).partitionNumber
           generation := (env.LocatorRouteSynopsisGetTuplePositionForUpdate
              route_synopsis).partitionGenerationNumber
           block := toBlockNumber
            ((env.LocatorRouteSynopsisGetTuplePositionForUpdate
              route_synopsis).partitionTuplePosition / env.records_per_block) }] := by
  unfold locatoram_search_row_version locator_search_row_version newPartitionRequests
  dsimp only
  by_cases hcol : env.locator_is_columnar_layout
      (env.LocatorRouteSynopsisGetTuplePositionForUpdate route_synopsis).partitionLevel = true
  · simp [hcol, partitionRequests]
  · simp only [hcol, if_false, Bool.false_eq_true]
    split_ifs <;> simp [partitionRequests, List.filterMap_append]

/-- C7: for `d = records_per_block > 0` and a resolved position whose block
`p / d` is a block number (below `2 ^ 32`), every page request made by
`locatoram_index_fetch_tuple` and by `locatoram_search_row_version` carries the
level, partition number and generation of the resolved position and the block
`p / d`; each makes that one request on its row-layout path (the index fetch
when `*call_again` is false); so both paths map a position to the same address,
and the positions `k * d .. k * d + d - 1` all map to block `k`. -/
theorem partition_block_is_position_div_density (env : FetchEnv) (curr_cmdtype : CmdType)
    (route_synopsis : Nat) (snapshot : SnapshotData) (st : IndexFetchState) (s : SearchState)
    (_hd : 0 < env.records_per_block)
    (hi : (env.LocatorRouteSynopsisGetTuplePositionForIndexscan
      route_synopsis).partitionTuplePosition / env.records_per_block < 2 ^ 32)
    (hu : (env.LocatorRouteSynopsisGetTuplePositionForUpdate
      route_synopsis).partitionTuplePosition / env.records_per_block < 2 ^ 32) :
    (∀ req ∈ newPartitionRequests st.events.length
        (locatoram_index_fetch_tuple env curr_cmdtype route_synopsis snapshot st).2.events,
      req = positionAddress
        (env.LocatorRouteSynopsisGetTuplePositionForIndexscan route_synopsis)
        env.records_per_block) ∧
    (env.locator_is_columnar_layout
        (env.LocatorRouteSynopsisGetTuplePositionForIndexscan route_synopsis).partitionLevel
        = false →
      st.call_again = false →
      newPartitionRequests st.events.length
          (locatoram_index_fetch_tuple env curr_cmdtype route_synopsis snapshot st).2.events
        = [positionAddress
            (env.LocatorRouteSynopsisGetTuplePositionForIndexscan route_synopsis)
            env.records_per_block]) ∧
    (∀ req ∈ newPartitionRequests s.events.length
        (locatoram_search_row_version env route_synopsis s).2.events,
      req = positionAddress
        (env.LocatorRouteSynopsisGetTuplePositionForUpdate route_synopsis)
        env.records_per_block) ∧
    (env.locator_is_columnar_layout
        (env.LocatorRouteSynopsisGetTuplePositionForUpdate route_synopsis).partitionLevel
        = false →
      newPartitionRequests s.events.length
          (locatoram_search_row_version env route_synopsis s).2.events
        = [positionAddress
            (env.LocatorRouteSynopsisGetTuplePositionForUpdate route_synopsis)
            env.records_per_block]) ∧
    (env.LocatorRouteSynopsisGetTuplePositionForIndexscan route_synopsis
        = env.LocatorRouteSynopsisGetTuplePositionForUpdate route_synopsis →
      ∀ a ∈ newPartitionRequests st.events.length
          (locatoram_index_fetch_tuple env curr_cmdtype route_synopsis snapshot st).2.events,
      ∀ b ∈ newPartitionRequests s.events.length
          (locatoram_search_row_version env route_synopsis s).2.events,
      a = b) ∧
    (∀ k j, j < env.records_per_block → k < 2 ^ 32 →
      toBlockNumber ((k * env.records_per_block + j) / env.records_per_block) = k) := by
  have e1 := locatoram_index_fetch_tuple_requests env curr_cmdtype route_synopsis snapshot st
  have e2 := locatoram_search_row_version_requests env route_synopsis s
  rw [toBlockNumber_of_lt _ hi] at e1
  rw [toBlockNumber_of_lt _ hu] at e2
  have a1 : ∀ req ∈ newPartitionRequests st.events.length
        (locatoram_index_fetch_tuple env curr_cmdtype route_synopsis snapshot st).2.events,
      req = positionAddress
        (env.LocatorRouteSynopsisGetTuplePositionForIndexscan route_synopsis)
        env.records_per_block := by
    intro req hreq
    rw [e1] at hreq
    split_ifs at hreq
    · simp at hreq
    · simp only [List.mem_singleton] at hreq
      rw [hreq]
      rfl
  have a3 : ∀ req ∈ newPartitionRequests s.events.length
        (locatoram_search_row_version env route_synopsis s).2.events,
      req = positionAddress
        (env.LocatorRouteSynopsisGetTuplePositionForUpdate route_synopsis)
        env.records_per_block := by
    intro req hreq
    rw [e2] at hreq
    split_ifs at hreq
    · simp at hreq
    · simp only [List.mem_singleton] at hreq
      rw [hreq]
      rfl
  refine ⟨a1, ?_, a3, ?_, ?_, ?_⟩
  · intro hcol hca
    rw [e1, if_neg (by simp [hcol, hca])]
    rfl
  · intro hcol
    rw [e2, if_neg (by simp [hcol])]
    rfl
  · intro hsame a ha b hb
    rw [a1 a ha, a3 b hb, hsame]
  · intro k j hj hk
    have hq : (k * env.records_per_block + j) / env.records_per_block = k := by
      rw [Nat.mul_comm, Nat.mul_add_div _hd, Nat.div_eq_of_lt hj, Nat.add_zero]
    rw [hq]
    exact toBlockNumber_of_lt k hk

/-- Witness of C7: position 21 with 8 records per block is requested in block 2
of partition (1, 2, 3) by both paths. -/
theorem partition_block_is_position_div_density_witness :
    newPartitionRequests sampleIndexFetchState.events.length
        (locatoram_index_fetch_tuple sampleFetchEnv CmdType.CMD_SELECT 0 sampleSnapshot
          sampleIndexFetchState).2.events
      = [{ level := 1, number := 2, generation := 3, block := 2 }] ∧
    newPartitionRequests sampleSearchState.events.length
        (locatoram_search_row_version sampleFetchEnv 0 sampleSearchState).2.events
      = [{ level := 1, number := 2, generation := 3, block := 2 }] ∧
    toBlockNumber ((2 * sampleFetchEnv.records_per_block + 7) / sampleFetchEnv.records_per_block)
      = 2 :=
  have h := partition_block_is_position_div_density sampleFetchEnv CmdType.CMD_SELECT 0
    sampleSnapshot sampleIndexFetchState sampleSearchState (by decide) (by decide) (by decide)
  ⟨h.2.1 rfl rfl, h.2.2.2.1 rfl, h.2.2.2.2.2 2 7 (by decide) (by decide)⟩

/-- C8: each index-fetch entry point returns with `*call_again` equal to "a
visible version was found and the snapshot is not an MVCC snapshot"; under an
MVCC snapshot `*call_again` is false on return. -/
theorem index_fetch_call_again (env : FetchEnv) (siro : Bool) (curr_cmdtype : CmdType)
    (tid : ItemPointerData) (tuplePosition : LocatorTuplePositionData) (route_synopsis : Nat)
    (snapshot : SnapshotData) (st : IndexFetchState) :
    ((heapam_index_fetch_tuple env siro tid snapshot st).2.call_again
        = ((heapam_index_fetch_tuple env siro tid snapshot st).1 && !IsMVCCSnapshot snapshot)) ∧
    ((locator_index_fetch_tuple env curr_cmdtype tuplePosition snapshot st).2.call_again
        = ((locator_index_fetch_tuple env curr_cmdtype tuplePosition snapshot st).1 &&
            !IsMVCCSnapshot snapshot)) ∧
    ((locatoram_index_fetch_tuple env curr_cmdtype route_synopsis snapshot st).2.call_again
        = ((locatoram_index_fetch_tuple env curr_cmdtype route_synopsis snapshot st).1 &&
            !IsMVCCSnapshot snapshot)) ∧
    (IsMVCCSnapshot snapshot = true →
      (heapam_index_fetch_tuple env siro tid snapshot st).2.call_again = false ∧
      (locator_index_fetch_tuple env curr_cmdtype tuplePosition snapshot st).2.call_again
        = false ∧
      (locatoram_index_fetch_tuple env curr_cmdtype route_synopsis snapshot st).2.call_again
        = false) := by
  have h1 : (heapam_index_fetch_tuple env siro tid snapshot st).2.call_again
      = ((heapam_index_fetch_tuple env siro tid snapshot st).1 && !IsMVCCSnapshot snapshot) := by
    unfold heapam_index_fetch_tuple
    dsimp only
    split_ifs <;> rfl
  have h2 : ∀ st1 : IndexFetchState,
      (locator_index_fetch_tuple env curr_cmdtype tuplePosition snapshot st1).2.call_again
      = ((locator_index_fetch_tuple env curr_cmdtype tuplePosition snapshot st1).1 &&
          !IsMVCCSnapshot snapshot) := by
    intro st1
    unfold locator_index_fetch_tuple
    dsimp only
    split_ifs <;> rfl
  have h3 : (locatoram_index_fetch_tuple env curr_cmdtype route_synopsis snapshot st).2.call_again
      = ((locatoram_index_fetch_tuple env curr_cmdtype route_synopsis snapshot st).1 &&
          !IsMVCCSnapshot snapshot) := by
    unfold locatoram_index_fetch_tuple locator_index_fetch_tuple
    dsimp only
    split_ifs <;> rfl
  refine ⟨h1, h2 st, h3, ?_⟩
  intro hm
  rw [h1, h2 st, h3, hm]
  simp


/-! ## Properties of the tuple lock -/

theorem lockAttemptStep_ret (env : LockEnv) (cid : CommandId) (mode : LockTupleMode)
    (wait_policy : LockWaitPolicy) (flags : Nat) (s t : LockState) (r : TM_Result)
    (h : lockAttemptStep env cid mode wait_policy flags s = LockStep.ret r t) :
    ∃ a, env.heap_lock_tuple s.clock s.tid cid mode wait_policy
          (flags &&& TUPLE_LOCK_FLAG_LOCK_UPDATE_IN_PROGRESS != 0) = Except.ok a ∧
      ((a.result = TM_Result.TM_Updated ∧ flags &&& TUPLE_LOCK_FLAG_FIND_LAST_VERSION ≠ 0 ∧
          r = TM_Result.TM_Deleted) ∨
        (¬(a.result = TM_Result.TM_Updated ∧ flags &&& TUPLE_LOCK_FLAG_FIND_LAST_VERSION ≠ 0) ∧
          r = a.result)) ∧
      t.result = some a.result ∧ t.hops = s.hops ∧ t.attempts = s.attempts + 1 ∧
      t.tmfd.traversed = s.tmfd.traversed := by
  unfold lockAttemptStep at h
  dsimp only at h
  cases ha : env.heap_lock_tuple s.clock s.tid cid mode wait_policy
      (flags &&& TUPLE_LOCK_FLAG_LOCK_UPDATE_IN_PROGRESS != 0) with
  | error e =>
    rw [ha] at h
    simp at h
  | ok a =>
    rw [ha] at h
    dsimp only at h
    refine ⟨a, rfl, ?_⟩
    split_ifs at h with h1 h2
    · simp only [LockStep.ret.injEq] at h
      obtain ⟨hr, ht⟩ := h
      subst ht
      refine ⟨Or.inl ⟨h1.1, h1.2, hr.symm⟩, rfl, rfl, rfl, ?_⟩
      cases a.failure <;> rfl
    · simp only [LockStep.ret.injEq] at h
      obtain ⟨hr, ht⟩ := h
      subst ht
      refine ⟨Or.inr ⟨h1, hr.symm⟩, rfl, rfl, rfl, ?_⟩
      cases a.failure <;> rfl

theorem lockAttemptStep_next (env : LockEnv) (cid : CommandId) (mode : LockTupleMode)
    (wait_policy : LockWaitPolicy) (flags : Nat) (s t : LockState)
    (h : lockAttemptStep env cid mode wait_policy flags s = LockStep.next t) :
    ∃ a, env.heap_lock_tuple s.clock s.tid cid mode wait_policy
          (flags &&& TUPLE_LOCK_FLAG_LOCK_UPDATE_IN_PROGRESS != 0) = Except.ok a ∧
      a.result = TM_Result.TM_Updated ∧ flags &&& TUPLE_LOCK_FLAG_FIND_LAST_VERSION ≠ 0 ∧
      t.pc = LockPc.fetch_loop ∧ t.tid = t.tmfd.ctid ∧ t.tid ≠ s.tid ∧
      t.priorXmax = t.tmfd.xmax ∧ t.hops = s.hops + 1 ∧ t.attempts = s.attempts + 1 ∧
      t.tmfd.traversed = true ∧
      (∀ c x m, a.failure = some (c, x, m) → t.tid = c ∧ t.priorXmax = x) := by
  unfold lockAttemptStep at h
  dsimp only at h
  cases ha : env.heap_lock_tuple s.clock s.tid cid mode wait_policy
      (flags &&& TUPLE_LOCK_FLAG_LOCK_UPDATE_IN_PROGRESS != 0) with
  | error e =>
    rw [ha] at h
    simp at h
  | ok a =>
    rw [ha] at h
    dsimp only at h
    refine ⟨a, rfl, ?_⟩
    split_ifs at h with h1 h2
    · simp only [LockStep.next.injEq] at h
      subst h
      refine ⟨h1.1, h1.2, rfl, rfl, h2, rfl, rfl, rfl, rfl, ?_⟩
      intro c x m hf
      rw [hf]
      exact ⟨rfl, rfl⟩

theorem fetchStep_ret (env : LockEnv) (cid : CommandId) (wait_policy : LockWaitPolicy)
    (s t : LockState) (r : TM_Result)
    (h : fetchStep env cid wait_policy s = LockStep.ret r t) :
    (r = TM_Result.TM_Deleted ∨ r = TM_Result.TM_SelfModified ∨
      (r = TM_Result.TM_WouldBlock ∧ wait_policy = LockWaitPolicy.LockWaitSkip ∧
        ∃ hdr dx1 dx2, env.heap_fetch s.clock s.tid = HeapFetchResult.visible hdr dx1 dx2 ∧
          TransactionIdIsValid dx2 = true)) ∧
    t.hops = s.hops ∧ t.attempts = s.attempts ∧ t.result = s.result ∧
    t.tmfd.traversed = s.tmfd.traversed := by
  unfold fetchStep at h
  cases hf : env.heap_fetch s.clock s.tid <;> cases wait_policy <;> rw [hf] at h <;>
    dsimp only at h <;> split_ifs at h <;> cases h <;> refine ⟨?_, rfl, rfl, rfl, rfl⟩ <;>
    first
    | exact Or.inl rfl
    | exact Or.inr (Or.inl rfl)
    | exact Or.inr (Or.inr ⟨rfl, rfl, _, _, _, rfl, by assumption⟩)

theorem fetchStep_next (env : LockEnv) (cid : CommandId) (wait_policy : LockWaitPolicy)
    (s t : LockState) (h : fetchStep env cid wait_policy s = LockStep.next t) :
    t.attempts = s.attempts ∧ t.result = s.result ∧ t.tmfd.traversed = s.tmfd.traversed ∧
    ((t.pc = LockPc.tuple_lock_retry ∧ t.tid = s.tid ∧ t.hops = s.hops ∧
        ∃ hdr dx1 dx2, env.heap_fetch s.clock s.tid = HeapFetchResult.visible hdr dx1 dx2 ∧
          hdr.xmin = s.priorXmax ∧ TransactionIdIsValid dx1 = false ∧
          TransactionIdIsValid dx2 = false) ∨
      (t.pc = s.pc ∧ t.tid = s.tid ∧ t.hops = s.hops ∧ t.priorXmax = s.priorXmax ∧
        ∃ hdr dx1 dx2, env.heap_fetch s.clock s.tid = HeapFetchResult.visible hdr dx1 dx2 ∧
          TransactionIdIsValid dx2 = true) ∨
      (t.pc = s.pc ∧ t.hops = s.hops + 1 ∧
        ∃ hdr, env.heap_fetch s.clock s.tid = HeapFetchResult.invisible hdr ∧
          hdr.xmin = s.priorXmax ∧ t.tid = hdr.t_ctid ∧ hdr.t_ctid ≠ s.tid ∧
          t.priorXmax = hdr.update_xid)) := by
  unfold fetchStep at h
  cases hf : env.heap_fetch s.clock s.tid <;> cases wait_policy <;> rw [hf] at h <;>
    dsimp only at h <;> split_ifs at h <;> cases h <;> refine ⟨rfl, rfl, rfl, ?_⟩ <;>
    first
    | exact Or.inr (Or.inl ⟨rfl, rfl, rfl, rfl, _, _, _, rfl, by assumption⟩)
    | exact Or.inl ⟨rfl, rfl, rfl, _, _, _, rfl, by simp_all, by simp_all, by simp_all⟩
    | exact Or.inr (Or.inr ⟨rfl, rfl, _, rfl, by simp_all, rfl,
        fun e => by simp_all, rfl⟩)

theorem lockStep_ret_not_updated (env : LockEnv) (cid : CommandId) (mode : LockTupleMode)
    (wait_policy : LockWaitPolicy) (flags : Nat) (s t : LockState) (r : TM_Result)
    (hflag : flags &&& TUPLE_LOCK_FLAG_FIND_LAST_VERSION ≠ 0)
    (h : lockStep env cid mode wait_policy flags s = LockStep.ret r t) :
    r ≠ TM_Result.TM_Updated := by
  unfold lockStep at h
  cases hpc : s.pc with
  | tuple_lock_retry =>
    rw [hpc] at h
    obtain ⟨a, _, hr, _⟩ := lockAttemptStep_ret env cid mode wait_policy flags s t r h
    rcases hr with ⟨_, _, hd⟩ | ⟨hn, hd⟩
    · rw [hd]
      decide
    · rw [hd]
      intro hu
      exact hn ⟨hu, hflag⟩
  | fetch_loop =>
    rw [hpc] at h
    obtain ⟨hr, _⟩ := fetchStep_ret env cid wait_policy s t r h
    rcases hr with hd | hd | ⟨hd, _⟩ <;> rw [hd] <;> decide

theorem lockRun_not_updated (env : LockEnv) (cid : CommandId) (mode : LockTupleMode)
    (wait_policy : LockWaitPolicy) (flags : Nat)
    (hflag : flags &&& TUPLE_LOCK_FLAG_FIND_LAST_VERSION ≠ 0) :
    ∀ (fuel : Nat) (s : LockState) (o : LockOutcome),
      lockRun env cid mode wait_policy flags fuel s = some o →
      o.1 ≠ Except.ok TM_Result.TM_Updated := by
  intro fuel
  induction fuel with
  | zero =>
    intro s o h
    simp [lockRun] at h
  | succ n ih =>
    intro s o h
    unfold lockRun at h
    cases hs : lockStep env cid mode wait_policy flags s with
    | next s1 =>
      rw [hs] at h
      exact ih s1 o h
    | ret r s1 =>
      rw [hs] at h
      simp only [Option.some.injEq] at h
      subst h
      intro hu
      simp only [Except.ok.injEq] at hu
      exact lockStep_ret_not_updated env cid mode wait_policy flags s s1 r hflag hs hu
    | error e s1 =>
      rw [hs] at h
      simp only [Option.some.injEq] at h
      subst h
      intro hu
      cases hu

/-- C10: with the find-last-version flag set, `heapam_tuple_lock` never returns
`TM_Updated`: a lock attempt that reports `TM_Updated` either moves on to the
forward version (`traversed` set, one more pointer followed) or ends the call
with `TM_Deleted`; the traversal ends only with `TM_Deleted`, `TM_SelfModified`
or `TM_WouldBlock` (or an error), or goes back to a lock attempt on the version
it fetched.  With the flag clear the call makes one lock attempt, returns its
result (or its error) unchanged, follows no pointer and leaves `traversed`
false. -/
theorem tuple_lock_find_last_version (env : LockEnv) (fuel : Nat) (tid : ItemPointerData)
    (tuple_t_self : ItemPointerData) (cid : CommandId) (mode : LockTupleMode)
    (wait_policy : LockWaitPolicy) (flags : Nat) (tmfd : TM_FailureData) :
    (flags &&& TUPLE_LOCK_FLAG_FIND_LAST_VERSION ≠ 0 →
      (∀ o, heapam_tuple_lock env fuel tid tuple_t_self cid mode wait_policy flags tmfd = some o →
        o.1 ≠ Except.ok TM_Result.TM_Updated) ∧
      (∀ (s : LockState) (a : LockAttempt),
        env.heap_lock_tuple s.clock s.tid cid mode wait_policy
          (flags &&& TUPLE_LOCK_FLAG_LOCK_UPDATE_IN_PROGRESS != 0) = Except.ok a →
        a.result = TM_Result.TM_Updated →
        (∃ t, lockAttemptStep env cid mode wait_policy flags s = LockStep.next t ∧
          t.pc = LockPc.fetch_loop ∧ t.tid = t.tmfd.ctid ∧ t.tid ≠ s.tid ∧
          t.hops = s.hops + 1 ∧ t.tmfd.traversed = true) ∨
        (∃ t, lockAttemptStep env cid mode wait_policy flags s
          = LockStep.ret TM_Result.TM_Deleted t)) ∧
      (∀ (s t : LockState) (r : TM_Result),
        fetchStep env cid wait_policy s = LockStep.ret r t →
        r = TM_Result.TM_Deleted ∨ r = TM_Result.TM_SelfModified ∨
          r = TM_Result.TM_WouldBlock) ∧
      (∀ (s t : LockState), s.pc = LockPc.fetch_loop →
        fetchStep env cid wait_policy s = LockStep.next t →
        t.pc = LockPc.tuple_lock_retry → t.tid = s.tid)) ∧
    (flags &&& TUPLE_LOCK_FLAG_FIND_LAST_VERSION = 0 →
      ∃ t, heapam_tuple_lock env (fuel + 1) tid tuple_t_self cid mode wait_policy flags tmfd
          = some ((env.heap_lock_tuple 0 tid cid mode wait_policy
              (flags &&& TUPLE_LOCK_FLAG_LOCK_UPDATE_IN_PROGRESS != 0)).map LockAttempt.result,
            t) ∧
        t.attempts = 1 ∧ t.hops = 0 ∧ t.tmfd.traversed = false) := by
  constructor
  · intro hflag
    refine ⟨?_, ?_, ?_, ?_⟩
    · intro o h
      exact lockRun_not_updated env cid mode wait_policy flags hflag fuel _ o h
    · intro s a ha hres
      unfold lockAttemptStep
      dsimp only
      rw [ha]
      dsimp only
      rw [if_pos ⟨hres, hflag⟩]
      split_ifs with h2
      · refine Or.inl ⟨_, rfl, rfl, rfl, h2, rfl, rfl⟩
      · exact Or.inr ⟨_, rfl⟩
    · intro s t r h
      rcases (fetchStep_ret env cid wait_policy s t r h).1 with hd | hd | ⟨hd, _⟩
      · exact Or.inl hd
      · exact Or.inr (Or.inl hd)
      · exact Or.inr (Or.inr hd)
    · intro s t hpc h hret
      rcases (fetchStep_next env cid wait_policy s t h).2.2.2 with
        ⟨_, ht, _⟩ | ⟨hp, ht, _⟩ | ⟨hp, _⟩
      · exact ht
      · exact ht
      · rw [hp, hpc] at hret
        cases hret
  · intro hflag
    unfold heapam_tuple_lock lockRun lockStep lockInit
    dsimp only
    unfold lockAttemptStep
    dsimp only
    cases ha : env.heap_lock_tuple 0 tid cid mode wait_policy
        (flags &&& TUPLE_LOCK_FLAG_LOCK_UPDATE_IN_PROGRESS != 0) with
    | error e =>
      exact ⟨_, rfl, rfl, rfl, rfl⟩
    | ok a =>
      dsimp only
      rw [if_neg (by simp [hflag])]
      refine ⟨_, rfl, rfl, rfl, ?_⟩
      cases a.failure <;> rfl


theorem lockAttemptStep_error (env : LockEnv) (cid : CommandId) (mode : LockTupleMode)
    (wait_policy : LockWaitPolicy) (flags : Nat) (s t : LockState) (e : LockError)
    (h : lockAttemptStep env cid mode wait_policy flags s = LockStep.error e t) :
    t.hops = s.hops ∧
    env.heap_lock_tuple s.clock s.tid cid mode wait_policy
      (flags &&& TUPLE_LOCK_FLAG_LOCK_UPDATE_IN_PROGRESS != 0) = Except.error e := by
  unfold lockAttemptStep at h
  dsimp only at h
  cases ha : env.heap_lock_tuple s.clock s.tid cid mode wait_policy
      (flags &&& TUPLE_LOCK_FLAG_LOCK_UPDATE_IN_PROGRESS != 0) with
  | error e1 =>
    rw [ha] at h
    cases h
    exact ⟨rfl, rfl⟩
  | ok a =>
    rw [ha] at h
    dsimp only at h
    split_ifs at h

theorem fetchStep_error (env : LockEnv) (cid : CommandId) (wait_policy : LockWaitPolicy)
    (s t : LockState) (e : LockError)
    (h : fetchStep env cid wait_policy s = LockStep.error e t) :
    t.hops = s.hops ∧ t.attempts = s.attempts := by
  unfold fetchStep at h
  cases hf : env.heap_fetch s.clock s.tid <;> cases wait_policy <;> rw [hf] at h <;>
    dsimp only at h <;> split_ifs at h <;> cases h <;> exact ⟨rfl, rfl⟩

theorem lockRun_terminates (env : LockEnv) (cid : CommandId) (mode : LockTupleMode)
    (wait_policy : LockWaitPolicy) (flags : Nat) (chain : List ItemPointerData)
    (hflag : flags &&& TUPLE_LOCK_FLAG_FIND_LAST_VERSION ≠ 0)
    (hchain : ChainOfUpdates env cid mode wait_policy
      (flags &&& TUPLE_LOCK_FLAG_LOCK_UPDATE_IN_PROGRESS != 0) chain) :
    ∀ (fuel : Nat) (s : LockState) (i : Nat),
      chain[i]? = some s.tid → s.hops ≤ i → lockMeasure chain.length i s.pc ≤ fuel →
      ∃ o, lockRun env cid mode wait_policy flags fuel s = some o ∧
        o.2.hops + 1 ≤ chain.length ∧
        ∀ r, o.1 = Except.ok r →
          r = TM_Result.TM_Deleted ∨ r = TM_Result.TM_SelfModified ∨
            (o.2.result = some r ∧ r ≠ TM_Result.TM_Updated) := by
  intro fuel
  induction fuel with
  | zero =>
    intro s i hi _ hm
    have hlt : i < chain.length := (List.getElem?_eq_some.mp hi).1
    exfalso
    unfold lockMeasure at hm
    cases hpc : s.pc <;> rw [hpc] at hm <;> dsimp only at hm <;> omega
  | succ n ih =>
    intro s i hi hh hm
    have hlt : i < chain.length := (List.getElem?_eq_some.mp hi).1
    unfold lockRun
    cases hpc : s.pc with
    | tuple_lock_retry =>
      have hm1 : 2 * (chain.length - i) - 1 ≤ n + 1 := by
        simpa [lockMeasure, hpc] using hm
      have hstep : lockStep env cid mode wait_policy flags s
          = lockAttemptStep env cid mode wait_policy flags s := by
        simp [lockStep, hpc]
      rw [hstep]
      cases hs : lockAttemptStep env cid mode wait_policy flags s with
      | next t =>
        dsimp only
        obtain ⟨a, ha, hres, _, htpc, _, hne, _, hhops, _, _, hfail⟩ :=
          lockAttemptStep_next env cid mode wait_policy flags s t hs
        obtain ⟨c, x, m, hf, hc⟩ := hchain.lock_forward s.clock i s.tid a hi ha hres
        have htid : t.tid = c := (hfail c x m hf).1
        have hnext : chain[i + 1]? = some t.tid := by
          rcases hc with hc | hc
          · exact absurd (htid.trans hc) hne
          · rw [htid]
            exact hc
        have hlt2 : i + 1 < chain.length := (List.getElem?_eq_some.mp hnext).1
        exact ih t (i + 1) hnext (by omega) (by
          rw [htpc]
          simp only [lockMeasure]
          omega)
      | ret r t =>
        dsimp only
        obtain ⟨a, _, hr, hres, hhops, _⟩ :=
          lockAttemptStep_ret env cid mode wait_policy flags s t r hs
        refine ⟨_, rfl, by dsimp only; omega, ?_⟩
        intro r1 hr1
        simp only [Except.ok.injEq] at hr1
        subst hr1
        rcases hr with ⟨_, _, hd⟩ | ⟨hn, hd⟩
        · exact Or.inl hd
        · refine Or.inr (Or.inr ⟨by rw [hres, hd], ?_⟩)
          rw [hd]
          intro hu
          exact hn ⟨hu, hflag⟩
      | error e t =>
        dsimp only
        obtain ⟨hhops, _⟩ := lockAttemptStep_error env cid mode wait_policy flags s t e hs
        refine ⟨_, rfl, by dsimp only; omega, ?_⟩
        intro r1 hr1
        cases hr1
    | fetch_loop =>
      have hm1 : 2 * (chain.length - i) ≤ n + 1 := by
        simpa [lockMeasure, hpc] using hm
      have hstep : lockStep env cid mode wait_policy flags s
          = fetchStep env cid wait_policy s := by
        simp [lockStep, hpc]
      rw [hstep]
      cases hs : fetchStep env cid wait_policy s with
      | next t =>
        dsimp only
        rcases (fetchStep_next env cid wait_policy s t hs).2.2.2 with
          ⟨htpc, htid, hhops, _⟩ | ⟨_, _, _, _, hdr, dx1, dx2, hf, hv⟩ |
          ⟨htpc, hhops, hdr, hf, _, htid, hne, _⟩
        · exact ih t i (by rw [htid]; exact hi) (by omega) (by
            rw [htpc]
            simp only [lockMeasure]
            omega)
        · have := hchain.no_updater_in_progress s.clock i s.tid hdr dx1 dx2 hi hf
          rw [this] at hv
          cases hv
        · have hnext : chain[i + 1]? = some t.tid := by
            rcases hchain.fetch_forward s.clock i s.tid hdr hi hf with hc | hc
            · exact absurd hc hne
            · rw [htid]
              exact hc
          have hlt2 : i + 1 < chain.length := (List.getElem?_eq_some.mp hnext).1
          exact ih t (i + 1) hnext (by omega) (by
            rw [htpc, hpc]
            simp only [lockMeasure]
            omega)
      | ret r t =>
        dsimp only
        obtain ⟨hr, hhops, _⟩ := fetchStep_ret env cid wait_policy s t r hs
        refine ⟨_, rfl, by dsimp only; omega, ?_⟩
        intro r1 hr1
        simp only [Except.ok.injEq] at hr1
        subst hr1
        rcases hr with hd | hd | ⟨_, _, hdr, dx1, dx2, hf, hv⟩
        · exact Or.inl hd
        · exact Or.inr (Or.inl hd)
        · have := hchain.no_updater_in_progress s.clock i s.tid hdr dx1 dx2 hi hf
          rw [this] at hv
          cases hv
      | error e t =>
        dsimp only
        obtain ⟨hhops, _⟩ := fetchStep_error env cid wait_policy s t e hs
        refine ⟨_, rfl, by dsimp only; omega, ?_⟩
        intro r1 hr1
        cases hr1

theorem lockedRowEnv_chain (cid : CommandId) (mode : LockTupleMode)
    (wait_policy : LockWaitPolicy) (follow_updates : Bool) (chain : List ItemPointerData) :
    ChainOfUpdates lockedRowEnv cid mode wait_policy follow_updates chain := by
  refine ⟨?_, ?_, ?_⟩
  · intro clock i v a _ ha hres
    simp only [lockedRowEnv, Except.ok.injEq] at ha
    subst ha
    cases hres
  · intro clock i v hdr _ hf
    simp [lockedRowEnv] at hf
  · intro clock i v hdr dx1 dx2 _ hf
    simp [lockedRowEnv] at hf

theorem sampleLockEnv_chain (cid : CommandId) (mode : LockTupleMode)
    (wait_policy : LockWaitPolicy) (follow_updates : Bool) :
    ChainOfUpdates sampleLockEnv cid mode wait_policy follow_updates sampleChain := by
  refine ⟨?_, ?_, ?_⟩
  · intro clock i v a hv ha hres
    match i with
    | 0 =>
      simp only [sampleChain, List.getElem?_cons_zero, Option.some.injEq] at hv
      subst hv
      simp only [sampleLockEnv, if_true, Except.ok.injEq] at ha
      subst ha
      exact ⟨_, _, _, rfl, Or.inr rfl⟩
    | 1 =>
      simp only [sampleChain, List.getElem?_cons_succ, List.getElem?_cons_zero,
        Option.some.injEq] at hv
      subst hv
      simp [sampleLockEnv] at ha
      subst ha
      exact ⟨_, _, _, rfl, Or.inr rfl⟩
    | 2 =>
      simp only [sampleChain, List.getElem?_cons_succ, List.getElem?_cons_zero,
        Option.some.injEq] at hv
      subst hv
      simp [sampleLockEnv] at ha
      subst ha
      cases hres
    | k + 3 =>
      simp [sampleChain] at hv
  · intro clock i v hdr hv hf
    match i with
    | 0 =>
      simp only [sampleChain, List.getElem?_cons_zero, Option.some.injEq] at hv
      subst hv
      simp [sampleLockEnv] at hf
    | 1 =>
      simp only [sampleChain, List.getElem?_cons_succ, List.getElem?_cons_zero,
        Option.some.injEq] at hv
      subst hv
      simp [sampleLockEnv] at hf
      subst hf
      exact Or.inr rfl
    | 2 =>
      simp only [sampleChain, List.getElem?_cons_succ, List.getElem?_cons_zero,
        Option.some.injEq] at hv
      subst hv
      simp [sampleLockEnv] at hf
    | k + 3 =>
      simp [sampleChain] at hv
  · intro clock i v hdr dx1 dx2 _ hf
    simp only [sampleLockEnv] at hf
    split_ifs at hf
    simp only [HeapFetchResult.visible.injEq] at hf
    obtain ⟨_, _, h3⟩ := hf
    subst h3
    rfl

/-- C9 as stated fails: on a row with a single version (no update at all, so no
updater in progress) on which another transaction holds a row lock, the call
with the find-last-version flag and the skip policy follows no pointer and
returns `TM_WouldBlock`, the result of its lock attempt; for no step budget
does it return `TM_Ok`, `TM_Deleted` or `TM_SelfModified`. -/
theorem tuple_lock_chain_result_counterexample :
    ChainOfUpdates lockedRowEnv 1 LockTupleMode.LockTupleExclusive LockWaitPolicy.LockWaitSkip
      (TUPLE_LOCK_FLAG_FIND_LAST_VERSION &&& TUPLE_LOCK_FLAG_LOCK_UPDATE_IN_PROGRESS != 0)
      [⟨0, 1⟩] ∧
    (heapam_tuple_lock lockedRowEnv 1 ⟨0, 1⟩ ⟨0, 0⟩ 1 LockTupleMode.LockTupleExclusive
        LockWaitPolicy.LockWaitSkip TUPLE_LOCK_FLAG_FIND_LAST_VERSION sampleFailureData).map
      (fun o => (o.1, o.2.hops)) = some (Except.ok TM_Result.TM_WouldBlock, 0) ∧
    ¬ ∃ fuel o,
      heapam_tuple_lock lockedRowEnv fuel ⟨0, 1⟩ ⟨0, 0⟩ 1 LockTupleMode.LockTupleExclusive
        LockWaitPolicy.LockWaitSkip TUPLE_LOCK_FLAG_FIND_LAST_VERSION sampleFailureData
        = some o ∧
      (o.1 = Except.ok TM_Result.TM_Ok ∨ o.1 = Except.ok TM_Result.TM_Deleted ∨
        o.1 = Except.ok TM_Result.TM_SelfModified) := by
  refine ⟨lockedRowEnv_chain _ _ _ _ _, rfl, ?_⟩
  rintro ⟨fuel, o, h, hr⟩
  cases fuel with
  | zero =>
    simp [heapam_tuple_lock, lockRun] at h
  | succ n =>
    have e : heapam_tuple_lock lockedRowEnv (n + 1) ⟨0, 1⟩ ⟨0, 0⟩ 1
        LockTupleMode.LockTupleExclusive LockWaitPolicy.LockWaitSkip
        TUPLE_LOCK_FLAG_FIND_LAST_VERSION sampleFailureData
        = some (Except.ok TM_Result.TM_WouldBlock,
            { pc := LockPc.tuple_lock_retry, clock := 1, tid := ⟨0, 1⟩, t_self := ⟨0, 1⟩
              result := some TM_Result.TM_WouldBlock, priorXmax := InvalidTransactionId
              tmfd := { sampleFailureData with traversed := false }
              hops := 0, attempts := 1
              trace := [LockEvent.lockTuple ⟨0, 1⟩, LockEvent.storeTuple ⟨0, 1⟩] }) := rfl
    rw [e] at h
    simp only [Option.some.injEq] at h
    subst h
    rcases hr with hr | hr | hr <;> cases hr

/-- C9, amended: for a row whose forward version chain has `N + 1` versions
(`N` updates) none of whose updaters is still in progress, `heapam_tuple_lock`
called on the first version with the find-last-version flag ends within
`2 N + 1` passes, having followed at most `N` (so at most `N + 1`) forward
pointers; when it returns a result, the result is `TM_Deleted` or
`TM_SelfModified`, or it is the result of the last lock attempt, returned
unchanged and different from `TM_Updated`. -/
theorem tuple_lock_terminates_on_chain (env : LockEnv) (fuel : Nat) (tid : ItemPointerData)
    (tuple_t_self : ItemPointerData) (cid : CommandId) (mode : LockTupleMode)
    (wait_policy : LockWaitPolicy) (flags : Nat) (tmfd : TM_FailureData)
    (chain : List ItemPointerData) (N : Nat)
    (hflag : flags &&& TUPLE_LOCK_FLAG_FIND_LAST_VERSION ≠ 0)
    (hlen : chain.length = N + 1)
    (hstart : chain[0]? = some tid)
    (hchain : ChainOfUpdates env cid mode wait_policy
      (flags &&& TUPLE_LOCK_FLAG_LOCK_UPDATE_IN_PROGRESS != 0) chain)
    (hfuel : 2 * N + 1 ≤ fuel) :
    ∃ o, heapam_tuple_lock env fuel tid tuple_t_self cid mode wait_policy flags tmfd = some o ∧
      o.2.hops ≤ N ∧ o.2.hops ≤ N + 1 ∧
      ∀ r, o.1 = Except.ok r →
        r = TM_Result.TM_Deleted ∨ r = TM_Result.TM_SelfModified ∨
          (o.2.result = some r ∧ r ≠ TM_Result.TM_Updated) := by
  obtain ⟨o, h1, h2, h3⟩ := lockRun_terminates env cid mode wait_policy flags chain hflag hchain
    fuel (lockInit tid tuple_t_self tmfd) 0 hstart (Nat.le_refl 0) (by
      simp only [lockInit, lockMeasure]
      omega)
  exact ⟨o, h1, by omega, by omega, h3⟩

/-- Witness of C9 (amended): the sample row of three versions; the call follows
two forward pointers and returns `TM_Ok`. -/
theorem tuple_lock_terminates_on_chain_witness :
    ∃ o, heapam_tuple_lock sampleLockEnv 5 ⟨0, 1⟩ ⟨0, 0⟩ 1 LockTupleMode.LockTupleExclusive
        LockWaitPolicy.LockWaitBlock TUPLE_LOCK_FLAG_FIND_LAST_VERSION sampleFailureData
        = some o ∧
      o.2.hops ≤ 2 ∧ o.2.hops ≤ 2 + 1 ∧
      ∀ r, o.1 = Except.ok r →
        r = TM_Result.TM_Deleted ∨ r = TM_Result.TM_SelfModified ∨
          (o.2.result = some r ∧ r ≠ TM_Result.TM_Updated) :=
  tuple_lock_terminates_on_chain sampleLockEnv 5 ⟨0, 1⟩ ⟨0, 0⟩ 1
    LockTupleMode.LockTupleExclusive LockWaitPolicy.LockWaitBlock
    TUPLE_LOCK_FLAG_FIND_LAST_VERSION sampleFailureData sampleChain 2 (by decide) rfl rfl
    (sampleLockEnv_chain _ _ _ _) (by decide)

/-- Witness of C10: on the sample row the call with the flag set ends with
`TM_Ok` after two lock attempts, and with the flag clear it returns the
`TM_Updated` of its single lock attempt. -/
theorem tuple_lock_find_last_version_witness :
    (∀ o, heapam_tuple_lock sampleLockEnv 5 ⟨0, 1⟩ ⟨0, 0⟩ 1 LockTupleMode.LockTupleExclusive
        LockWaitPolicy.LockWaitBlock TUPLE_LOCK_FLAG_FIND_LAST_VERSION sampleFailureData
        = some o → o.1 ≠ Except.ok TM_Result.TM_Updated) ∧
    (heapam_tuple_lock sampleLockEnv 5 ⟨0, 1⟩ ⟨0, 0⟩ 1 LockTupleMode.LockTupleExclusive
        LockWaitPolicy.LockWaitBlock TUPLE_LOCK_FLAG_FIND_LAST_VERSION sampleFailureData).map
      (fun o => (o.1, o.2.hops, o.2.attempts, o.2.tmfd.traversed))
      = some (Except.ok TM_Result.TM_Ok, 2, 2, true) ∧
    ∃ t, heapam_tuple_lock sampleLockEnv (0 + 1) ⟨0, 1⟩ ⟨0, 0⟩ 1
        LockTupleMode.LockTupleExclusive LockWaitPolicy.LockWaitBlock 0 sampleFailureData
        = some (Except.ok TM_Result.TM_Updated, t) ∧
      t.attempts = 1 ∧ t.hops = 0 ∧ t.tmfd.traversed = false :=
  ⟨((tuple_lock_find_last_version sampleLockEnv 5 ⟨0, 1⟩ ⟨0, 0⟩ 1
      LockTupleMode.LockTupleExclusive LockWaitPolicy.LockWaitBlock
      TUPLE_LOCK_FLAG_FIND_LAST_VERSION sampleFailureData).1 (by decide)).1,
    rfl,
    (tuple_lock_find_last_version sampleLockEnv 0 ⟨0, 1⟩ ⟨0, 0⟩ 1
      LockTupleMode.LockTupleExclusive LockWaitPolicy.LockWaitBlock 0
      sampleFailureData).2 (by decide)⟩


theorem lockRun_of_ret (env : LockEnv) (cid : CommandId) (mode : LockTupleMode)
    (wait_policy : LockWaitPolicy) (flags fuel : Nat) (s t : LockState) (r : TM_Result)
    (h : lockStep env cid mode wait_policy flags s = LockStep.ret r t) :
    lockRun env cid mode wait_policy flags (fuel + 1) s = some (Except.ok r, t) := by
  simp [lockRun, h]

theorem lockRun_of_error (env : LockEnv) (cid : CommandId) (mode : LockTupleMode)
    (wait_policy : LockWaitPolicy) (flags fuel : Nat) (s t : LockState) (e : LockError)
    (h : lockStep env cid mode wait_policy flags s = LockStep.error e t) :
    lockRun env cid mode wait_policy flags (fuel + 1) s = some (Except.error e, t) := by
  simp [lockRun, h]

theorem lockRun_of_next (env : LockEnv) (cid : CommandId) (mode : LockTupleMode)
    (wait_policy : LockWaitPolicy) (flags fuel : Nat) (s t : LockState)
    (h : lockStep env cid mode wait_policy flags s = LockStep.next t) :
    lockRun env cid mode wait_policy flags (fuel + 1) s
      = lockRun env cid mode wait_policy flags fuel t := by
  simp [lockRun, h]

theorem lockStep_fetch (env : LockEnv) (cid : CommandId) (mode : LockTupleMode)
    (wait_policy : LockWaitPolicy) (flags : Nat) (s : LockState)
    (hpc : s.pc = LockPc.fetch_loop) :
    lockStep env cid mode wait_policy flags s = fetchStep env cid wait_policy s := by
  simp [lockStep, hpc]

theorem lockStep_retry (env : LockEnv) (cid : CommandId) (mode : LockTupleMode)
    (wait_policy : LockWaitPolicy) (flags : Nat) (s : LockState)
    (hpc : s.pc = LockPc.tuple_lock_retry) :
    lockStep env cid mode wait_policy flags s
      = lockAttemptStep env cid mode wait_policy flags s := by
  simp [lockStep, hpc]

/-- C12: with the find-last-version flag set, if the first lock attempt on `v0`
reports `TM_Updated` with forward pointer `v1 ≠ v0` (a real row identifier) and
updater `x`, the fetch of `v1` under the dirty snapshot finds a version created
by `x` with no in-progress creator or updater that was not created by the
locking transaction at or after the caller's command id, and the lock attempt
on `v1` reports `TM_Ok`, then the call returns `TM_Ok` with the row identifier
advanced to `v1`, the tuple stored in the slot being `v1`, and `traversed`
true, after one hop and two lock attempts. -/
theorem tuple_lock_follows_update_then_locks (env : LockEnv) (fuel : Nat)
    (v0 v1 tuple_t_self : ItemPointerData) (cid : CommandId) (mode : LockTupleMode)
    (wait_policy : LockWaitPolicy) (flags : Nat) (tmfd : TM_FailureData)
    (x : TransactionId) (m : CommandId) (hdr : TupleHeader) (dx1 dx2 : TransactionId)
    (f2 : Option (ItemPointerData × TransactionId × CommandId))
    (hflag : flags &&& TUPLE_LOCK_FLAG_FIND_LAST_VERSION ≠ 0)
    (h0 : env.heap_lock_tuple 0 v0 cid mode wait_policy
      (flags &&& TUPLE_LOCK_FLAG_LOCK_UPDATE_IN_PROGRESS != 0)
      = Except.ok { result := TM_Result.TM_Updated, failure := some (v1, x, m) })
    (hne : v1 ≠ v0)
    (hmoved : ItemPointerIndicatesMovedPartitions v1 = false)
    (h1 : env.heap_fetch 1 v1 = HeapFetchResult.visible hdr dx1 dx2)
    (hx : hdr.xmin = x)
    (hd1 : TransactionIdIsValid dx1 = false)
    (hd2 : TransactionIdIsValid dx2 = false)
    (hown : ¬(env.TransactionIdIsCurrentTransactionId x = true ∧ hdr.cmin ≥ cid))
    (h2 : env.heap_lock_tuple 2 v1 cid mode wait_policy
      (flags &&& TUPLE_LOCK_FLAG_LOCK_UPDATE_IN_PROGRESS != 0)
      = Except.ok { result := TM_Result.TM_Ok, failure := f2 }) :
    ∃ s, heapam_tuple_lock env (fuel + 3) v0 tuple_t_self cid mode wait_policy flags tmfd
        = some (Except.ok TM_Result.TM_Ok, s) ∧
      s.tid = v1 ∧ s.t_self = v1 ∧ s.tmfd.traversed = true ∧ s.hops = 1 ∧ s.attempts = 2 ∧
      s.trace.getLast? = some (LockEvent.storeTuple v1) := by
  have e1 : lockStep env cid mode wait_policy flags (lockInit v0 tuple_t_self tmfd) =
      LockStep.next
        { pc := LockPc.fetch_loop, clock := 1, tid := v1, t_self := v0
          result := some TM_Result.TM_Updated, priorXmax := x
          tmfd := { ctid := v1, xmax := x, cmax := m, traversed := true }
          hops := 1, attempts := 1
          trace := [LockEvent.lockTuple v0, LockEvent.follow v0 v1] } := by
    simp [lockStep, lockInit, lockAttemptStep, h0, hflag, hne]
  have e2 : lockStep env cid mode wait_policy flags
        { pc := LockPc.fetch_loop, clock := 1, tid := v1, t_self := v0
          result := some TM_Result.TM_Updated, priorXmax := x
          tmfd := { ctid := v1, xmax := x, cmax := m, traversed := true }
          hops := 1, attempts := 1
          trace := [LockEvent.lockTuple v0, LockEvent.follow v0 v1] } =
      LockStep.next
        { pc := LockPc.tuple_lock_retry, clock := 2, tid := v1, t_self := v1
          result := some TM_Result.TM_Updated, priorXmax := x
          tmfd := { ctid := v1, xmax := x, cmax := m, traversed := true }
          hops := 1, attempts := 1
          trace := [LockEvent.lockTuple v0, LockEvent.follow v0 v1, LockEvent.fetch v1 x] } := by
    have hown' : env.TransactionIdIsCurrentTransactionId x = true → hdr.cmin < cid := by
      intro hc
      by_contra hlt
      exact hown ⟨hc, not_lt.mp hlt⟩
    simp [lockStep, fetchStep, hmoved, h1, hx, hd1, hd2]
    exact hown'
  have e3 : ∃ sf, lockStep env cid mode wait_policy flags
        { pc := LockPc.tuple_lock_retry, clock := 2, tid := v1, t_self := v1
          result := some TM_Result.TM_Updated, priorXmax := x
          tmfd := { ctid := v1, xmax := x, cmax := m, traversed := true }
          hops := 1, attempts := 1
          trace := [LockEvent.lockTuple v0, LockEvent.follow v0 v1, LockEvent.fetch v1 x] } =
        LockStep.ret TM_Result.TM_Ok sf ∧
      sf.tid = v1 ∧ sf.t_self = v1 ∧ sf.tmfd.traversed = true ∧ sf.hops = 1 ∧
      sf.attempts = 2 ∧ sf.trace.getLast? = some (LockEvent.storeTuple v1) := by
    cases f2 with
    | none =>
      exact ⟨
        { pc := LockPc.tuple_lock_retry, clock := 3, tid := v1, t_self := v1
          result := some TM_Result.TM_Ok, priorXmax := x
          tmfd := { ctid := v1, xmax := x, cmax := m, traversed := true }
          hops := 1, attempts := 2
          trace := [LockEvent.lockTuple v0, LockEvent.follow v0 v1, LockEvent.fetch v1 x,
            LockEvent.lockTuple v1, LockEvent.storeTuple v1] },
        by simp [lockStep, lockAttemptStep, h2], rfl, rfl, rfl, rfl, rfl, by simp⟩
    | some p =>
      obtain ⟨c, y, k⟩ := p
      exact ⟨
        { pc := LockPc.tuple_lock_retry, clock := 3, tid := v1, t_self := v1
          result := some TM_Result.TM_Ok, priorXmax := x
          tmfd := { ctid := c, xmax := y, cmax := k, traversed := true }
          hops := 1, attempts := 2
          trace := [LockEvent.lockTuple v0, LockEvent.follow v0 v1, LockEvent.fetch v1 x,
            LockEvent.lockTuple v1, LockEvent.storeTuple v1] },
        by simp [lockStep, lockAttemptStep, h2], rfl, rfl, rfl, rfl, rfl, by simp⟩
  obtain ⟨sf, hsf, p1, p2, p3, p4, p5, p6⟩ := e3
  refine ⟨sf, ?_, p1, p2, p3, p4, p5, p6⟩
  unfold heapam_tuple_lock
  rw [lockRun_of_next _ _ _ _ _ _ _ _ e1, lockRun_of_next _ _ _ _ _ _ _ _ e2,
    lockRun_of_ret _ _ _ _ _ _ _ _ _ hsf]

/-- Witness of C12: two writers raced on version `(0, 1)`; the loser follows the
pointer to `(0, 2)` and locks it. -/
theorem tuple_lock_follows_update_then_locks_witness :
    ∃ s, heapam_tuple_lock
        (stubLockEnv { result := TM_Result.TM_Updated, failure := some (⟨0, 2⟩, 10, 0) }
          (HeapFetchResult.visible { xmin := 10, update_xid := 0, cmin := 0, t_ctid := ⟨0, 2⟩ }
            0 0) true false)
        (0 + 3) ⟨0, 1⟩ ⟨0, 0⟩ 1 LockTupleMode.LockTupleExclusive LockWaitPolicy.LockWaitBlock
        TUPLE_LOCK_FLAG_FIND_LAST_VERSION sampleFailureData
        = some (Except.ok TM_Result.TM_Ok, s) ∧
      s.tid = ⟨0, 2⟩ ∧ s.t_self = ⟨0, 2⟩ ∧ s.tmfd.traversed = true ∧ s.hops = 1 ∧
      s.attempts = 2 ∧ s.trace.getLast? = some (LockEvent.storeTuple ⟨0, 2⟩) :=
  tuple_lock_follows_update_then_locks
    (stubLockEnv { result := TM_Result.TM_Updated, failure := some (⟨0, 2⟩, 10, 0) }
      (HeapFetchResult.visible { xmin := 10, update_xid := 0, cmin := 0, t_ctid := ⟨0, 2⟩ }
        0 0) true false)
    0 ⟨0, 1⟩ ⟨0, 2⟩ ⟨0, 0⟩ 1 LockTupleMode.LockTupleExclusive LockWaitPolicy.LockWaitBlock
    TUPLE_LOCK_FLAG_FIND_LAST_VERSION sampleFailureData 10 0
    { xmin := 10, update_xid := 0, cmin := 0, t_ctid := ⟨0, 2⟩ } 0 0 none
    (by decide) rfl (by decide) (by decide) rfl rfl rfl rfl (by decide) rfl

theorem lockRun_after_passes (env : LockEnv) (cid : CommandId) (mode : LockTupleMode)
    (wait_policy : LockWaitPolicy) (flags : Nat) :
    ∀ (k fuel : Nat) (s0 s : LockState),
      lockPasses env cid mode wait_policy flags k s0 = some s →
      lockRun env cid mode wait_policy flags (k + fuel) s0
        = lockRun env cid mode wait_policy flags fuel s := by
  intro k
  induction k with
  | zero =>
    intro fuel s0 s h
    simp only [lockPasses, Option.some.injEq] at h
    subst h
    rw [Nat.zero_add]
  | succ k ih =>
    intro fuel s0 s h
    rw [lockPasses] at h
    cases hs : lockStep env cid mode wait_policy flags s0 with
    | next s1 =>
      rw [hs] at h
      dsimp only at h
      have hk : k + 1 + fuel = (k + fuel) + 1 := by omega
      rw [hk, lockRun_of_next _ _ _ _ _ _ _ _ hs]
      exact ih fuel s1 s h
    | ret r s1 =>
      rw [hs] at h
      cases h
    | error e s1 =>
      rw [hs] at h
      cases h

theorem lockPasses_snoc (env : LockEnv) (cid : CommandId) (mode : LockTupleMode)
    (wait_policy : LockWaitPolicy) (flags : Nat) :
    ∀ (k : Nat) (s0 s u : LockState),
      lockPasses env cid mode wait_policy flags k s0 = some s →
      lockStep env cid mode wait_policy flags s = LockStep.next u →
      lockPasses env cid mode wait_policy flags (k + 1) s0 = some u := by
  intro k
  induction k with
  | zero =>
    intro s0 s u h hu
    simp only [lockPasses, Option.some.injEq] at h
    subst h
    simp [lockPasses, hu]
  | succ k ih =>
    intro s0 s u h hu
    rw [lockPasses] at h
    cases hs : lockStep env cid mode wait_policy flags s0 with
    | next s1 =>
      rw [hs] at h
      dsimp only at h
      rw [lockPasses, hs]
      exact ih s1 s u h hu
    | ret r s1 =>
      rw [hs] at h
      cases h
    | error e s1 =>
      rw [hs] at h
      cases h

theorem lockPasses_last (env : LockEnv) (cid : CommandId) (mode : LockTupleMode)
    (wait_policy : LockWaitPolicy) (flags : Nat) :
    ∀ (k : Nat) (s0 s u : LockState),
      lockPasses env cid mode wait_policy flags k s0 = some s →
      lockPasses env cid mode wait_policy flags (k + 1) s0 = some u →
      lockStep env cid mode wait_policy flags s = LockStep.next u := by
  intro k
  induction k with
  | zero =>
    intro s0 s u h hu
    simp only [lockPasses, Option.some.injEq] at h
    subst h
    rw [lockPasses] at hu
    cases hs : lockStep env cid mode wait_policy flags s0 with
    | next s1 =>
      rw [hs] at hu
      simp only [lockPasses, Option.some.injEq] at hu
      rw [hu]
    | ret r s1 =>
      rw [hs] at hu
      cases hu
    | error e s1 =>
      rw [hs] at hu
      cases hu
  | succ k ih =>
    intro s0 s u h hu
    rw [lockPasses] at h hu
    cases hs : lockStep env cid mode wait_policy flags s0 with
    | next s1 =>
      rw [hs] at h hu
      dsimp only at h hu
      exact ih s1 s u h hu
    | ret r s1 =>
      rw [hs] at h
      cases h
    | error e s1 =>
      rw [hs] at h
      cases h

/-- C13: in a call of `heapam_tuple_lock` that, `k` passes after its entry,
stands inside the forward traversal on a version it then fetches, if the
fetched version has no in-progress updater (and the dirty snapshot leaves its
own `xmin` unset, as it does for every version created by the transaction that
runs the fetch), its creator id equals the previous version's updater id, that
id is the locking transaction, and its creation command id is at least the
caller's command id, then the call returns `TM_SelfModified` on that pass,
without another lock attempt or hop, with `xmax` of the failure data set to
that creator id and `cmax` to the creation command id. -/
theorem tuple_lock_self_modified (env : LockEnv) (fuel k : Nat)
    (tid tuple_t_self : ItemPointerData) (cid : CommandId) (mode : LockTupleMode)
    (wait_policy : LockWaitPolicy) (flags : Nat) (tmfd : TM_FailureData) (s : LockState)
    (hdr : TupleHeader) (dx1 dx2 : TransactionId)
    (hreach : lockPasses env cid mode wait_policy flags k (lockInit tid tuple_t_self tmfd)
      = some s)
    (hpc : s.pc = LockPc.fetch_loop)
    (hmoved : ItemPointerIndicatesMovedPartitions s.tid = false)
    (hf : env.heap_fetch s.clock s.tid = HeapFetchResult.visible hdr dx1 dx2)
    (hx : hdr.xmin = s.priorXmax)
    (hd1 : TransactionIdIsValid dx1 = false)
    (hd2 : TransactionIdIsValid dx2 = false)
    (hown : env.TransactionIdIsCurrentTransactionId s.priorXmax = true)
    (hc : hdr.cmin ≥ cid) :
    ∃ t, heapam_tuple_lock env (k + (fuel + 1)) tid tuple_t_self cid mode wait_policy flags tmfd
        = some (Except.ok TM_Result.TM_SelfModified, t) ∧
      t.tmfd.xmax = hdr.xmin ∧ t.tmfd.cmax = hdr.cmin ∧
      t.hops = s.hops ∧ t.attempts = s.attempts ∧ t.tid = s.tid ∧
      t.trace = s.trace ++ [LockEvent.fetch s.tid s.priorXmax] := by
  have hstep : lockStep env cid mode wait_policy flags s =
      LockStep.ret TM_Result.TM_SelfModified
        { s with
          t_self := s.tid
          clock := s.clock + 1
          trace := s.trace ++ [LockEvent.fetch s.tid s.priorXmax]
          tmfd := { s.tmfd with xmax := s.priorXmax, cmax := hdr.cmin } } := by
    rw [lockStep_fetch env cid mode wait_policy flags s hpc]
    simp [fetchStep, hmoved, hf, hx, hd1, hd2, hown, hc]
  have hcall := (lockRun_after_passes env cid mode wait_policy flags k (fuel + 1) _ s
    hreach).trans (lockRun_of_ret _ _ _ _ _ fuel _ _ _ hstep)
  exact ⟨_, hcall, hx.symm, rfl, rfl, rfl, rfl, rfl⟩

/-- Witness of C13: a call on version `(0, 1)`, which the locking transaction 10
itself updated at command 5; the first lock attempt reports the update, the
call follows the pointer to `(0, 2)` and, the caller's command id being 3,
returns `TM_SelfModified`. -/
theorem tuple_lock_self_modified_witness :
    ∃ t, heapam_tuple_lock
        (stubLockEnv { result := TM_Result.TM_Updated, failure := some (⟨0, 2⟩, 10, 0) }
          (HeapFetchResult.visible { xmin := 10, update_xid := 0, cmin := 5, t_ctid := ⟨0, 2⟩ }
            0 0) true true)
        (1 + (0 + 1)) ⟨0, 1⟩ ⟨0, 0⟩ 3 LockTupleMode.LockTupleExclusive
        LockWaitPolicy.LockWaitBlock TUPLE_LOCK_FLAG_FIND_LAST_VERSION sampleFailureData
        = some (Except.ok TM_Result.TM_SelfModified, t) ∧
      t.tmfd.xmax = 10 ∧ t.tmfd.cmax = 5 ∧ t.hops = 1 ∧ t.attempts = 1 ∧ t.tid = ⟨0, 2⟩ ∧
      t.trace = [LockEvent.lockTuple ⟨0, 1⟩, LockEvent.follow ⟨0, 1⟩ ⟨0, 2⟩] ++
        [LockEvent.fetch ⟨0, 2⟩ 10] :=
  tuple_lock_self_modified
    (stubLockEnv { result := TM_Result.TM_Updated, failure := some (⟨0, 2⟩, 10, 0) }
      (HeapFetchResult.visible { xmin := 10, update_xid := 0, cmin := 5, t_ctid := ⟨0, 2⟩ }
        0 0) true true)
    0 1 ⟨0, 1⟩ ⟨0, 0⟩ 3 LockTupleMode.LockTupleExclusive LockWaitPolicy.LockWaitBlock
    TUPLE_LOCK_FLAG_FIND_LAST_VERSION sampleFailureData
    { pc := LockPc.fetch_loop, clock := 1, tid := ⟨0, 2⟩, t_self := ⟨0, 1⟩
      result := some TM_Result.TM_Updated, priorXmax := 10
      tmfd := { ctid := ⟨0, 2⟩, xmax := 10, cmax := 0, traversed := true }
      hops := 1, attempts := 1
      trace := [LockEvent.lockTuple ⟨0, 1⟩, LockEvent.follow ⟨0, 1⟩ ⟨0, 2⟩] }
    { xmin := 10, update_xid := 0, cmin := 5, t_ctid := ⟨0, 2⟩ } 0 0
    rfl rfl (by decide) rfl rfl rfl rfl rfl (by decide)

theorem fetchStep_trace (env : LockEnv) (cid : CommandId) (wait_policy : LockWaitPolicy)
    (s : LockState) (hmoved : ItemPointerIndicatesMovedPartitions s.tid = false) :
    ∃ rest, (fetchStep env cid wait_policy s).state.trace
      = s.trace ++ LockEvent.fetch s.tid s.priorXmax :: rest := by
  unfold fetchStep
  simp only [hmoved, Bool.false_eq_true, if_false]
  cases hf : env.heap_fetch s.clock s.tid <;> cases wait_policy <;> dsimp only <;>
    first
    | (split_ifs <;> simp [LockStep.state])
    | simp [LockStep.state]

theorem lockStep_trace_ext (env : LockEnv) (cid : CommandId) (mode : LockTupleMode)
    (wait_policy : LockWaitPolicy) (flags : Nat) (s : LockState) :
    ∃ rest, (lockStep env cid mode wait_policy flags s).state.trace = s.trace ++ rest := by
  cases hpc : s.pc with
  | tuple_lock_retry =>
    rw [lockStep_retry env cid mode wait_policy flags s hpc]
    unfold lockAttemptStep
    dsimp only
    cases ha : env.heap_lock_tuple s.clock s.tid cid mode wait_policy
        (flags &&& TUPLE_LOCK_FLAG_LOCK_UPDATE_IN_PROGRESS != 0) with
    | error e => exact ⟨_, rfl⟩
    | ok a =>
      dsimp only
      split_ifs
      · exact ⟨_, List.append_assoc _ _ _⟩
      · exact ⟨_, rfl⟩
      · exact ⟨_, List.append_assoc _ _ _⟩
  | fetch_loop =>
    rw [lockStep_fetch env cid mode wait_policy flags s hpc]
    cases hm : ItemPointerIndicatesMovedPartitions s.tid with
    | true => exact ⟨[], by simp [fetchStep, hm, LockStep.state]⟩
    | false =>
      obtain ⟨rest, h⟩ := fetchStep_trace env cid wait_policy s hm
      exact ⟨_, h⟩

theorem lockRun_trace_ext (env : LockEnv) (cid : CommandId) (mode : LockTupleMode)
    (wait_policy : LockWaitPolicy) (flags : Nat) :
    ∀ (fuel : Nat) (s : LockState) (r : Except LockError TM_Result) (t : LockState),
      lockRun env cid mode wait_policy flags fuel s = some (r, t) →
      ∃ rest, t.trace = (lockStep env cid mode wait_policy flags s).state.trace ++ rest := by
  intro fuel
  induction fuel with
  | zero =>
    intro s r t h
    simp [lockRun] at h
  | succ fuel ih =>
    intro s r t h
    rw [lockRun] at h
    cases hs : lockStep env cid mode wait_policy flags s with
    | next s1 =>
      rw [hs] at h
      dsimp only at h
      obtain ⟨rest, h1⟩ := ih s1 r t h
      obtain ⟨rest0, h0⟩ := lockStep_trace_ext env cid mode wait_policy flags s1
      refine ⟨rest0 ++ rest, ?_⟩
      rw [h1, h0, List.append_assoc]
      rfl
    | ret r1 s1 =>
      rw [hs] at h
      simp only [Option.some.injEq, Prod.mk.injEq] at h
      exact ⟨[], by rw [← h.2]; simp [LockStep.state]⟩
    | error e s1 =>
      rw [hs] at h
      simp only [Option.some.injEq, Prod.mk.injEq] at h
      exact ⟨[], by rw [← h.2]; simp [LockStep.state]⟩

/-- C14 as stated fails.  A call on version `(0, 1)`, updated by transaction 10,
follows the pointer to `(0, 2)` and fetches there a version whose updater 12 is
still in progress while the conditional wait would fail.  When the slot has
been reused, so that the creator 11 of the version is not the expected 10, the
call returns `TM_Deleted` under each of the three wait policies, having
neither waited nor asked for the conditional wait (lines 1122-1127).  When the
creator is the expected one but the dirty snapshot reports it in progress too,
the call raises the data-corruption error under each policy (lines 1130-1134). -/
theorem tuple_lock_wait_policy_counterexample :
    TransactionIdIsValid 12 = true ∧
    (∀ wait_policy : LockWaitPolicy,
      heapam_tuple_lock
        (stubLockEnv { result := TM_Result.TM_Updated, failure := some (⟨0, 2⟩, 10, 0) }
          (HeapFetchResult.visible { xmin := 11, update_xid := 12, cmin := 0, t_ctid := ⟨0, 3⟩ }
            0 12) false false)
        2 ⟨0, 1⟩ ⟨0, 0⟩ 1 LockTupleMode.LockTupleExclusive wait_policy
        TUPLE_LOCK_FLAG_FIND_LAST_VERSION sampleFailureData
      = some (Except.ok TM_Result.TM_Deleted,
          { pc := LockPc.fetch_loop, clock := 2, tid := ⟨0, 2⟩, t_self := ⟨0, 2⟩
            result := some TM_Result.TM_Updated, priorXmax := 10
            tmfd := { ctid := ⟨0, 2⟩, xmax := 10, cmax := 0, traversed := true }
            hops := 1, attempts := 1
            trace := [LockEvent.lockTuple ⟨0, 1⟩, LockEvent.follow ⟨0, 1⟩ ⟨0, 2⟩,
              LockEvent.fetch ⟨0, 2⟩ 10] })) ∧
    (∀ wait_policy : LockWaitPolicy,
      heapam_tuple_lock
        (stubLockEnv { result := TM_Result.TM_Updated, failure := some (⟨0, 2⟩, 10, 0) }
          (HeapFetchResult.visible { xmin := 10, update_xid := 12, cmin := 0, t_ctid := ⟨0, 3⟩ }
            10 12) false false)
        2 ⟨0, 1⟩ ⟨0, 0⟩ 1 LockTupleMode.LockTupleExclusive wait_policy
        TUPLE_LOCK_FLAG_FIND_LAST_VERSION sampleFailureData
      = some (Except.error LockError.ERRCODE_DATA_CORRUPTED,
          { pc := LockPc.fetch_loop, clock := 2, tid := ⟨0, 2⟩, t_self := ⟨0, 2⟩
            result := some TM_Result.TM_Updated, priorXmax := 10
            tmfd := { ctid := ⟨0, 2⟩, xmax := 10, cmax := 0, traversed := true }
            hops := 1, attempts := 1
            trace := [LockEvent.lockTuple ⟨0, 1⟩, LockEvent.follow ⟨0, 1⟩ ⟨0, 2⟩,
              LockEvent.fetch ⟨0, 2⟩ 10] })) := by
  refine ⟨rfl, ?_, ?_⟩ <;> intro wait_policy <;> cases wait_policy <;> rfl

/-- C14, amended: in a call of `heapam_tuple_lock` that, `k` passes after its
entry, stands inside the forward traversal on a version it then fetches, if the
fetched version has the creator id expected from the previous version, the
dirty snapshot does not report that creator in progress, and it reports an
updater still in progress, the wait policy decides.  Under skip, a failed
conditional wait makes the call return `TM_WouldBlock`; under error it makes
the call raise lock-not-available; under block the call waits unconditionally.
Whenever the wait completes, the call goes on with a pass that fetches the same
version again: the row identifier, the expected creator id and the counts of
hops and lock attempts are unchanged, and the fetch of that version is the next
event of the call, however it ends. -/
theorem tuple_lock_wait_policy (env : LockEnv) (fuel k : Nat)
    (tid tuple_t_self : ItemPointerData) (cid : CommandId) (mode : LockTupleMode)
    (wait_policy : LockWaitPolicy) (flags : Nat) (tmfd : TM_FailureData) (s : LockState)
    (hdr : TupleHeader) (dx1 dx2 : TransactionId)
    (hreach : lockPasses env cid mode wait_policy flags k (lockInit tid tuple_t_self tmfd)
      = some s)
    (hpc : s.pc = LockPc.fetch_loop)
    (hmoved : ItemPointerIndicatesMovedPartitions s.tid = false)
    (hf : env.heap_fetch s.clock s.tid = HeapFetchResult.visible hdr dx1 dx2)
    (hx : hdr.xmin = s.priorXmax)
    (hd1 : TransactionIdIsValid dx1 = false)
    (hd2 : TransactionIdIsValid dx2 = true) :
    (wait_policy = LockWaitPolicy.LockWaitSkip →
      env.ConditionalXactLockTableWait (s.clock + 1) dx2 = false →
      ∃ t, heapam_tuple_lock env (k + (fuel + 1)) tid tuple_t_self cid mode wait_policy flags
          tmfd = some (Except.ok TM_Result.TM_WouldBlock, t) ∧
        t.tid = s.tid ∧ t.hops = s.hops ∧ t.attempts = s.attempts ∧
        t.trace = s.trace ++ [LockEvent.fetch s.tid s.priorXmax,
          LockEvent.conditionalXactLockTableWait dx2]) ∧
    (wait_policy = LockWaitPolicy.LockWaitError →
      env.ConditionalXactLockTableWait (s.clock + 1) dx2 = false →
      ∃ t, heapam_tuple_lock env (k + (fuel + 1)) tid tuple_t_self cid mode wait_policy flags
          tmfd = some (Except.error LockError.ERRCODE_LOCK_NOT_AVAILABLE, t) ∧
        t.tid = s.tid ∧ t.hops = s.hops ∧ t.attempts = s.attempts ∧
        t.trace = s.trace ++ [LockEvent.fetch s.tid s.priorXmax,
          LockEvent.conditionalXactLockTableWait dx2]) ∧
    (wait_policy = LockWaitPolicy.LockWaitBlock ∨
        env.ConditionalXactLockTableWait (s.clock + 1) dx2 = true →
      ∃ u, lockPasses env cid mode wait_policy flags (k + 1) (lockInit tid tuple_t_self tmfd)
          = some u ∧
        u.pc = LockPc.fetch_loop ∧ u.tid = s.tid ∧ u.priorXmax = s.priorXmax ∧
        u.hops = s.hops ∧ u.attempts = s.attempts ∧
        u.trace = s.trace ++ [LockEvent.fetch s.tid s.priorXmax,
          if wait_policy = LockWaitPolicy.LockWaitBlock then LockEvent.xactLockTableWait dx2
          else LockEvent.conditionalXactLockTableWait dx2] ∧
        heapam_tuple_lock env (k + 1 + fuel) tid tuple_t_self cid mode wait_policy flags tmfd
          = lockRun env cid mode wait_policy flags fuel u ∧
        (∃ rest, (lockStep env cid mode wait_policy flags u).state.trace
          = u.trace ++ LockEvent.fetch s.tid s.priorXmax :: rest) ∧
        ∀ r t, heapam_tuple_lock env (k + 1 + (fuel + 1)) tid tuple_t_self cid mode
            wait_policy flags tmfd = some (r, t) →
          ∃ rest, t.trace = u.trace ++ LockEvent.fetch s.tid s.priorXmax :: rest) := by
  have hrun : ∀ n, heapam_tuple_lock env (k + n) tid tuple_t_self cid mode wait_policy flags
      tmfd = lockRun env cid mode wait_policy flags n s := by
    intro n
    unfold heapam_tuple_lock
    exact lockRun_after_passes env cid mode wait_policy flags k n _ s hreach
  have hls := lockStep_fetch env cid mode wait_policy flags s hpc
  refine ⟨?_, ?_, ?_⟩
  · intro hp hw
    subst hp
    have hstep : lockStep env cid mode LockWaitPolicy.LockWaitSkip flags s =
        LockStep.ret TM_Result.TM_WouldBlock
          { s with
            t_self := s.tid
            clock := s.clock + 1 + 1
            trace := s.trace ++ [LockEvent.fetch s.tid s.priorXmax] ++
              [LockEvent.conditionalXactLockTableWait dx2] } := by
      rw [hls]
      simp [fetchStep, hmoved, hf, hx, hd1, hd2, hw]
    have hcall := (hrun (fuel + 1)).trans (lockRun_of_ret _ _ _ _ _ fuel _ _ _ hstep)
    exact ⟨_, hcall, rfl, rfl, rfl, List.append_assoc _ _ _⟩
  · intro hp hw
    subst hp
    have hstep : lockStep env cid mode LockWaitPolicy.LockWaitError flags s =
        LockStep.error LockError.ERRCODE_LOCK_NOT_AVAILABLE
          { s with
            t_self := s.tid
            clock := s.clock + 1 + 1
            trace := s.trace ++ [LockEvent.fetch s.tid s.priorXmax] ++
              [LockEvent.conditionalXactLockTableWait dx2] } := by
      rw [hls]
      simp [fetchStep, hmoved, hf, hx, hd1, hd2, hw]
    have hcall := (hrun (fuel + 1)).trans (lockRun_of_error _ _ _ _ _ fuel _ _ _ hstep)
    exact ⟨_, hcall, rfl, rfl, rfl, List.append_assoc _ _ _⟩
  · intro hw
    have key : ∀ u : LockState,
        lockStep env cid mode wait_policy flags s = LockStep.next u →
        u.pc = LockPc.fetch_loop → u.tid = s.tid → u.priorXmax = s.priorXmax →
        lockPasses env cid mode wait_policy flags (k + 1) (lockInit tid tuple_t_self tmfd)
          = some u ∧
        heapam_tuple_lock env (k + 1 + fuel) tid tuple_t_self cid mode wait_policy flags tmfd
          = lockRun env cid mode wait_policy flags fuel u ∧
        (∃ rest, (lockStep env cid mode wait_policy flags u).state.trace
          = u.trace ++ LockEvent.fetch s.tid s.priorXmax :: rest) ∧
        ∀ r t, heapam_tuple_lock env (k + 1 + (fuel + 1)) tid tuple_t_self cid mode
            wait_policy flags tmfd = some (r, t) →
          ∃ rest, t.trace = u.trace ++ LockEvent.fetch s.tid s.priorXmax :: rest := by
      intro u hu hupc hutid huprior
      have hreach1 := lockPasses_snoc env cid mode wait_policy flags k _ s u hreach hu
      have hnext : ∃ rest, (lockStep env cid mode wait_policy flags u).state.trace
          = u.trace ++ LockEvent.fetch s.tid s.priorXmax :: rest := by
        rw [lockStep_fetch env cid mode wait_policy flags u hupc]
        have := fetchStep_trace env cid wait_policy u (by rw [hutid]; exact hmoved)
        rw [hutid, huprior] at this
        exact this
      refine ⟨hreach1, ?_, hnext, ?_⟩
      · unfold heapam_tuple_lock
        exact lockRun_after_passes env cid mode wait_policy flags (k + 1) fuel _ u hreach1
      · intro r t hrt
        unfold heapam_tuple_lock at hrt
        rw [lockRun_after_passes env cid mode wait_policy flags (k + 1) (fuel + 1) _ u
          hreach1] at hrt
        obtain ⟨rest1, h1⟩ := lockRun_trace_ext env cid mode wait_policy flags (fuel + 1) u r t hrt
        obtain ⟨rest0, h0⟩ := hnext
        refine ⟨rest0 ++ rest1, ?_⟩
        rw [h1, h0]
        simp
    cases wait_policy with
    | LockWaitBlock =>
      have hstep : lockStep env cid mode LockWaitPolicy.LockWaitBlock flags s =
          LockStep.next
            { s with
              t_self := s.tid
              clock := s.clock + 1 + 1
              trace := s.trace ++ [LockEvent.fetch s.tid s.priorXmax] ++
                [LockEvent.xactLockTableWait dx2] } := by
        rw [hls]
        simp [fetchStep, hmoved, hf, hx, hd1, hd2]
      obtain ⟨k1, k2, k3, k4⟩ := key _ hstep hpc rfl rfl
      exact ⟨_, k1, hpc, rfl, rfl, rfl, rfl, List.append_assoc _ _ _, k2, k3, k4⟩
    | LockWaitSkip =>
      have hw' : env.ConditionalXactLockTableWait (s.clock + 1) dx2 = true := by
        rcases hw with h | h
        · cases h
        · exact h
      have hstep : lockStep env cid mode LockWaitPolicy.LockWaitSkip flags s =
          LockStep.next
            { s with
              t_self := s.tid
              clock := s.clock + 1 + 1
              trace := s.trace ++ [LockEvent.fetch s.tid s.priorXmax] ++
                [LockEvent.conditionalXactLockTableWait dx2] } := by
        rw [hls]
        simp [fetchStep, hmoved, hf, hx, hd1, hd2, hw']
      obtain ⟨k1, k2, k3, k4⟩ := key _ hstep hpc rfl rfl
      exact ⟨_, k1, hpc, rfl, rfl, rfl, rfl, List.append_assoc _ _ _, k2, k3, k4⟩
    | LockWaitError =>
      have hw' : env.ConditionalXactLockTableWait (s.clock + 1) dx2 = true := by
        rcases hw with h | h
        · cases h
        · exact h
      have hstep : lockStep env cid mode LockWaitPolicy.LockWaitError flags s =
          LockStep.next
            { s with
              t_self := s.tid
              clock := s.clock + 1 + 1
              trace := s.trace ++ [LockEvent.fetch s.tid s.priorXmax] ++
                [LockEvent.conditionalXactLockTableWait dx2] } := by
        rw [hls]
        simp [fetchStep, hmoved, hf, hx, hd1, hd2, hw']
      obtain ⟨k1, k2, k3, k4⟩ := key _ hstep hpc rfl rfl
      exact ⟨_, k1, hpc, rfl, rfl, rfl, rfl, List.append_assoc _ _ _, k2, k3, k4⟩

/-- Witness of C14 (amended): a call on version `(0, 1)`, updated by
transaction 10, under the skip policy; the version at `(0, 2)` it is led to is
being updated by transaction 12 and the conditional wait fails, so the call
returns `TM_WouldBlock`. -/
theorem tuple_lock_wait_policy_witness :
    ∃ t, heapam_tuple_lock
        (stubLockEnv { result := TM_Result.TM_Updated, failure := some (⟨0, 2⟩, 10, 0) }
          (HeapFetchResult.visible { xmin := 10, update_xid := 12, cmin := 0, t_ctid := ⟨0, 3⟩ }
            0 12) false false)
        (1 + (0 + 1)) ⟨0, 1⟩ ⟨0, 0⟩ 3 LockTupleMode.LockTupleExclusive
        LockWaitPolicy.LockWaitSkip TUPLE_LOCK_FLAG_FIND_LAST_VERSION sampleFailureData
        = some (Except.ok TM_Result.TM_WouldBlock, t) ∧
      t.tid = ⟨0, 2⟩ ∧ t.hops = 1 ∧ t.attempts = 1 ∧
      t.trace = [LockEvent.lockTuple ⟨0, 1⟩, LockEvent.follow ⟨0, 1⟩ ⟨0, 2⟩] ++
        [LockEvent.fetch ⟨0, 2⟩ 10, LockEvent.conditionalXactLockTableWait 12] :=
  (tuple_lock_wait_policy
    (stubLockEnv { result := TM_Result.TM_Updated, failure := some (⟨0, 2⟩, 10, 0) }
      (HeapFetchResult.visible { xmin := 10, update_xid := 12, cmin := 0, t_ctid := ⟨0, 3⟩ }
        0 12) false false)
    0 1 ⟨0, 1⟩ ⟨0, 0⟩ 3 LockTupleMode.LockTupleExclusive LockWaitPolicy.LockWaitSkip
    TUPLE_LOCK_FLAG_FIND_LAST_VERSION sampleFailureData
    { pc := LockPc.fetch_loop, clock := 1, tid := ⟨0, 2⟩, t_self := ⟨0, 1⟩
      result := some TM_Result.TM_Updated, priorXmax := 10
      tmfd := { ctid := ⟨0, 2⟩, xmax := 10, cmax := 0, traversed := true }
      hops := 1, attempts := 1
      trace := [LockEvent.lockTuple ⟨0, 1⟩, LockEvent.follow ⟨0, 1⟩ ⟨0, 2⟩] }
    { xmin := 10, update_xid := 12, cmin := 0, t_ctid := ⟨0, 3⟩ } 0 12
    rfl rfl (by decide) rfl rfl rfl rfl).1 rfl rfl

/-- C15: whenever a hop of the forward traversal lands on a forward pointer that
indicates a move to another partition, the next pass raises a
serialization-failure error: the call ends with that error and returns no
result, whatever the step budget; more generally every pass of the traversal
that stands on such a pointer raises the error. -/
theorem tuple_lock_moved_partition (env : LockEnv) (fuel : Nat) (cid : CommandId)
    (mode : LockTupleMode) (wait_policy : LockWaitPolicy) (flags : Nat) (s t : LockState)
    (hstep : lockStep env cid mode wait_policy flags s = LockStep.next t)
    (hhop : t.hops = s.hops + 1)
    (hmoved : ItemPointerIndicatesMovedPartitions t.tid = true) :
    t.pc = LockPc.fetch_loop ∧
    lockStep env cid mode wait_policy flags t
      = LockStep.error LockError.ERRCODE_T_R_SERIALIZATION_FAILURE t ∧
    lockRun env cid mode wait_policy flags (fuel + 1) t
      = some (Except.error LockError.ERRCODE_T_R_SERIALIZATION_FAILURE, t) ∧
    lockRun env cid mode wait_policy flags (fuel + 2) s
      = some (Except.error LockError.ERRCODE_T_R_SERIALIZATION_FAILURE, t) ∧
    (∀ u : LockState, u.pc = LockPc.fetch_loop →
      ItemPointerIndicatesMovedPartitions u.tid = true →
      lockStep env cid mode wait_policy flags u
        = LockStep.error LockError.ERRCODE_T_R_SERIALIZATION_FAILURE u) := by
  have hgen : ∀ u : LockState, u.pc = LockPc.fetch_loop →
      ItemPointerIndicatesMovedPartitions u.tid = true →
      lockStep env cid mode wait_policy flags u
        = LockStep.error LockError.ERRCODE_T_R_SERIALIZATION_FAILURE u := by
    intro u hu hm
    rw [lockStep_fetch env cid mode wait_policy flags u hu]
    simp [fetchStep, hm]
  have hpc : t.pc = LockPc.fetch_loop := by
    cases hs : s.pc with
    | tuple_lock_retry =>
      rw [lockStep_retry env cid mode wait_policy flags s hs] at hstep
      obtain ⟨_, _, _, _, h, _⟩ := lockAttemptStep_next env cid mode wait_policy flags s t hstep
      exact h
    | fetch_loop =>
      rw [lockStep_fetch env cid mode wait_policy flags s hs] at hstep
      rcases (fetchStep_next env cid wait_policy s t hstep).2.2.2 with
        ⟨_, _, h, _⟩ | ⟨_, _, h, _⟩ | ⟨h, _⟩
      · omega
      · omega
      · rw [h, hs]
  have ht := hgen t hpc hmoved
  refine ⟨hpc, ht, lockRun_of_error _ _ _ _ _ _ _ _ _ ht, ?_, hgen⟩
  rw [lockRun_of_next _ _ _ _ _ (fuel + 1) _ _ hstep]
  exact lockRun_of_error _ _ _ _ _ _ _ _ _ ht

/-- Witness of C15: the lock attempt on `(0, 1)` reports an update whose forward
pointer is the moved-partitions marker. -/
theorem tuple_lock_moved_partition_witness :
    lockRun
        (stubLockEnv
          { result := TM_Result.TM_Updated, failure := some (⟨InvalidBlockNumber, 0xfffd⟩, 10, 0) }
          HeapFetchResult.missing true false)
        1 LockTupleMode.LockTupleExclusive LockWaitPolicy.LockWaitBlock
        TUPLE_LOCK_FLAG_FIND_LAST_VERSION (0 + 2) (lockInit ⟨0, 1⟩ ⟨0, 0⟩ sampleFailureData)
      = some (Except.error LockError.ERRCODE_T_R_SERIALIZATION_FAILURE,
          { pc := LockPc.fetch_loop, clock := 1, tid := ⟨InvalidBlockNumber, 0xfffd⟩
            t_self := ⟨0, 1⟩, result := some TM_Result.TM_Updated, priorXmax := 10
            tmfd := { ctid := ⟨InvalidBlockNumber, 0xfffd⟩, xmax := 10, cmax := 0
                      traversed := true }
            hops := 1, attempts := 1
            trace := [LockEvent.lockTuple ⟨0, 1⟩,
              LockEvent.follow ⟨0, 1⟩ ⟨InvalidBlockNumber, 0xfffd⟩] }) :=
  (tuple_lock_moved_partition
    (stubLockEnv
      { result := TM_Result.TM_Updated, failure := some (⟨InvalidBlockNumber, 0xfffd⟩, 10, 0) }
      HeapFetchResult.missing true false)
    0 1 LockTupleMode.LockTupleExclusive LockWaitPolicy.LockWaitBlock
    TUPLE_LOCK_FLAG_FIND_LAST_VERSION (lockInit ⟨0, 1⟩ ⟨0, 0⟩ sampleFailureData) _
    rfl rfl rfl).2.2.2.1

/-- C16: inside the forward traversal, if the fetched version has the expected
creator id but the dirty snapshot reports that creator as still in progress,
the call raises a data-corruption error at once: it returns no result and makes
no further lock attempt or hop. -/
theorem tuple_lock_uncommitted_creator (env : LockEnv) (fuel : Nat) (cid : CommandId)
    (mode : LockTupleMode) (wait_policy : LockWaitPolicy) (flags : Nat) (s : LockState)
    (hdr : TupleHeader) (dx1 dx2 : TransactionId)
    (hpc : s.pc = LockPc.fetch_loop)
    (hmoved : ItemPointerIndicatesMovedPartitions s.tid = false)
    (hf : env.heap_fetch s.clock s.tid = HeapFetchResult.visible hdr dx1 dx2)
    (hx : hdr.xmin = s.priorXmax)
    (hd1 : TransactionIdIsValid dx1 = true) :
    ∃ t, lockRun env cid mode wait_policy flags (fuel + 1) s
        = some (Except.error LockError.ERRCODE_DATA_CORRUPTED, t) ∧
      t.hops = s.hops ∧ t.attempts = s.attempts ∧ t.tid = s.tid ∧
      t.trace = s.trace ++ [LockEvent.fetch s.tid s.priorXmax] := by
  have hstep : lockStep env cid mode wait_policy flags s =
      LockStep.error LockError.ERRCODE_DATA_CORRUPTED
        { s with
          t_self := s.tid
          clock := s.clock + 1
          trace := s.trace ++ [LockEvent.fetch s.tid s.priorXmax] } := by
    rw [lockStep_fetch env cid mode wait_policy flags s hpc]
    simp [fetchStep, hmoved, hf, hx, hd1]
  exact ⟨_, lockRun_of_error _ _ _ _ _ _ _ _ _ hstep, rfl, rfl, rfl, rfl⟩

/-- Witness of C16: the version at `(0, 2)` was created by transaction 10, which
the dirty snapshot reports as in progress. -/
theorem tuple_lock_uncommitted_creator_witness :
    ∃ t, lockRun
        (stubLockEnv { result := TM_Result.TM_Ok, failure := none }
          (HeapFetchResult.visible { xmin := 10, update_xid := 0, cmin := 0, t_ctid := ⟨0, 2⟩ }
            10 0) true false)
        3 LockTupleMode.LockTupleExclusive LockWaitPolicy.LockWaitBlock
        TUPLE_LOCK_FLAG_FIND_LAST_VERSION (0 + 1) sampleTraversalState
        = some (Except.error LockError.ERRCODE_DATA_CORRUPTED, t) ∧
      t.hops = sampleTraversalState.hops ∧ t.attempts = sampleTraversalState.attempts ∧
      t.tid = sampleTraversalState.tid ∧
      t.trace = sampleTraversalState.trace ++
        [LockEvent.fetch sampleTraversalState.tid sampleTraversalState.priorXmax] :=
  tuple_lock_uncommitted_creator
    (stubLockEnv { result := TM_Result.TM_Ok, failure := none }
      (HeapFetchResult.visible { xmin := 10, update_xid := 0, cmin := 0, t_ctid := ⟨0, 2⟩ }
        10 0) true false)
    0 3 LockTupleMode.LockTupleExclusive LockWaitPolicy.LockWaitBlock
    TUPLE_LOCK_FLAG_FIND_LAST_VERSION sampleTraversalState
    { xmin := 10, update_xid := 0, cmin := 0, t_ctid := ⟨0, 2⟩ } 10 0
    rfl (by decide) rfl rfl rfl


/-! ## Properties of the update callbacks -/

/-- C20: `locatoram_tuple_update` always sets `*update_indexes` to false, and
`heapam_tuple_update` does so for a siro relation; for a non-siro relation
`heapam_tuple_update` sets it to true exactly when the result of `heap_update`
is `TM_Ok` and the new tuple is not heap-only.  In every case the returned
result is the result of the underlying update and the slot's `tts_tid` is the
tuple's `t_self` after the update. -/
theorem tuple_update_index_request (env : UpdateEnv) (rel_id : Oid) (otid : ItemPointerData)
    (pos : LocatorTuplePositionData) (tuple : HeapTupleData) (cid : CommandId)
    (snapshot : SnapshotData) (wait : Bool) :
    (locatoram_tuple_update env rel_id otid pos tuple cid snapshot wait).update_indexes = false ∧
    (locatoram_tuple_update env rel_id otid pos tuple cid snapshot wait).result
      = (env.heap_update_with_vc otid (some pos) { tuple with t_tableOid := rel_id } cid snapshot
          wait).result ∧
    (locatoram_tuple_update env rel_id otid pos tuple cid snapshot wait).tts_tid
      = (env.heap_update_with_vc otid (some pos) { tuple with t_tableOid := rel_id } cid snapshot
          wait).t_self ∧
    (heapam_tuple_update env true rel_id otid tuple cid snapshot wait).update_indexes = false ∧
    (heapam_tuple_update env true rel_id otid tuple cid snapshot wait).result
      = (env.heap_update_with_vc otid none { tuple with t_tableOid := rel_id } cid snapshot
          wait).result ∧
    (heapam_tuple_update env true rel_id otid tuple cid snapshot wait).tts_tid
      = (env.heap_update_with_vc otid none { tuple with t_tableOid := rel_id } cid snapshot
          wait).t_self ∧
    ((heapam_tuple_update env false rel_id otid tuple cid snapshot wait).update_indexes = true ↔
      (env.heap_update otid { tuple with t_tableOid := rel_id } cid wait).result
          = TM_Result.TM_Ok ∧
        (env.heap_update otid { tuple with t_tableOid := rel_id } cid wait).heap_only = false) ∧
    (heapam_tuple_update env false rel_id otid tuple cid snapshot wait).result
      = (env.heap_update otid { tuple with t_tableOid := rel_id } cid wait).result ∧
    (heapam_tuple_update env false rel_id otid tuple cid snapshot wait).tts_tid
      = (env.heap_update otid { tuple with t_tableOid := rel_id } cid wait).t_self := by
  refine ⟨rfl, rfl, rfl, rfl, rfl, rfl, ?_, rfl, rfl⟩
  simp [heapam_tuple_update]


/-! ## Determinism of the resolution of a locator -/

theorem chainLookup_found_loctup (env : ScanEnv) (snapshot : SnapshotData) (rel_id : Oid)
    (p : List Nat) (offnum : OffsetNumber) (s : ScanState)
    (hnz : ¬(memcpy_le p 0 8 = 0 ∧ memcpy_le p 8 8 = 0)) :
    (chainLookup env snapshot rel_id p offnum s).v_loctup
      = chainTuple env snapshot rel_id p s.v_loctup := by
  by_cases hret :
      (env.PLeafLookupTuple rel_id (chosenOffset env snapshot p) snapshot).ret_id > -1
  · unfold chosenOffset at hret
    simp only [chainLookup, chainTuple, chosenOffset, hnz, if_false, hret, if_true, storeEntry]
  · unfold chosenOffset at hret
    simp only [chainLookup, chainTuple, chosenOffset, hnz, if_false, hret]

theorem finishLocator_emitted (env : ScanEnv) (snapshot : SnapshotData) (modification : Bool)
    (rel_id : Oid) (p : List Nat) (offnum : OffsetNumber) (cv : CheckVar)
    (s : ScanState) (r : Bool × ScanState) (f : CheckFrame offnum s r) :
    emitted s (finishLocator env snapshot modification rel_id p offnum cv r) =
      if r.1 = true then some r.2.v_loctup
      else if modification = true then some r.2.v_loctup
      else if snapshot.snapshot_type ≠ SnapshotType.SNAPSHOT_MVCC then none
      else if memcpy_le p 0 8 = 0 ∧ memcpy_le p 8 8 = 0 then none
      else if (env.PLeafLookupTuple rel_id (chosenOffset env snapshot p) snapshot).ret_id > -1
        then some (chainTuple env snapshot rel_id p r.2.v_loctup)
      else none := by
  by_cases h1 : r.1 = true
  · obtain ⟨a, _, c⟩ := f.valid h1
    rw [if_pos h1]
    simp only [emitted, finishLocator, h1, if_true, decrRecRef_ntup, decrRecRef_copied, a, c,
      Function.update_same]
  · have h1f : r.1 = false := by simpa using h1
    obtain ⟨a, _, c⟩ := f.invalid h1f
    rw [if_neg h1]
    by_cases h2 : modification = true
    · rw [if_pos h2]
      simp only [emitted, finishLocator, h1f, h2, if_true, Bool.false_eq_true, if_false,
        decrRecRef_ntup, decrRecRef_copied, storeEntry, a, Function.update_same]
    · have h2f : modification = false := by simpa using h2
      subst h2f
      rw [if_neg (by simp)]
      by_cases h3 : snapshot.snapshot_type = SnapshotType.SNAPSHOT_MVCC
      · rw [if_neg (by simp [h3]),
          finishLocator_chain_path env snapshot rel_id p offnum cv r h1f h3]
        by_cases hz : memcpy_le p 0 8 = 0 ∧ memcpy_le p 8 8 = 0
        · rw [if_pos hz, chainLookup_zero env snapshot rel_id p offnum r.2 hz.1 hz.2]
          simp [emitted, a]
        · rw [if_neg hz]
          by_cases hret :
              (env.PLeafLookupTuple rel_id (chosenOffset env snapshot p) snapshot).ret_id > -1
          · obtain ⟨c1, _, c3, _⟩ := chainLookup_found env snapshot rel_id p offnum r.2 hz hret
            rw [if_pos hret]
            unfold emitted
            rw [decrRecRef_ntup, decrRecRef_copied, c1, a, if_pos rfl, c3,
              chainLookup_found_loctup env snapshot rel_id p offnum r.2 hz, ← a,
              Function.update_same]
          · obtain ⟨c1, _⟩ := chainLookup_not_found env snapshot rel_id p offnum r.2 hz hret
            rw [if_neg hret]
            simp [emitted, c1, a]
      · rw [if_pos h3]
        simp [emitted, finishLocator, h1f, h3, a]

theorem checkVersions_rel (env1 env2 : ScanEnv) (snapshot : SnapshotData) (dp1 dp2 : Page)
    (offnum : OffsetNumber) (cv1 cv2 : CheckVar)
    (hvis : env1.HeapTupleSatisfiesVisibility = env2.HeapTupleSatisfiesVisibility)
    (hcv : cv1.check_var = cv2.check_var) :
    ∀ (n : Nat) (s1 s2 : ScanState),
      (∀ tv, 1 ≤ tv → tv ≤ n →
        PageGetItemId dp1 (offnum + tv) = PageGetItemId dp2 (offnum + tv)) →
      s1.v_loctup.t_self = s2.v_loctup.t_self →
      s1.v_loctup.t_tableOid = s2.v_loctup.t_tableOid →
      (checkVersions env1 snapshot dp1 offnum cv1 n s1).1
        = (checkVersions env2 snapshot dp2 offnum cv2 n s2).1 ∧
      ((s1.v_loctup = s2.v_loctup ∨
          ∃ tv, 1 ≤ tv ∧ tv ≤ n ∧ slotChecked dp1 offnum cv1 tv = true) →
        (checkVersions env1 snapshot dp1 offnum cv1 n s1).2.v_loctup
          = (checkVersions env2 snapshot dp2 offnum cv2 n s2).2.v_loctup) := by
  intro n
  induction n with
  | zero =>
    intro s1 s2 _ _ _
    refine ⟨rfl, ?_⟩
    intro h
    rcases h with h | ⟨tv, a, b, _⟩
    · exact h
    · omega
  | succ k ih =>
    intro s1 s2 hdp hself hoid
    have hp := hdp (k + 1) (by omega) (le_refl _)
    have hdp' : ∀ tv, 1 ≤ tv → tv ≤ k →
        PageGetItemId dp1 (offnum + tv) = PageGetItemId dp2 (offnum + tv) :=
      fun tv a b => hdp tv a (by omega)
    unfold checkVersions
    dsimp only
    rw [← hcv, ← hp, ← hvis]
    by_cases h1 : cv1.check_var &&& (k + 1) = 0
    · simp only [h1, if_true]
      obtain ⟨i1, i2⟩ := ih s1 s2 hdp' hself hoid
      refine ⟨i1, ?_⟩
      intro h
      apply i2
      rcases h with h | ⟨tv, a, b, c⟩
      · exact Or.inl h
      · right
        have hne : tv ≠ k + 1 := by
          intro e
          subst e
          simp [slotChecked, h1] at c
        exact ⟨tv, a, by omega, c⟩
    · simp only [h1, if_false]
      by_cases h2 : (PageGetItemId dp1 (offnum + (k + 1))).ovr_unused = true
      · simp only [h2, if_true]
        obtain ⟨i1, i2⟩ := ih s1 s2 hdp' hself hoid
        refine ⟨i1, ?_⟩
        intro h
        apply i2
        rcases h with h | ⟨tv, a, b, c⟩
        · exact Or.inl h
        · right
          have hne : tv ≠ k + 1 := by
            intro e
            subst e
            simp [slotChecked, h2] at c
          exact ⟨tv, a, by omega, c⟩
      · simp only [h2]
        have hv : ({ s1.v_loctup with
              t_data := some (PageGetItemId dp1 (offnum + (k + 1))).item
              t_len := (PageGetItemId dp1 (offnum + (k + 1))).lp_len } : HeapTupleData)
            = { s2.v_loctup with
              t_data := some (PageGetItemId dp1 (offnum + (k + 1))).item
              t_len := (PageGetItemId dp1 (offnum + (k + 1))).lp_len } := by
          simp [hself, hoid]
        rw [← hv]
        by_cases h3 : env1.HeapTupleSatisfiesVisibility
            { s1.v_loctup with
              t_data := some (PageGetItemId dp1 (offnum + (k + 1))).item
              t_len := (PageGetItemId dp1 (offnum + (k + 1))).lp_len } snapshot = true
        · simp only [h3, if_true]
          exact ⟨rfl, fun _ => rfl⟩
        · simp only [h3]
          obtain ⟨i1, i2⟩ := ih
            { s1 with
              v_loctup := { s1.v_loctup with
                t_data := some (PageGetItemId dp1 (offnum + (k + 1))).item
                t_len := (PageGetItemId dp1 (offnum + (k + 1))).lp_len }
              events := s1.events ++
                [ScanEvent.satisfiesVisibility offnum (k + 1) cv1.set_hint_bits] }
            { s2 with
              v_loctup := { s1.v_loctup with
                t_data := some (PageGetItemId dp1 (offnum + (k + 1))).item
                t_len := (PageGetItemId dp1 (offnum + (k + 1))).lp_len }
              events := s2.events ++
                [ScanEvent.satisfiesVisibility offnum (k + 1) cv2.set_hint_bits] }
            hdp' rfl rfl
          exact ⟨i1, fun _ => i2 (Or.inl rfl)⟩

theorem chosenOffset_congr (env1 env2 : ScanEnv) (snapshot : SnapshotData) (p : List Nat)
    (hleft : env1.PLeafIsLeftLookup = env2.PLeafIsLeftLookup) :
    chosenOffset env1 snapshot p = chosenOffset env2 snapshot p := by
  simp [chosenOffset, hleft]

theorem chainTuple_congr (env1 env2 : ScanEnv) (snapshot : SnapshotData) (rel_id : Oid)
    (p : List Nat) (v : HeapTupleData)
    (hleft : env1.PLeafIsLeftLookup = env2.PLeafIsLeftLookup)
    (hchain : env1.PLeafLookupTuple = env2.PLeafLookupTuple) :
    chainTuple env1 snapshot rel_id p v = chainTuple env2 snapshot rel_id p v := by
  simp [chainTuple, chosenOffset_congr env1 env2 snapshot p hleft, hchain]

/-- C19 as stated fails: on row 1 of the sample page, two runs with the same
locator, slots, chain and snapshot resolve differently when one is a SELECT (the
chain version is emitted) and the other an UPDATE (a copy of an in-place slot is
emitted). -/
theorem siro_lossy_resolution_counterexample :
    emitted sampleScanState
        (scanLocator sampleEnv sampleSnapshot
          (CmdType.CMD_SELECT == CmdType.CMD_UPDATE || CmdType.CMD_SELECT == CmdType.CMD_DELETE)
          42 0 samplePage 1 sampleScanState)
      = some { t_len := 2, t_self := ⟨0, 1⟩, t_tableOid := 42, t_data := some [4, 2] } ∧
    emitted sampleScanState
        (scanLocator sampleEnv sampleSnapshot
          (CmdType.CMD_UPDATE == CmdType.CMD_UPDATE || CmdType.CMD_UPDATE == CmdType.CMD_DELETE)
          42 0 samplePage 1 sampleScanState)
      = some { t_len := 1, t_self := ⟨0, 1⟩, t_tableOid := 42, t_data := some [0] } ∧
    emitted sampleScanState
        (scanLocator sampleEnv sampleSnapshot
          (CmdType.CMD_SELECT == CmdType.CMD_UPDATE || CmdType.CMD_SELECT == CmdType.CMD_DELETE)
          42 0 samplePage 1 sampleScanState)
      ≠ emitted sampleScanState
        (scanLocator sampleEnv sampleSnapshot
          (CmdType.CMD_UPDATE == CmdType.CMD_UPDATE || CmdType.CMD_UPDATE == CmdType.CMD_DELETE)
          42 0 samplePage 1 sampleScanState) := by
  refine ⟨by decide, by decide, by decide⟩

/-- C19, amended: in the lossy scan of a siro page the outcome of resolving one
locator (the version emitted for it, or none) is determined by the locator's
contents, the contents of its two slots and of its chain, the snapshot, the
command mode (modification or not) and the check variable returned by
`GetCheckVar`: two runs that agree on these, and in which at least one slot is
examined, produce the same outcome, whatever else differs in their states. -/
theorem siro_lossy_resolution_deterministic (env1 env2 : ScanEnv) (snapshot : SnapshotData)
    (modification : Bool) (rel_id : Oid) (page : BlockNumber) (dp1 dp2 : Page)
    (offnum : OffsetNumber) (s1 s2 : ScanState)
    (hvis : env1.HeapTupleSatisfiesVisibility = env2.HeapTupleSatisfiesVisibility)
    (hleft : env1.PLeafIsLeftLookup = env2.PLeafIsLeftLookup)
    (hchain : env1.PLeafLookupTuple = env2.PLeafLookupTuple)
    (hcv : (env1.GetCheckVar offnum).check_var = (env2.GetCheckVar offnum).check_var)
    (hloc : PageGetItemId dp1 offnum = PageGetItemId dp2 offnum)
    (hslots : ∀ tv, 1 ≤ tv → tv ≤ 2 →
      PageGetItemId dp1 (offnum + tv) = PageGetItemId dp2 (offnum + tv))
    (hoid : s1.v_loctup.t_tableOid = s2.v_loctup.t_tableOid)
    (hexam : ∃ tv, 1 ≤ tv ∧ tv ≤ 2 ∧
      slotChecked dp1 offnum (env1.GetCheckVar offnum) tv = true) :
    emitted s1 (scanLocator env1 snapshot modification rel_id page dp1 offnum s1)
      = emitted s2 (scanLocator env2 snapshot modification rel_id page dp2 offnum s2) := by
  by_cases hp : (PageGetItemId dp1 offnum).pleaf_flag = true
  · have hp2 : (PageGetItemId dp2 offnum).pleaf_flag = true := by
      rw [← hloc]
      exact hp
    obtain ⟨r1, r2⟩ := checkVersions_rel env1 env2 snapshot dp1 dp2 offnum
      (env1.GetCheckVar offnum) (env2.GetCheckVar offnum) hvis hcv CHECK_RIGHT
      (enterLocator env1 page offnum s1) (enterLocator env2 page offnum s2) hslots rfl hoid
    have r2' := r2 (Or.inr hexam)
    rw [scanLocator_of_locator env1 snapshot modification rel_id page dp1 offnum s1 hp,
      scanLocator_of_locator env2 snapshot modification rel_id page dp2 offnum s2 hp2,
      finishLocator_emitted env1 snapshot modification rel_id _ offnum _ s1 _
        (enterLocator_frame env1 snapshot dp1 page offnum s1),
      finishLocator_emitted env2 snapshot modification rel_id _ offnum _ s2 _
        (enterLocator_frame env2 snapshot dp2 page offnum s2),
      ← hloc, ← r1, ← r2', ← hchain,
      ← chosenOffset_congr env1 env2 snapshot _ hleft,
      ← chainTuple_congr env1 env2 snapshot rel_id _ _ hleft hchain]
  · have hp2 : ¬(PageGetItemId dp2 offnum).pleaf_flag = true := by
      rw [← hloc]
      exact hp
    have e1 : scanLocator env1 snapshot modification rel_id page dp1 offnum s1 = s1 := by
      simp [scanLocator, hp]
    have e2 : scanLocator env2 snapshot modification rel_id page dp2 offnum s2 = s2 := by
      simp [scanLocator, hp2]
    rw [e1, e2]
    simp [emitted]

/-- Witness of C19 (amended): row 1 of the sample page resolved from two
different scan states. -/
theorem siro_lossy_resolution_deterministic_witness :
    emitted sampleScanState
        (scanLocator sampleEnv sampleSnapshot false 42 0 samplePage 1 sampleScanState)
      = emitted { sampleScanState with ntup := 3, counter_in_heap := 7 }
        (scanLocator sampleEnv sampleSnapshot false 42 0 samplePage 1
          { sampleScanState with ntup := 3, counter_in_heap := 7 }) :=
  siro_lossy_resolution_deterministic sampleEnv sampleEnv sampleSnapshot false 42 0
    samplePage samplePage 1 sampleScanState
    { sampleScanState with ntup := 3, counter_in_heap := 7 }
    rfl rfl rfl rfl rfl (fun _ _ _ => rfl) rfl ⟨1, by decide, by decide, by decide⟩

/-! ## Dual-reference balance -/

theorem scanRefOps_append (a b : List ScanEvent) :
    scanRefOps (a ++ b) = scanRefOps a ++ scanRefOps b := by
  induction a with
  | nil => rfl
  | cons e rest ih => simp [scanRefOps, ih]

theorem fetchRefOps_append (a b : List FetchEvent) :
    fetchRefOps (a ++ b) = fetchRefOps a ++ fetchRefOps b := by
  induction a with
  | nil => rfl
  | cons e rest ih => simp [fetchRefOps, ih]

theorem scanRefs_refl (a : List ScanEvent) : ScanRefs a a [] :=
  ⟨[], by simp, rfl⟩

theorem scanRefs_trans {a b c : List ScanEvent} {x y : List RefOp}
    (h1 : ScanRefs a b x) (h2 : ScanRefs b c y) : ScanRefs a c (x ++ y) := by
  obtain ⟨e1, rfl, rfl⟩ := h1
  obtain ⟨e2, rfl, rfl⟩ := h2
  exact ⟨e1 ++ e2, by simp, scanRefOps_append e1 e2⟩

theorem scanRefs_snoc (a : List ScanEvent) (e : ScanEvent) : ScanRefs a (a ++ [e]) e.refOps :=
  ⟨[e], rfl, by simp [scanRefOps]⟩

theorem scanRefs_new {s u : ScanState} {x : List RefOp} (h : ScanRefs s.events u.events x) :
    newScanRefOps s u = x := by
  obtain ⟨evs, he, hx⟩ := h
  simp [newScanRefOps, he, hx]

theorem refRun_append (a b : List RefOp) :
    ∀ held, refRun held (a ++ b) = (refRun held a).bind fun h => refRun h b := by
  induction a with
  | nil => intro held; rfl
  | cons op rest ih =>
    intro held
    cases op with
    | acquire u => simpa [refRun] using ih (u :: held)
    | release u =>
      by_cases hu : u ∈ held
      · simpa [refRun, hu] using ih (held.erase u)
      · simp [refRun, hu]

theorem refBalanced_nil : refBalanced [] := fun _ => rfl

theorem refBalanced_append {a b : List RefOp} (ha : refBalanced a) (hb : refBalanced b) :
    refBalanced (a ++ b) := by
  intro held
  rw [refRun_append, ha held]
  exact hb held

theorem refBalanced_pagePair (buf : Buffer) : refBalanced (pagePair buf) := by
  intro held
  simp [pagePair, refRun]

theorem refBalanced_recordPair (env : ScanEnv) (dp : Page) (offnum : OffsetNumber) :
    refBalanced (recordPair env dp offnum) := by
  intro held
  unfold recordPair
  split_ifs <;> simp [refRun]

theorem refBalanced_recordPairs (env : ScanEnv) (dp : Page) (offs : List OffsetNumber) :
    refBalanced (recordPairs env dp offs) := by
  induction offs with
  | nil => exact refBalanced_nil
  | cons o rest ih => exact refBalanced_append (refBalanced_recordPair env dp o) ih

theorem refBalanced_bracket (u : RefUnit) {ops : List RefOp} (h : refBalanced ops) :
    refBalanced ([RefOp.acquire u] ++ ops ++ [RefOp.release u]) := by
  intro held
  rw [refRun_append, List.singleton_append]
  simp [refRun, h (u :: held)]

theorem checkVersions_refs (env : ScanEnv) (snapshot : SnapshotData) (dp : Page)
    (offnum : OffsetNumber) (cv : CheckVar) :
    ∀ (n : Nat) (s : ScanState),
      ScanRefs s.events (checkVersions env snapshot dp offnum cv n s).2.events [] := by
  intro n
  induction n with
  | zero =>
    intro s
    exact scanRefs_refl _
  | succ k ih =>
    intro s
    unfold checkVersions
    dsimp only
    split_ifs with h1 h2 h3
    · exact ih s
    · exact ih s
    · exact scanRefs_snoc s.events
        (ScanEvent.satisfiesVisibility offnum (k + 1) cv.set_hint_bits)
    · exact scanRefs_trans (scanRefs_snoc s.events
        (ScanEvent.satisfiesVisibility offnum (k + 1) cv.set_hint_bits)) (ih _)

theorem scanRefs_of_prefix {a b : List ScanEvent} {x : List RefOp} (h : a <+: b)
    (hx : scanRefOps (b.drop a.length) = x) : ScanRefs a b x := by
  obtain ⟨evs, rfl⟩ := h
  exact ⟨evs, rfl, by simpa using hx⟩

theorem chainLookup_refs (env : ScanEnv) (snapshot : SnapshotData) (rel_id : Oid)
    (p : List Nat) (offnum : OffsetNumber) (s : ScanState) :
    ScanRefs s.events (chainLookup env snapshot rel_id p offnum s).events [] := by
  apply scanRefs_of_prefix <;> unfold chainLookup <;> dsimp only <;> split_ifs <;>
    simp [storeEntry, scanRefOps, ScanEvent.refOps]

theorem decrRecRef_refs (s : ScanState) (offnum : OffsetNumber) (cv : CheckVar) :
    ScanRefs s.events (decrRecRef s offnum cv).events
      (if cv.rec_ref_unit ≠ 0 then [RefOp.release (RefUnit.record offnum cv.rec_ref_unit)]
        else []) := by
  unfold decrRecRef
  split_ifs with h
  · exact scanRefs_snoc s.events _
  · exact scanRefs_refl _

theorem finishLocator_refs (env : ScanEnv) (snapshot : SnapshotData) (modification : Bool)
    (rel_id : Oid) (p : List Nat) (offnum : OffsetNumber) (cv : CheckVar)
    (r : Bool × ScanState) :
    ScanRefs r.2.events (finishLocator env snapshot modification rel_id p offnum cv r).events
      (if cv.rec_ref_unit ≠ 0 then [RefOp.release (RefUnit.record offnum cv.rec_ref_unit)]
        else []) := by
  have d := fun s => decrRecRef_refs s offnum cv
  generalize (if cv.rec_ref_unit ≠ 0 then [RefOp.release (RefUnit.record offnum cv.rec_ref_unit)]
    else []) = X at d
  unfold finishLocator
  dsimp only
  split_ifs with h1 h2 h3
  · exact d r.2
  · exact d (storeEntry r.2 offnum)
  · exact d r.2
  · simpa using scanRefs_trans (chainLookup_refs env snapshot rel_id p offnum r.2)
      (d (chainLookup env snapshot rel_id p offnum r.2))

theorem scanLocator_refs (env : ScanEnv) (snapshot : SnapshotData) (modification : Bool)
    (rel_id : Oid) (page : BlockNumber) (dp : Page) (offnum : OffsetNumber) (s : ScanState) :
    ScanRefs s.events (scanLocator env snapshot modification rel_id page dp offnum s).events
      (recordPair env dp offnum) := by
  unfold scanLocator recordPair
  dsimp only
  by_cases h : (PageGetItemId dp offnum).pleaf_flag = true
  · have e1 : ScanRefs s.events (enterLocator env page offnum s).events
        (ScanEvent.getCheckVar offnum (env.GetCheckVar offnum).rec_ref_unit).refOps :=
      scanRefs_snoc s.events _
    have e2 := checkVersions_refs env snapshot dp offnum (env.GetCheckVar offnum) CHECK_RIGHT
      (enterLocator env page offnum s)
    have e3 := finishLocator_refs env snapshot modification rel_id (PageGetItemId dp offnum).item
      offnum (env.GetCheckVar offnum)
      (checkVersions env snapshot dp offnum (env.GetCheckVar offnum) CHECK_RIGHT
        (enterLocator env page offnum s))
    have e := scanRefs_trans (scanRefs_trans e1 e2) e3
    by_cases hu : (env.GetCheckVar offnum).rec_ref_unit = 0
    · simpa [h, hu, ScanEvent.refOps] using e
    · simpa [h, hu, ScanEvent.refOps] using e
  · have h' : (PageGetItemId dp offnum).pleaf_flag = false := by simpa using h
    simp only [h', Bool.not_false, if_true, Bool.false_eq_true, false_and, if_false]
    exact scanRefs_refl _

theorem scanOffsets_refs (env : ScanEnv) (snapshot : SnapshotData) (modification : Bool)
    (rel_id : Oid) (page : BlockNumber) (dp : Page) :
    ∀ (offs : List OffsetNumber) (s : ScanState),
      ScanRefs s.events (scanOffsets env snapshot modification rel_id page dp offs s).events
        (recordPairs env dp offs) := by
  intro offs
  induction offs with
  | nil =>
    intro s
    exact scanRefs_refl _
  | cons o rest ih =>
    intro s
    exact scanRefs_trans (scanLocator_refs env snapshot modification rel_id page dp o s)
      (ih (scanLocator env snapshot modification rel_id page dp o s))

theorem hotSearchOffset_events (env : BitmapEnv) (siro : Bool) (snapshot : SnapshotData)
    (page : BlockNumber) (buffer : Buffer) (s : ScanState) (offnum : OffsetNumber) :
    (hotSearchOffset env siro snapshot page buffer s offnum).events = s.events := by
  unfold hotSearchOffset
  dsimp only
  split_ifs <;> split <;> rfl

theorem hotSearchOffsets_events (env : BitmapEnv) (siro : Bool) (snapshot : SnapshotData)
    (page : BlockNumber) (buffer : Buffer) :
    ∀ (offs : List OffsetNumber) (s : ScanState),
      (offs.foldl (hotSearchOffset env siro snapshot page buffer) s).events = s.events := by
  intro offs
  induction offs with
  | nil => intro s; rfl
  | cons o rest ih =>
    intro s
    rw [List.foldl_cons, ih, hotSearchOffset_events]

theorem hotSearchOffsets_refs (env : BitmapEnv) (siro : Bool) (snapshot : SnapshotData)
    (page : BlockNumber) (buffer : Buffer) (offs : List OffsetNumber) (s : ScanState) :
    ScanRefs s.events (offs.foldl (hotSearchOffset env siro snapshot page buffer) s).events [] := by
  rw [hotSearchOffsets_events]
  exact scanRefs_refl _

theorem scanPlainOffset_refs (env : BitmapEnv) (snapshot : SnapshotData) (rel_id : Oid)
    (page : BlockNumber) (dp : Page) (s : ScanState) (offnum : OffsetNumber) :
    ScanRefs s.events (scanPlainOffset env snapshot rel_id page dp s offnum).events [] := by
  unfold scanPlainOffset
  dsimp only
  split_ifs with h1 h2
  · exact scanRefs_refl _
  · exact scanRefs_trans (scanRefs_snoc s.events (ScanEvent.predicateLockTID offnum))
      (scanRefs_snoc _ (ScanEvent.checkSerializableConflictOut _ offnum))
  · exact scanRefs_snoc s.events (ScanEvent.checkSerializableConflictOut _ offnum)

theorem scanPlainOffsets_refs (env : BitmapEnv) (snapshot : SnapshotData) (rel_id : Oid)
    (page : BlockNumber) (dp : Page) :
    ∀ (offs : List OffsetNumber) (s : ScanState),
      ScanRefs s.events (offs.foldl (scanPlainOffset env snapshot rel_id page dp) s).events [] := by
  intro offs
  induction offs with
  | nil =>
    intro s
    exact scanRefs_refl _
  | cons o rest ih =>
    intro s
    simpa using scanRefs_trans (scanPlainOffset_refs env snapshot rel_id page dp s o)
      (ih (scanPlainOffset env snapshot rel_id page dp s o))

theorem scanRefs_congr {a b : List ScanEvent} {x y : List RefOp} (h : ScanRefs a b x)
    (hxy : x = y) : ScanRefs a b y := hxy ▸ h

theorem siro_lossy_refs (env : ScanEnv) (snapshot : SnapshotData) (curr_cmdtype : CmdType)
    (rel_id : Oid) (page : BlockNumber) (dp : Page) (s : ScanState) :
    ScanRefs s.events
      (heapam_scan_bitmap_next_block_siro_lossy env snapshot curr_cmdtype rel_id page dp s).events
      (recordPairs env dp (List.range' FirstOffsetNumber (PageGetMaxOffsetNumber dp))) := by
  unfold heapam_scan_bitmap_next_block_siro_lossy
  exact scanOffsets_refs env snapshot _ rel_id page dp _
    { s with ntup := 0, v_loctup := { s.v_loctup with t_tableOid := rel_id } }

theorem heapam_scan_bitmap_next_block_refs (env : BitmapEnv) (siro : Bool)
    (snapshot : SnapshotData) (curr_cmdtype : CmdType) (rel_id : Oid) (tbmres : TBMIterateResult)
    (hscan : HeapScanDescData) :
    ScanRefs hscan.scan.events
      (heapam_scan_bitmap_next_block env siro snapshot curr_cmdtype rel_id tbmres
        hscan).2.scan.events
      (bitmapBlockRefOps env siro tbmres hscan) := by
  unfold heapam_scan_bitmap_next_block bitmapBlockRefOps
  dsimp only
  by_cases hpage : tbmres.blockno ≥ hscan.rs_nblocks
  · rw [if_pos hpage, if_pos (Or.inl hpage)]
    exact scanRefs_refl _
  · rw [if_neg hpage]
    dsimp only
    have e0 : ScanRefs hscan.scan.events
        (hscan.scan.events ++
          [ScanEvent.pagePrune (env.ReleaseAndReadBuffer hscan.rs_cbuf tbmres.blockno),
            if siro then
              ScanEvent.setPageRefUnit (env.ReleaseAndReadBuffer hscan.rs_cbuf tbmres.blockno)
            else ScanEvent.lockBuffer (env.ReleaseAndReadBuffer hscan.rs_cbuf tbmres.blockno)])
        (if siro then
          [RefOp.acquire (RefUnit.page (env.ReleaseAndReadBuffer hscan.rs_cbuf tbmres.blockno))]
        else []) := by
      apply scanRefs_of_prefix
      · simp
      · cases siro <;> simp [scanRefOps, ScanEvent.refOps]
    by_cases hl : tbmres.ntuples ≥ 0
    · rw [if_pos hl, if_pos hl]
      refine scanRefs_congr (scanRefs_trans
        (scanRefs_trans e0 (hotSearchOffsets_refs env siro snapshot tbmres.blockno _ _ _))
        (scanRefs_snoc _ _)) ?_
      cases siro <;> simp [ScanEvent.refOps, hpage]
    · rw [if_neg hl, if_neg hl]
      cases siro
      · refine scanRefs_congr (scanRefs_trans
          (scanRefs_trans e0 (scanPlainOffsets_refs env snapshot rel_id tbmres.blockno _ _ _))
          (scanRefs_snoc _ _)) ?_
        simp [ScanEvent.refOps]
      · refine scanRefs_congr (scanRefs_trans
          (scanRefs_trans e0
            (siro_lossy_refs env.toScanEnv snapshot curr_cmdtype rel_id tbmres.blockno _ _))
          (scanRefs_snoc _ _)) ?_
        simp [ScanEvent.refOps, hpage]

theorem releaseEbiBuffer_refs (st : IndexFetchState) :
    ∃ evs, (releaseEbiBuffer st).events = st.events ++ evs ∧ fetchRefOps evs = [] ∧
      (releaseEbiBuffer st).call_again = st.call_again ∧
      (releaseEbiBuffer st).xs_cbuf = st.xs_cbuf := by
  unfold releaseEbiBuffer
  split_ifs
  · exact ⟨_, rfl, rfl, rfl, rfl⟩
  · exact ⟨[], by simp, rfl, rfl, rfl⟩

theorem heapam_index_fetch_tuple_refs (env : FetchEnv) (siro : Bool) (tid : ItemPointerData)
    (snapshot : SnapshotData) (st : IndexFetchState) :
    newFetchRefOps st.events.length
        (heapam_index_fetch_tuple env siro tid snapshot st).2.events =
      if siro then pagePair (heapam_index_fetch_tuple env siro tid snapshot st).2.xs_cbuf
      else [] := by
  obtain ⟨evs, he, hp, hc, hb⟩ := releaseEbiBuffer_refs st
  unfold heapam_index_fetch_tuple newFetchRefOps pagePair
  dsimp only
  rw [hc, hb]
  cases siro <;> cases st.call_again <;>
    simp only [Bool.not_true, Bool.not_false, if_true, if_false, Bool.false_eq_true] <;>
    split_ifs <;>
    simp [he, hp, fetchRefOps, fetchRefOps_append, FetchEvent.refOps]

theorem locatoram_index_fetch_tuple_refs (env : FetchEnv) (curr_cmdtype : CmdType)
    (route_synopsis : Nat) (snapshot : SnapshotData) (st : IndexFetchState) :
    newFetchRefOps st.events.length
        (locatoram_index_fetch_tuple env curr_cmdtype route_synopsis snapshot st).2.events =
      if env.locator_is_columnar_layout
          (env.LocatorRouteSynopsisGetTuplePositionForIndexscan
            route_synopsis).partitionLevel = true then []
      else
        pagePair (locatoram_index_fetch_tuple env curr_cmdtype route_synopsis snapshot
          st).2.xs_cbuf := by
  obtain ⟨evs, he, hp, hc, hb⟩ := releaseEbiBuffer_refs st
  unfold locatoram_index_fetch_tuple locator_index_fetch_tuple newFetchRefOps pagePair
  dsimp only
  rw [hc, hb]
  by_cases hcol : env.locator_is_columnar_layout
      (env.LocatorRouteSynopsisGetTuplePositionForIndexscan route_synopsis).partitionLevel = true
  · simp only [hcol, if_true]
    split_ifs <;> simp [he, hp]
  · simp only [hcol, if_false, Bool.false_eq_true]
    cases st.call_again <;>
      simp only [Bool.not_true, Bool.not_false, if_true, if_false, Bool.false_eq_true] <;>
      split_ifs <;>
      simp [he, hp, fetchRefOps, fetchRefOps_append, FetchEvent.refOps]

theorem heapam_search_row_version_refs (env : FetchEnv) (tid : ItemPointerData)
    (s : SearchState) :
    newFetchRefOps s.events.length (heapam_search_row_version env tid s).2.events =
      pagePair (env.ReadBuffer tid.ip_blkid) := by
  unfold heapam_search_row_version newFetchRefOps pagePair
  dsimp only
  split_ifs <;> simp [fetchRefOps, fetchRefOps_append, FetchEvent.refOps]

theorem locatoram_search_row_version_refs (env : FetchEnv) (route_synopsis : Nat)
    (s : SearchState) :
    newFetchRefOps s.events.length (locatoram_search_row_version env route_synopsis s).2.events =
      if env.locator_is_columnar_layout
          (env.LocatorRouteSynopsisGetTuplePositionForUpdate
            route_synopsis).partitionLevel = true then []
      else
        pagePair (env.ReadPartitionBufferExtended
          { level := (env.LocatorRouteSynopsisGetTuplePositionForUpdate
              route_synopsis).partitionLevel
            number := (env.LocatorRouteSynopsisGetTuplePositionForUpdate
              route_synopsis).partitionNumber
            generation := (env.LocatorRouteSynopsisGetTuplePositionForUpdate
              route_synopsis).partitionGenerationNumber
            block := toBlockNumber
              ((env.LocatorRouteSynopsisGetTuplePositionForUpdate
                route_synopsis).partitionTuplePosition / env.records_per_block) }) := by
  unfold locatoram_search_row_version locator_search_row_version newFetchRefOps pagePair
  dsimp only
  by_cases hcol : env.locator_is_columnar_layout
      (env.LocatorRouteSynopsisGetTuplePositionForUpdate route_synopsis).partitionLevel = true
  · simp [hcol, fetchRefOps]
  · simp only [hcol, if_false, Bool.false_eq_true]
    split_ifs <;> simp [fetchRefOps, fetchRefOps_append, FetchEvent.refOps]

theorem sample_bitmap_block_refs :
    newScanRefOps sampleHeapScanDesc.scan
        (heapam_scan_bitmap_next_block sampleBitmapEnv true sampleSnapshot CmdType.CMD_SELECT 42
          ⟨0, -1, []⟩ sampleHeapScanDesc).2.scan =
      [RefOp.acquire (RefUnit.page 1),
        RefOp.acquire (RefUnit.record 1 1), RefOp.release (RefUnit.record 1 1),
        RefOp.acquire (RefUnit.record 4 1), RefOp.release (RefUnit.record 4 1),
        RefOp.acquire (RefUnit.record 7 1), RefOp.release (RefUnit.record 7 1),
        RefOp.acquire (RefUnit.record 10 1), RefOp.release (RefUnit.record 10 1),
        RefOp.release (RefUnit.page 1)] := by
  decide

/-- C17: in the build with `LOCATOR` and without `USING_LOCK`, the acquisitions
and releases of dual-reference units logged by one call are balanced: replayed
on any set of units held before the call they never release a unit that is not
held and they leave exactly the units held before.  The page unit set up by
`SetPageRefUnit` is acquired once and released once by `heapam_index_fetch_tuple`
on a siro relation (and not touched otherwise), by `locatoram_index_fetch_tuple`
and `locatoram_search_row_version` on their row-layout paths (not touched on the
column-layout paths), by `heapam_search_row_version`, and by
`heapam_scan_bitmap_next_block` on a siro relation for a block that exists,
where it brackets the record units of a lossy page.  In the lossy scan each
locator whose `GetCheckVar` returns a non-zero unit has that unit acquired once
and released once, and no other line pointer touches a unit; the release is
made on every exit of the loop over the two slots, whatever it found, whatever
the command type and the snapshot type, and whatever the chain lookup returns. -/
theorem dual_reference_acquire_release_balanced (fenv : FetchEnv) (benv : BitmapEnv)
    (senv : ScanEnv) (siro modification : Bool) (tid : ItemPointerData)
    (snapshot : SnapshotData) (curr_cmdtype : CmdType) (route_synopsis : Nat)
    (st : IndexFetchState) (s : SearchState) (rel_id : Oid) (tbmres : TBMIterateResult)
    (hscan : HeapScanDescData) (page : BlockNumber) (dp : Page) (offnum : OffsetNumber)
    (p_locator : List Nat) (cv : CheckVar) (r : Bool × ScanState) (sc : ScanState) :
    (newFetchRefOps st.events.length
          (heapam_index_fetch_tuple fenv siro tid snapshot st).2.events =
        (if siro then pagePair (heapam_index_fetch_tuple fenv siro tid snapshot st).2.xs_cbuf
          else []) ∧
      refBalanced (newFetchRefOps st.events.length
        (heapam_index_fetch_tuple fenv siro tid snapshot st).2.events)) ∧
    (newFetchRefOps st.events.length
          (locatoram_index_fetch_tuple fenv curr_cmdtype route_synopsis snapshot st).2.events =
        (if fenv.locator_is_columnar_layout
            (fenv.LocatorRouteSynopsisGetTuplePositionForIndexscan
              route_synopsis).partitionLevel = true then []
          else
            pagePair (locatoram_index_fetch_tuple fenv curr_cmdtype route_synopsis snapshot
              st).2.xs_cbuf) ∧
      refBalanced (newFetchRefOps st.events.length
        (locatoram_index_fetch_tuple fenv curr_cmdtype route_synopsis snapshot st).2.events)) ∧
    (newFetchRefOps s.events.length (heapam_search_row_version fenv tid s).2.events =
        pagePair (fenv.ReadBuffer tid.ip_blkid) ∧
      refBalanced (newFetchRefOps s.events.length
        (heapam_search_row_version fenv tid s).2.events)) ∧
    (newFetchRefOps s.events.length
          (locatoram_search_row_version fenv route_synopsis s).2.events =
        (if fenv.locator_is_columnar_layout
            (fenv.LocatorRouteSynopsisGetTuplePositionForUpdate
              route_synopsis).partitionLevel = true then []
          else
            pagePair (fenv.ReadPartitionBufferExtended
              { level := (fenv.LocatorRouteSynopsisGetTuplePositionForUpdate
                  route_synopsis).partitionLevel
                number := (fenv.LocatorRouteSynopsisGetTuplePositionForUpdate
                  route_synopsis).partitionNumber
                generation := (fenv.LocatorRouteSynopsisGetTuplePositionForUpdate
                  route_synopsis).partitionGenerationNumber
                block := toBlockNumber
                  ((fenv.LocatorRouteSynopsisGetTuplePositionForUpdate
                    route_synopsis).partitionTuplePosition / fenv.records_per_block) })) ∧
      refBalanced (newFetchRefOps s.events.length
        (locatoram_search_row_version fenv route_synopsis s).2.events)) ∧
    (newScanRefOps hscan.scan
          (heapam_scan_bitmap_next_block benv siro snapshot curr_cmdtype rel_id tbmres
            hscan).2.scan =
        bitmapBlockRefOps benv siro tbmres hscan ∧
      refBalanced (newScanRefOps hscan.scan
        (heapam_scan_bitmap_next_block benv siro snapshot curr_cmdtype rel_id tbmres
          hscan).2.scan)) ∧
    (newScanRefOps sc (scanLocator senv snapshot modification rel_id page dp offnum sc) =
        recordPair senv dp offnum ∧
      refBalanced
        (newScanRefOps sc (scanLocator senv snapshot modification rel_id page dp offnum sc))) ∧
    newScanRefOps r.2 (finishLocator senv snapshot modification rel_id p_locator offnum cv r) =
      (if cv.rec_ref_unit ≠ 0 then [RefOp.release (RefUnit.record offnum cv.rec_ref_unit)]
        else []) := by
  have hbitmap : refBalanced (bitmapBlockRefOps benv siro tbmres hscan) := by
    unfold bitmapBlockRefOps
    dsimp only
    split_ifs
    · exact refBalanced_nil
    · exact refBalanced_bracket _ refBalanced_nil
    · exact refBalanced_bracket _ (refBalanced_recordPairs _ _ _)
  refine ⟨⟨heapam_index_fetch_tuple_refs fenv siro tid snapshot st, ?_⟩,
    ⟨locatoram_index_fetch_tuple_refs fenv curr_cmdtype route_synopsis snapshot st, ?_⟩,
    ⟨heapam_search_row_version_refs fenv tid s, ?_⟩,
    ⟨locatoram_search_row_version_refs fenv route_synopsis s, ?_⟩,
    ⟨scanRefs_new
        (heapam_scan_bitmap_next_block_refs benv siro snapshot curr_cmdtype rel_id tbmres hscan),
      ?_⟩,
    ⟨scanRefs_new (scanLocator_refs senv snapshot modification rel_id page dp offnum sc), ?_⟩,
    scanRefs_new (finishLocator_refs senv snapshot modification rel_id p_locator offnum cv r)⟩
  · rw [heapam_index_fetch_tuple_refs]
    split_ifs
    · exact refBalanced_pagePair _
    · exact refBalanced_nil
  · rw [locatoram_index_fetch_tuple_refs]
    split_ifs
    · exact refBalanced_nil
    · exact refBalanced_pagePair _
  · rw [heapam_search_row_version_refs]
    exact refBalanced_pagePair _
  · rw [locatoram_search_row_version_refs]
    split_ifs
    · exact refBalanced_nil
    · exact refBalanced_pagePair _
  · rw [scanRefs_new
      (heapam_scan_bitmap_next_block_refs benv siro snapshot curr_cmdtype rel_id tbmres hscan)]
    exact hbitmap
  · rw [scanRefs_new (scanLocator_refs senv snapshot modification rel_id page dp offnum sc)]
    exact refBalanced_recordPair _ _ _

/-! ## Emission of the entries of a block -/

theorem heapam_scan_bitmap_next_tuple_out (env : BitmapEnv) (siro : Bool) (rd_id : Oid)
    (hscan : HeapScanDescData) (slot : Option HeapTupleData) (c n : Nat)
    (hc : hscan.rs_cindex = c) (hn : hscan.rs_ntuples = n) (hge : n ≤ c) :
    heapam_scan_bitmap_next_tuple env siro rd_id hscan slot = (false, hscan, slot) := by
  unfold heapam_scan_bitmap_next_tuple
  rw [if_pos]
  right
  rw [hc, hn]
  exact_mod_cast hge

theorem heapam_scan_bitmap_next_tuple_in (env : BitmapEnv) (siro : Bool) (rd_id : Oid)
    (hscan : HeapScanDescData) (slot : Option HeapTupleData) (c n : Nat)
    (hc : hscan.rs_cindex = c) (hn : hscan.rs_ntuples = n) (hlt : c < n) :
    (heapam_scan_bitmap_next_tuple env siro rd_id hscan slot).1 = true ∧
      (heapam_scan_bitmap_next_tuple env siro rd_id hscan slot).2.2 =
        entryTuple env siro rd_id hscan c ∧
      (heapam_scan_bitmap_next_tuple env siro rd_id hscan slot).2.1.rs_cindex = (c + 1 : Nat) ∧
      (heapam_scan_bitmap_next_tuple env siro rd_id hscan slot).2.1.rs_ntuples = n ∧
      (heapam_scan_bitmap_next_tuple env siro rd_id hscan slot).2.1.rs_cbuf = hscan.rs_cbuf ∧
      (heapam_scan_bitmap_next_tuple env siro rd_id hscan slot).2.1.rs_cblock =
        hscan.rs_cblock ∧
      (heapam_scan_bitmap_next_tuple env siro rd_id hscan slot).2.1.scan.rs_vistuples =
        hscan.scan.rs_vistuples ∧
      (heapam_scan_bitmap_next_tuple env siro rd_id hscan slot).2.1.scan.rs_vistuples_copied =
        (if siro then Function.update hscan.scan.rs_vistuples_copied c none
          else hscan.scan.rs_vistuples_copied) := by
  have hcond : ¬(hscan.rs_cindex < 0 ∨ hscan.rs_cindex ≥ hscan.rs_ntuples) := by
    rw [hc, hn]
    push_neg
    exact ⟨by positivity, by exact_mod_cast hlt⟩
  have hidx : hscan.rs_cindex.toNat = c := by
    rw [hc]
    exact Int.toNat_natCast c
  unfold heapam_scan_bitmap_next_tuple entryTuple
  rw [if_neg hcond]
  dsimp only
  rw [hidx]
  cases siro
  · simp [hc, hn]
  · simp [hc, hn]

theorem entryTuple_congr (env : BitmapEnv) (siro : Bool) (rd_id : Oid)
    (h1 h2 : HeapScanDescData) (i : Nat) (hb : h1.rs_cbuf = h2.rs_cbuf)
    (hk : h1.rs_cblock = h2.rs_cblock) (hv : h1.scan.rs_vistuples = h2.scan.rs_vistuples)
    (hcp : h1.scan.rs_vistuples_copied i = h2.scan.rs_vistuples_copied i) :
    entryTuple env siro rd_id h1 i = entryTuple env siro rd_id h2 i := by
  unfold entryTuple
  rw [hb, hk, hv, hcp]

theorem bitmapNextTuples_spec (env : BitmapEnv) (siro : Bool) (rd_id : Oid) :
    ∀ (k : Nat) (hscan : HeapScanDescData) (slot : Option HeapTupleData) (c n : Nat),
      hscan.rs_cindex = c → hscan.rs_ntuples = n → c ≤ n →
      (bitmapNextTuples env siro rd_id k hscan slot).1.length = k ∧
        (∀ j, j < k →
          (bitmapNextTuples env siro rd_id k hscan slot).1[j]? =
            some (if c + j < n then (true, entryTuple env siro rd_id hscan (c + j))
              else (false, if c < n then entryTuple env siro rd_id hscan (n - 1) else slot))) ∧
        (bitmapNextTuples env siro rd_id k hscan slot).2.1.rs_cindex = (min (c + k) n : Nat) ∧
        (bitmapNextTuples env siro rd_id k hscan slot).2.1.rs_ntuples = n ∧
        (siro = true → ∀ i, c ≤ i → i < min (c + k) n →
          (bitmapNextTuples env siro rd_id k hscan slot).2.1.scan.rs_vistuples_copied i = none) ∧
        (∀ i, i < c ∨ min (c + k) n ≤ i →
          (bitmapNextTuples env siro rd_id k hscan slot).2.1.scan.rs_vistuples_copied i =
            hscan.scan.rs_vistuples_copied i) := by
  intro k
  induction k with
  | zero =>
    intro hscan slot c n hc hn hle
    refine ⟨rfl, fun j hj => absurd hj (Nat.not_lt_zero j), ?_, hn, ?_, fun _ _ => rfl⟩
    · show hscan.rs_cindex = _
      rw [hc, Nat.add_zero, Nat.min_eq_left hle]
    · intro _ i h1 h2
      rw [Nat.add_zero, Nat.min_eq_left hle] at h2
      omega
  | succ k ih =>
    intro hscan slot c n hc hn hle
    have hmin : min (c + 1 + k) n = min (c + (k + 1)) n := by
      rw [Nat.add_assoc, Nat.add_comm 1 k]
    by_cases hlt : c < n
    · obtain ⟨r1, r2, r3, r4, r5, r6, r7, r8⟩ :=
        heapam_scan_bitmap_next_tuple_in env siro rd_id hscan slot c n hc hn hlt
      obtain ⟨i0, i1, i2, i3, i4, i5⟩ :=
        ih _ (heapam_scan_bitmap_next_tuple env siro rd_id hscan slot).2.2 (c + 1) n r3 r4 hlt
      rw [hmin] at i2 i4 i5
      have hcongr : ∀ i, c < i →
          entryTuple env siro rd_id
            (heapam_scan_bitmap_next_tuple env siro rd_id hscan slot).2.1 i =
          entryTuple env siro rd_id hscan i := by
        intro i hi
        refine entryTuple_congr env siro rd_id _ _ i r5 r6 r7 ?_
        rw [r8]
        split_ifs
        · exact Function.update_noteq (by omega) _ _
        · rfl
      refine ⟨?_, ?_, i2, i3, ?_, ?_⟩
      · show (_ :: _).length = _
        rw [List.length_cons, i0]
      · intro j hj
        show (_ :: _)[j]? = _
        cases j with
        | zero =>
          rw [List.getElem?_cons_zero, r1, r2, Nat.add_zero, if_pos hlt]
        | succ j =>
          rw [List.getElem?_cons_succ, i1 j (by omega)]
          by_cases hj2 : c + 1 + j < n
          · rw [if_pos hj2, if_pos (show c + (j + 1) < n by omega),
              hcongr _ (show c < c + 1 + j by omega), Nat.add_assoc, Nat.add_comm 1 j]
          · rw [if_neg hj2, if_neg (show ¬c + (j + 1) < n by omega), if_pos hlt]
            by_cases hn1 : c + 1 < n
            · rw [if_pos hn1, hcongr _ (show c < n - 1 by omega)]
            · rw [if_neg hn1, r2]
              have hnc : n - 1 = c := by omega
              rw [hnc]
      · intro hs i h1 h2
        show (bitmapNextTuples env siro rd_id k _ _).2.1.scan.rs_vistuples_copied i = none
        by_cases hi : i = c
        · rw [i5 i (Or.inl (by omega)), r8, if_pos hs, hi, Function.update_same]
        · exact i4 hs i (by omega) h2
      · intro i hi
        show (bitmapNextTuples env siro rd_id k _ _).2.1.scan.rs_vistuples_copied i = _
        have hmin2 : c + 1 ≤ min (c + (k + 1)) n := by
          rw [Nat.le_min]
          exact ⟨by omega, hlt⟩
        rw [i5 i (by omega), r8]
        split_ifs
        · exact Function.update_noteq (by omega) _ _
        · rfl
    · have hge : n ≤ c := by omega
      have hcn : c = n := by omega
      have hout := heapam_scan_bitmap_next_tuple_out env siro rd_id hscan slot c n hc hn hge
      obtain ⟨i0, i1, i2, i3, i4, i5⟩ := ih hscan slot c n hc hn hle
      have hm1 : min (c + k) n = n := Nat.min_eq_right (by omega)
      have hm2 : min (c + (k + 1)) n = n := Nat.min_eq_right (by omega)
      rw [hm1] at i2 i5
      rw [hm2]
      refine ⟨?_, ?_, ?_, ?_, ?_, ?_⟩
      · show (_ :: _).length = _
        rw [hout, List.length_cons, i0]
      · intro j hj
        show (_ :: _)[j]? = _
        rw [hout]
        cases j with
        | zero =>
          rw [List.getElem?_cons_zero, Nat.add_zero, if_neg hlt, if_neg hlt]
        | succ j =>
          rw [List.getElem?_cons_succ, i1 j (by omega), if_neg (show ¬c + j < n by omega),
            if_neg (show ¬c + (j + 1) < n by omega)]
      · show (bitmapNextTuples env siro rd_id k _ _).2.1.rs_cindex = _
        rw [hout]
        exact i2
      · show (bitmapNextTuples env siro rd_id k _ _).2.1.rs_ntuples = _
        rw [hout]
        exact i3
      · intro hs i h1 h2
        omega
      · intro i hi
        show (bitmapNextTuples env siro rd_id k _ _).2.1.scan.rs_vistuples_copied i = _
        rw [hout]
        exact i5 i hi

/-- C21: `heapam_scan_bitmap_next_block` leaves `rs_cindex = 0` and `rs_ntuples`
equal to the number of entries it stored (none for a block past the end).  From
a descriptor with `rs_cindex = 0` and `rs_ntuples = n`, any number `k` of
successive calls of `heapam_scan_bitmap_next_tuple` behaves as follows: call
`j < n` returns true and leaves entry `j` in the slot (for a siro relation the
copy stored in `rs_vistuples_copied[j]`, otherwise the tuple at offset
`rs_vistuples[j]` of the current block), every call `j >= n` returns false and
leaves the slot as it was; after the calls `rs_cindex = min k n`, for a siro
relation the copies of the entries emitted are cleared and the others are
untouched; and once `n` calls were made a further call returns false and
changes nothing. -/
theorem bitmap_next_tuple_emits_entries (env : BitmapEnv) (siro : Bool)
    (snapshot : SnapshotData) (curr_cmdtype : CmdType) (rel_id rd_id : Oid)
    (tbmres : TBMIterateResult) (hscan0 hscan : HeapScanDescData)
    (slot : Option HeapTupleData) (n k : Nat)
    (hc : hscan.rs_cindex = 0) (hn : hscan.rs_ntuples = n) :
    ((heapam_scan_bitmap_next_block env siro snapshot curr_cmdtype rel_id tbmres
          hscan0).2.rs_cindex = 0 ∧
      (heapam_scan_bitmap_next_block env siro snapshot curr_cmdtype rel_id tbmres
          hscan0).2.rs_ntuples =
        if tbmres.blockno ≥ hscan0.rs_nblocks then 0
        else ((heapam_scan_bitmap_next_block env siro snapshot curr_cmdtype rel_id tbmres
          hscan0).2.scan.ntup : Int)) ∧
    (bitmapNextTuples env siro rd_id k hscan slot).1.length = k ∧
    (∀ j, j < k → j < n →
      (bitmapNextTuples env siro rd_id k hscan slot).1[j]? =
        some (true, entryTuple env siro rd_id hscan j)) ∧
    (∀ j, j < k → n ≤ j →
      (bitmapNextTuples env siro rd_id k hscan slot).1[j]? =
        some (false, if 0 < n then entryTuple env siro rd_id hscan (n - 1) else slot)) ∧
    (bitmapNextTuples env siro rd_id k hscan slot).2.1.rs_cindex = (min k n : Nat) ∧
    (siro = true → ∀ i, i < min k n →
      (bitmapNextTuples env siro rd_id k hscan slot).2.1.scan.rs_vistuples_copied i = none) ∧
    (∀ i, min k n ≤ i →
      (bitmapNextTuples env siro rd_id k hscan slot).2.1.scan.rs_vistuples_copied i =
        hscan.scan.rs_vistuples_copied i) ∧
    (n ≤ k →
      heapam_scan_bitmap_next_tuple env siro rd_id
          (bitmapNextTuples env siro rd_id k hscan slot).2.1
          (bitmapNextTuples env siro rd_id k hscan slot).2.2 =
        (false, (bitmapNextTuples env siro rd_id k hscan slot).2.1,
          (bitmapNextTuples env siro rd_id k hscan slot).2.2)) := by
  obtain ⟨s0, s1, s2, s3, s4, s5⟩ :=
    bitmapNextTuples_spec env siro rd_id k hscan slot 0 n (by simpa using hc) hn (Nat.zero_le n)
  rw [Nat.zero_add] at s2 s4 s5
  refine ⟨⟨?_, ?_⟩, s0, ?_, ?_, s2, ?_, ?_, ?_⟩
  · unfold heapam_scan_bitmap_next_block
    dsimp only
    split_ifs <;> rfl
  · unfold heapam_scan_bitmap_next_block
    dsimp only
    split_ifs <;> rfl
  · intro j hj hjn
    rw [s1 j hj, Nat.zero_add, if_pos hjn]
  · intro j hj hjn
    rw [s1 j hj, Nat.zero_add, if_neg (show ¬j < n by omega)]
  · intro hs i hi
    exact s4 hs i (Nat.zero_le i) hi
  · intro i hi
    exact s5 i (Or.inr hi)
  · intro hk
    refine heapam_scan_bitmap_next_tuple_out env siro rd_id _ _ (min k n) n s2 s3 ?_
    rw [Nat.min_eq_right hk]

/-- Witness of C21: the lossy scan of the sample page leaves two entries, and
three calls emit them in order and then report the end of the block. -/
theorem bitmap_next_tuple_emits_entries_witness :
    sampleLoadedBlock.rs_cindex = 0 ∧ sampleLoadedBlock.rs_ntuples = (2 : Nat) ∧
      (bitmapNextTuples sampleBitmapEnv true 42 3 sampleLoadedBlock none).1 =
        [(true, some { t_len := 2, t_self := ⟨0, 1⟩, t_tableOid := 42, t_data := some [4, 2] }),
          (true, some { t_len := 1, t_self := ⟨0, 4⟩, t_tableOid := 42, t_data := some [1] }),
          (false, some { t_len := 1, t_self := ⟨0, 4⟩, t_tableOid := 42, t_data := some [1] })] ∧
      (bitmapNextTuples sampleBitmapEnv true 42 3 sampleLoadedBlock none).1.length = 3 :=
  ⟨by decide, by decide, by decide,
    (bitmap_next_tuple_emits_entries sampleBitmapEnv true sampleSnapshot CmdType.CMD_SELECT 42 42
      ⟨0, -1, []⟩ sampleHeapScanDesc sampleLoadedBlock none 2 3 (by decide) (by decide)).2.1⟩

/-! ## Properties of the foreign table callbacks -/

theorem IterateForeignScan_key_first (env : LsmEnv) (relationId : Oid) (st : ForeignScanState)
    (hk : st.fdw_state.isKeyBased = true) (hd : st.fdw_state.done = false) :
    (IterateForeignScan env relationId st).slot =
        (env.LsmLookup relationId (st.fdw_state.key.getD [])).map
          (fun v => (st.fdw_state.key.getD [], v)) ∧
      (IterateForeignScan env relationId st).events =
        st.events ++ [LsmEvent.lookup (st.fdw_state.key.getD [])] ∧
      (IterateForeignScan env relationId st).fdw_state.isKeyBased = true ∧
      (IterateForeignScan env relationId st).fdw_state.done = true := by
  unfold IterateForeignScan
  dsimp only
  rw [hk, hd]
  cases env.LsmLookup relationId (st.fdw_state.key.getD []) <;> simp

theorem IterateForeignScan_key_done (env : LsmEnv) (relationId : Oid) (st : ForeignScanState)
    (hk : st.fdw_state.isKeyBased = true) (hd : st.fdw_state.done = true) :
    IterateForeignScan env relationId st = { st with slot := none } := by
  unfold IterateForeignScan
  dsimp only
  rw [hk, hd]
  simp

theorem iterateForeignScans_key_done (env : LsmEnv) (relationId : Oid) :
    ∀ (n : Nat) (st : ForeignScanState), st.fdw_state.isKeyBased = true →
      st.fdw_state.done = true →
      (iterateForeignScans env relationId n st).1 = List.replicate n none ∧
        (iterateForeignScans env relationId n st).2.events = st.events := by
  intro n
  induction n with
  | zero =>
    intro st _ _
    exact ⟨rfl, rfl⟩
  | succ n ih =>
    intro st hk hd
    have h1 := IterateForeignScan_key_done env relationId st hk hd
    obtain ⟨i1, i2⟩ := ih { st with slot := none } hk hd
    refine ⟨?_, ?_⟩
    · show _ :: _ = _
      rw [h1, i1, List.replicate_succ]
    · show (iterateForeignScans env relationId n _).2.events = _
      rw [h1, i2]

theorem GetKeyBasedQual_cases (env : LsmEnv) (node : QualNode) (rs : TableReadState) :
    GetKeyBasedQual env node rs = Except.ok rs ∨
      (∃ k, GetKeyBasedQual env node rs =
        Except.ok { rs with isKeyBased := true, key := some k }) ∨
      ∃ e, GetKeyBasedQual env node rs = Except.error e := by
  unfold GetKeyBasedQual
  repeat' first | split | dsimp only
  all_goals first
    | exact Or.inl rfl
    | exact Or.inr (Or.inl ⟨_, rfl⟩)
    | exact Or.inr (Or.inr ⟨_, rfl⟩)

theorem GetKeyBasedQual_done (env : LsmEnv) (node : QualNode) (rs rs1 : TableReadState)
    (h : GetKeyBasedQual env node rs = Except.ok rs1) : rs1.done = rs.done := by
  rcases GetKeyBasedQual_cases env node rs with h1 | ⟨k, h1⟩ | ⟨e, h1⟩
  · rw [h1] at h
    cases h
    rfl
  · rw [h1] at h
    cases h
    rfl
  · rw [h1] at h
    cases h

theorem scanQuals_done (env : LsmEnv) :
    ∀ (quals : List QualNode) (rs rs1 : TableReadState),
      scanQuals env quals rs = Except.ok rs1 → rs1.done = rs.done := by
  intro quals
  induction quals with
  | nil =>
    intro rs rs1 h
    cases h
    rfl
  | cons node rest ih =>
    intro rs rs1 h
    unfold scanQuals at h
    cases hq : GetKeyBasedQual env node rs with
    | error e =>
      rw [hq] at h
      cases h
    | ok rs2 =>
      rw [hq] at h
      dsimp only at h
      have h2 := GetKeyBasedQual_done env node rs rs2 hq
      split_ifs at h
      · cases h
        exact h2
      · rw [ih rs2 rs1 h, h2]

theorem BeginForeignScan_done (env : LsmEnv) (relationId : Oid) (quals : List QualNode)
    (explainOnly : Bool) (operationId : Nat) (st : ForeignScanState) (id : Nat)
    (h : BeginForeignScan env relationId quals explainOnly operationId = Except.ok (st, id)) :
    st.fdw_state.done = false ∧ st.events.filter LsmEvent.isLookup = [] ∧ st.slot = none := by
  unfold BeginForeignScan at h
  dsimp only at h
  split_ifs at h with he
  · cases h
    exact ⟨rfl, rfl, rfl⟩
  · cases hq : scanQuals env quals
        { isKeyBased := false, operationId := 0, done := false, key := none, hasNext := false
          buf := [], bufLen := 0, next := 0 } with
    | error e =>
      rw [hq] at h
      cases h
    | ok rs =>
      rw [hq] at h
      dsimp only at h
      have hd := scanQuals_done env quals _ rs hq
      split_ifs at h
      · cases h
        exact ⟨hd, rfl, rfl⟩
      · cases h
        exact ⟨hd, rfl, rfl⟩

/-- C22: in a key-based foreign scan (`isKeyBased` set, `done` still false, which
is how `BeginForeignScan` leaves the state when it pushed a qualifier down), any
number `n + 1` of `IterateForeignScan` calls makes exactly one call to the
store, the lookup of the key, and the first call makes it; the slot returned by
the first call holds a row exactly when the lookup found the key (the row built
from the key and the value found), and every later call returns the slot empty.
`BeginForeignScan` itself always leaves `done` false and makes no lookup. -/
theorem key_scan_looks_up_once (env : LsmEnv) (relationId : Oid) (st : ForeignScanState)
    (n : Nat) (hk : st.fdw_state.isKeyBased = true) (hd : st.fdw_state.done = false) :
    (iterateForeignScans env relationId (n + 1) st).1 =
        ((env.LsmLookup relationId (st.fdw_state.key.getD [])).map
          fun v => (st.fdw_state.key.getD [], v)) :: List.replicate n none ∧
      (iterateForeignScans env relationId (n + 1) st).2.events =
        st.events ++ [LsmEvent.lookup (st.fdw_state.key.getD [])] ∧
      (IterateForeignScan env relationId st).events =
        st.events ++ [LsmEvent.lookup (st.fdw_state.key.getD [])] ∧
      ((IterateForeignScan env relationId st).slot.isSome =
        (env.LsmLookup relationId (st.fdw_state.key.getD [])).isSome) ∧
      (∀ (quals : List QualNode) (explainOnly : Bool) (operationId id : Nat)
          (b : ForeignScanState),
        BeginForeignScan env relationId quals explainOnly operationId = Except.ok (b, id) →
          b.fdw_state.done = false ∧ b.events.filter LsmEvent.isLookup = [] ∧
            b.slot = none) := by
  obtain ⟨f1, f2, f3, f4⟩ := IterateForeignScan_key_first env relationId st hk hd
  obtain ⟨d1, d2⟩ := iterateForeignScans_key_done env relationId n
    (IterateForeignScan env relationId st) f3 f4
  refine ⟨?_, ?_, f2, ?_, ?_⟩
  · show _ :: _ = _
    rw [f1, d1]
  · show (iterateForeignScans env relationId n _).2.events = _
    rw [d2, f2]
  · rw [f1]
    cases env.LsmLookup relationId (st.fdw_state.key.getD []) <;> rfl
  · intro quals explainOnly operationId id b hb
    exact BeginForeignScan_done env relationId quals explainOnly operationId b id hb

/-- Witness of C22: the scan for `column 1 = 1` on the sample store. -/
theorem key_scan_looks_up_once_witness :
    (BeginForeignScan sampleLsmEnv 5 [QualNode.opExpr 96 [QualNode.var 1, QualNode.const 1 23]]
        false 0).toOption = some (sampleKeyScan, 0) ∧
      (iterateForeignScans sampleLsmEnv 5 3 sampleKeyScan).1 =
        [some ([1], [7, 7]), none, none] ∧
      (iterateForeignScans sampleLsmEnv 5 3 sampleKeyScan).2.events = [LsmEvent.lookup [1]] :=
  ⟨by decide, by decide,
    (key_scan_looks_up_once sampleLsmEnv 5 sampleKeyScan 2 rfl rfl).2.1⟩

theorem serializeColumns_tail (env : LsmEnv) :
    ∀ (cols : List (Nat × Bool)) (index : Nat) (key val : List Nat),
      serializeColumns env (index + 1) cols key val =
        Except.ok (key, val ++
          ((cols.enumFrom (index + 1)).map fun c =>
            if c.2.2 then env.SerializeNullAttribute c.2.1
            else env.SerializeAttribute c.1 c.2.1).flatten) := by
  intro cols
  induction cols with
  | nil =>
    intro index key val
    simp [serializeColumns]
  | cons c rest ih =>
    intro index key val
    obtain ⟨datum, isnull⟩ := c
    unfold serializeColumns
    cases isnull
    · simp [ih]
    · simp [ih]

/-- C23: for a row with at least one column, `SerializeTuple` appends the
serialization of column 0 to the key buffer and nothing else to it, and appends
to the value buffer the serializations of columns `1 .. n-1` in increasing
column order, a null column contributing what `SerializeNullAttribute` appends;
when column 0 is null it raises the error with the message
"LSM: first column cannot be null!" before anything is appended to either
buffer. -/
theorem serialize_tuple_key_and_value (env : LsmEnv) (datum0 : Nat) (isnull0 : Bool)
    (rest : List (Nat × Bool)) (key val : List Nat) :
    SerializeTuple env ((datum0, isnull0) :: rest) key val =
        (if isnull0 then Except.error (LsmError.firstColumnNull, key, val)
          else Except.ok (key ++ env.SerializeAttribute 0 datum0,
            val ++ valueColumnBytes env rest)) ∧
      LsmError.firstColumnNull.errmsg = "LSM: first column cannot be null!" := by
  refine ⟨?_, rfl⟩
  unfold SerializeTuple serializeColumns valueColumnBytes
  cases isnull0
  · simp [serializeColumns_tail]
  · simp

/-- The code at the failing input of C24: a key-based scan that has returned its
row returns nothing after `ReScanForeignScan`, while a scan begun afresh returns
the row; a batch scan that has read its record likewise stays at the end. -/
theorem rescan_does_not_restart :
    (IterateForeignScan sampleLsmEnv 5 sampleKeyScan).slot = some ([1], [7, 7]) ∧
      (IterateForeignScan sampleLsmEnv 5
        (ReScanForeignScan (IterateForeignScan sampleLsmEnv 5 sampleKeyScan))).slot = none ∧
      (IterateForeignScan sampleLsmEnv 5 sampleBatchScan).slot = some ([1], [7, 7]) ∧
      (IterateForeignScan sampleLsmEnv 5
        (ReScanForeignScan (IterateForeignScan sampleLsmEnv 5 sampleBatchScan))).slot = none := by
  decide

/-! ## Giving up during the forward traversal -/

/-- C25: take a call of `heapam_tuple_lock` that, `k` passes after its entry,
stands in the state `s`.  If it stands inside the forward traversal (top of the
`for (;;)` loop, `*tid` not the moved-partitions marker), the call returns
`TM_Deleted` on that pass, without a further lock attempt, when the version it
fetches has a creator other than `priorXmax` (whether or not it passes the
dirty snapshot), when the referenced slot is empty, and when the version fails
the dirty snapshot and its forward pointer is its own row identifier; the next
pass is a lock attempt only if the pass fetched a version that passes the dirty
snapshot and whose creator id equals `priorXmax`, and the attempt is made on
that version; `priorXmax` is the updater id recorded on the version the
traversal came from (`tmfd->xmax` of the lock attempt for the first hop,
`HeapTupleHeaderGetUpdateXid` of the version left for every later hop).  If it
stands at a lock attempt and, with `TUPLE_LOCK_FLAG_FIND_LAST_VERSION` set, the
attempt reports `TM_Updated` with a forward pointer equal to the locked row's
own identifier, the call returns `TM_Deleted`; this holds in particular for the
first attempt of the call. -/
theorem tuple_lock_traversal_gives_up (env : LockEnv) (fuel k : Nat)
    (tid tuple_t_self : ItemPointerData) (cid : CommandId) (mode : LockTupleMode)
    (wait_policy : LockWaitPolicy) (flags : Nat) (tmfd : TM_FailureData) (s : LockState)
    (hreach : lockPasses env cid mode wait_policy flags k (lockInit tid tuple_t_self tmfd)
      = some s) :
    (s.pc = LockPc.fetch_loop → ItemPointerIndicatesMovedPartitions s.tid = false →
      (∀ hdr dx1 dx2, env.heap_fetch s.clock s.tid = HeapFetchResult.visible hdr dx1 dx2 →
        hdr.xmin ≠ s.priorXmax →
          ∃ t, heapam_tuple_lock env (k + (fuel + 1)) tid tuple_t_self cid mode wait_policy
              flags tmfd = some (Except.ok TM_Result.TM_Deleted, t) ∧
            t.attempts = s.attempts) ∧
      (∀ hdr, env.heap_fetch s.clock s.tid = HeapFetchResult.invisible hdr →
        hdr.xmin ≠ s.priorXmax →
          ∃ t, heapam_tuple_lock env (k + (fuel + 1)) tid tuple_t_self cid mode wait_policy
              flags tmfd = some (Except.ok TM_Result.TM_Deleted, t) ∧
            t.attempts = s.attempts) ∧
      (env.heap_fetch s.clock s.tid = HeapFetchResult.missing →
          ∃ t, heapam_tuple_lock env (k + (fuel + 1)) tid tuple_t_self cid mode wait_policy
              flags tmfd = some (Except.ok TM_Result.TM_Deleted, t) ∧
            t.attempts = s.attempts) ∧
      (∀ hdr, env.heap_fetch s.clock s.tid = HeapFetchResult.invisible hdr →
        hdr.t_ctid = s.tid →
          ∃ t, heapam_tuple_lock env (k + (fuel + 1)) tid tuple_t_self cid mode wait_policy
              flags tmfd = some (Except.ok TM_Result.TM_Deleted, t) ∧
            t.attempts = s.attempts) ∧
      (∀ u, lockPasses env cid mode wait_policy flags (k + 1) (lockInit tid tuple_t_self tmfd)
          = some u →
        u.pc = LockPc.tuple_lock_retry →
          u.tid = s.tid ∧
            ∃ hdr dx1 dx2, env.heap_fetch s.clock s.tid = HeapFetchResult.visible hdr dx1 dx2 ∧
              hdr.xmin = s.priorXmax) ∧
      (∀ u, lockPasses env cid mode wait_policy flags (k + 1) (lockInit tid tuple_t_self tmfd)
          = some u →
        u.tid ≠ s.tid →
          ∃ hdr, env.heap_fetch s.clock s.tid = HeapFetchResult.invisible hdr ∧
            hdr.xmin = s.priorXmax ∧ u.tid = hdr.t_ctid ∧ u.priorXmax = hdr.update_xid)) ∧
    (s.pc = LockPc.tuple_lock_retry →
      (∀ u, lockPasses env cid mode wait_policy flags (k + 1) (lockInit tid tuple_t_self tmfd)
          = some u →
        u.pc = LockPc.fetch_loop ∧ u.tid = u.tmfd.ctid ∧ u.priorXmax = u.tmfd.xmax) ∧
      ∀ a x m,
        env.heap_lock_tuple s.clock s.tid cid mode wait_policy
            (flags &&& TUPLE_LOCK_FLAG_LOCK_UPDATE_IN_PROGRESS != 0) = Except.ok a →
        a.result = TM_Result.TM_Updated →
        flags &&& TUPLE_LOCK_FLAG_FIND_LAST_VERSION ≠ 0 →
        a.failure = some (s.tid, x, m) →
          ∃ t, heapam_tuple_lock env (k + (fuel + 1)) tid tuple_t_self cid mode wait_policy
              flags tmfd = some (Except.ok TM_Result.TM_Deleted, t) ∧
            t.attempts = s.attempts + 1 ∧ t.hops = s.hops) ∧
    (∀ x m,
      env.heap_lock_tuple 0 tid cid mode wait_policy
          (flags &&& TUPLE_LOCK_FLAG_LOCK_UPDATE_IN_PROGRESS != 0)
        = Except.ok { result := TM_Result.TM_Updated, failure := some (tid, x, m) } →
      flags &&& TUPLE_LOCK_FLAG_FIND_LAST_VERSION ≠ 0 →
        ∃ t, heapam_tuple_lock env (fuel + 1) tid tuple_t_self cid mode wait_policy flags tmfd
            = some (Except.ok TM_Result.TM_Deleted, t) ∧
          t.attempts = 1 ∧ t.hops = 0 ∧ t.trace = [LockEvent.lockTuple tid]) := by
  have hrun : heapam_tuple_lock env (k + (fuel + 1)) tid tuple_t_self cid mode wait_policy
      flags tmfd = lockRun env cid mode wait_policy flags (fuel + 1) s := by
    unfold heapam_tuple_lock
    exact lockRun_after_passes env cid mode wait_policy flags k (fuel + 1) _ s hreach
  refine ⟨?_, ?_, ?_⟩
  · intro hpc hmoved
    have hls := lockStep_fetch env cid mode wait_policy flags s hpc
    refine ⟨?_, ?_, ?_, ?_, ?_, ?_⟩
    · intro hdr dx1 dx2 hf hx
      have hstep : lockStep env cid mode wait_policy flags s =
          LockStep.ret TM_Result.TM_Deleted
            { s with
              t_self := s.tid
              clock := s.clock + 1
              trace := s.trace ++ [LockEvent.fetch s.tid s.priorXmax] } := by
        rw [hls]
        simp [fetchStep, hmoved, hf, hx]
      exact ⟨_, hrun.trans (lockRun_of_ret _ _ _ _ _ fuel _ _ _ hstep), rfl⟩
    · intro hdr hf hx
      have hstep : lockStep env cid mode wait_policy flags s =
          LockStep.ret TM_Result.TM_Deleted
            { s with
              t_self := s.tid
              clock := s.clock + 1
              trace := s.trace ++ [LockEvent.fetch s.tid s.priorXmax] } := by
        rw [hls]
        simp [fetchStep, hmoved, hf, hx]
      exact ⟨_, hrun.trans (lockRun_of_ret _ _ _ _ _ fuel _ _ _ hstep), rfl⟩
    · intro hf
      have hstep : lockStep env cid mode wait_policy flags s =
          LockStep.ret TM_Result.TM_Deleted
            { s with
              t_self := s.tid
              clock := s.clock + 1
              trace := s.trace ++ [LockEvent.fetch s.tid s.priorXmax] } := by
        rw [hls]
        simp [fetchStep, hmoved, hf]
      exact ⟨_, hrun.trans (lockRun_of_ret _ _ _ _ _ fuel _ _ _ hstep), rfl⟩
    · intro hdr hf hc
      have hstep : lockStep env cid mode wait_policy flags s =
          LockStep.ret TM_Result.TM_Deleted
            { s with
              t_self := s.tid
              clock := s.clock + 1
              trace := s.trace ++ [LockEvent.fetch s.tid s.priorXmax] } := by
        rw [hls]
        simp [fetchStep, hmoved, hf, hc]
      exact ⟨_, hrun.trans (lockRun_of_ret _ _ _ _ _ fuel _ _ _ hstep), rfl⟩
    · intro u hu hpu
      have ht := lockPasses_last env cid mode wait_policy flags k _ s u hreach hu
      rw [hls] at ht
      obtain ⟨_, _, _, h | h | h⟩ := fetchStep_next env cid wait_policy s u ht
      · obtain ⟨_, h2, _, hdr, dx1, dx2, hf, hx, _⟩ := h
        exact ⟨h2, hdr, dx1, dx2, hf, hx⟩
      · rw [h.1, hpc] at hpu
        cases hpu
      · rw [h.1, hpc] at hpu
        cases hpu
    · intro u hu hne
      have ht := lockPasses_last env cid mode wait_policy flags k _ s u hreach hu
      rw [hls] at ht
      obtain ⟨_, _, _, h | h | h⟩ := fetchStep_next env cid wait_policy s u ht
      · exact absurd h.2.1 hne
      · exact absurd h.2.1 hne
      · obtain ⟨_, _, hdr, hf, hx, h1, _, h2⟩ := h
        exact ⟨hdr, hf, hx, h1, h2⟩
  · intro hpc0
    have hls0 := lockStep_retry env cid mode wait_policy flags s hpc0
    refine ⟨?_, ?_⟩
    · intro u hu
      have ht := lockPasses_last env cid mode wait_policy flags k _ s u hreach hu
      rw [hls0] at ht
      obtain ⟨a, _, _, _, h1, h2, _, h3, _⟩ :=
        lockAttemptStep_next env cid mode wait_policy flags s u ht
      exact ⟨h1, h2, h3⟩
    · intro a x m ha hr hflag hfail
      have hstep : lockStep env cid mode wait_policy flags s =
          LockStep.ret TM_Result.TM_Deleted
            { s with
              t_self := s.tid
              clock := s.clock + 1
              attempts := s.attempts + 1
              trace := s.trace ++ [LockEvent.lockTuple s.tid]
              result := some a.result
              tmfd := { s.tmfd with ctid := s.tid, xmax := x, cmax := m } } := by
        rw [hls0]
        simp [lockAttemptStep, ha, hr, hflag, hfail]
      exact ⟨_, hrun.trans (lockRun_of_ret _ _ _ _ _ fuel _ _ _ hstep), rfl, rfl⟩
  · intro x m ha hflag
    have hstep : lockStep env cid mode wait_policy flags (lockInit tid tuple_t_self tmfd) =
        LockStep.ret TM_Result.TM_Deleted
          { pc := LockPc.tuple_lock_retry, clock := 1, tid := tid, t_self := tid
            result := some TM_Result.TM_Updated, priorXmax := InvalidTransactionId
            tmfd := { ctid := tid, xmax := x, cmax := m, traversed := false }
            hops := 0, attempts := 1
            trace := [LockEvent.lockTuple tid] } := by
      simp [lockStep, lockInit, lockAttemptStep, ha, hflag]
    have hcall : heapam_tuple_lock env (fuel + 1) tid tuple_t_self cid mode wait_policy flags
        tmfd = _ := lockRun_of_ret _ _ _ _ _ fuel _ _ _ hstep
    exact ⟨_, hcall, rfl, rfl, rfl⟩

/-- Witness of C25: a call on version `(0, 1)`, updated by transaction 10; the
slot at `(0, 2)` its forward pointer leads to is empty when the call fetches
it, and the call returns `TM_Deleted` after its single lock attempt. -/
theorem tuple_lock_traversal_gives_up_witness :
    ∃ t, heapam_tuple_lock
        (stubLockEnv { result := TM_Result.TM_Updated, failure := some (⟨0, 2⟩, 10, 0) }
          HeapFetchResult.missing true false)
        (1 + (0 + 1)) ⟨0, 1⟩ ⟨0, 0⟩ 3 LockTupleMode.LockTupleExclusive
        LockWaitPolicy.LockWaitBlock TUPLE_LOCK_FLAG_FIND_LAST_VERSION sampleFailureData
        = some (Except.ok TM_Result.TM_Deleted, t) ∧
      t.attempts = 1 :=
  ((tuple_lock_traversal_gives_up
    (stubLockEnv { result := TM_Result.TM_Updated, failure := some (⟨0, 2⟩, 10, 0) }
      HeapFetchResult.missing true false)
    0 1 ⟨0, 1⟩ ⟨0, 0⟩ 3 LockTupleMode.LockTupleExclusive LockWaitPolicy.LockWaitBlock
    TUPLE_LOCK_FLAG_FIND_LAST_VERSION sampleFailureData
    { pc := LockPc.fetch_loop, clock := 1, tid := ⟨0, 2⟩, t_self := ⟨0, 1⟩
      result := some TM_Result.TM_Updated, priorXmax := 10
      tmfd := { ctid := ⟨0, 2⟩, xmax := 10, cmax := 0, traversed := true }
      hops := 1, attempts := 1
      trace := [LockEvent.lockTuple ⟨0, 1⟩, LockEvent.follow ⟨0, 1⟩ ⟨0, 2⟩] }
    rfl).1 rfl (by decide)).2.2.1 rfl

/-! ## The candidate stored in modification mode -/

/-- C28 as stated fails: `locatoram_methods` registers
`heapam_scan_bitmap_next_block` and `heapam_fetch_row_version`, whose entry
assertions `!IsLocator(relation)` and `!IsSiro(relation)` are false for a
relation that is both siro and locator. -/
theorem locatoram_methods_entry_assertion_counterexample :
    ("scan_bitmap_next_block", "heapam_scan_bitmap_next_block") ∈ locatoram_methods ∧
      entryAssertion "heapam_scan_bitmap_next_block" ⟨true, true⟩ = false ∧
      ("tuple_fetch_row_version", "heapam_fetch_row_version") ∈ locatoram_methods ∧
      entryAssertion "heapam_fetch_row_version" ⟨true, true⟩ = false := by
  decide

/-- C28, amended: of the callbacks registered in `locatoram_methods` that are
defined in `heapam_handler.c`, exactly two have an entry assertion on the kind
of the relation that fails for a relation both siro and locator, namely
`tuple_fetch_row_version` (`heapam_fetch_row_version` asserts the relation is
not siro) and `scan_bitmap_next_block` (`heapam_scan_bitmap_next_block` asserts
it is not locator); every other one accepts such a relation, among them
`locatoram_index_fetch_tuple`, `locatoram_search_row_version` and
`locatoram_tuple_update`, which require it.  The table has the same fields as
`heapam_methods` in the same order, and registers a different function exactly
at `scan_begin`, `scan_end`, `scan_rescan`, `scan_getnextslot`,
`index_fetch_tuple`, `tuple_insert`, `tuple_update` and
`tuple_search_row_version`. -/
theorem locatoram_methods_entry_assertions :
    ((locatoram_methods.filter fun e =>
        definedInHandler e.2 && !entryAssertion e.2 ⟨true, true⟩).map fun e => e.1) =
        ["tuple_fetch_row_version", "scan_bitmap_next_block"] ∧
      (∀ e ∈ locatoram_methods, definedInHandler e.2 = true →
        e.1 ≠ "tuple_fetch_row_version" → e.1 ≠ "scan_bitmap_next_block" →
          entryAssertion e.2 ⟨true, true⟩ = true) ∧
      (∀ fn ∈ ["locatoram_index_fetch_tuple", "locatoram_search_row_version",
          "locatoram_tuple_update"],
        ∀ k, entryAssertion fn k = true ↔ k = ⟨true, true⟩) ∧
      (locatoram_methods.map fun e => e.1) = (heapam_methods.map fun e => e.1) ∧
      replacedFields heapam_methods locatoram_methods =
        ["scan_begin", "scan_end", "scan_rescan", "scan_getnextslot", "index_fetch_tuple",
          "tuple_insert", "tuple_update", "tuple_search_row_version"] := by
  refine ⟨by decide, by decide, ?_, by decide, by decide⟩
  intro fn hfn k
  obtain ⟨siro, locator⟩ := k
  simp only [List.mem_cons, List.mem_singleton, List.not_mem_nil, or_false] at hfn
  rcases hfn with rfl | rfl | rfl <;> cases siro <;> cases locator <;> decide

/-- Witness of C28 (amended): `heapam_tuple_lock`, registered as `tuple_lock`,
accepts a relation that is both siro and locator. -/
theorem locatoram_methods_entry_assertions_witness :
    entryAssertion "heapam_tuple_lock" ⟨true, true⟩ = true :=
  locatoram_methods_entry_assertions.2.1 ("tuple_lock", "heapam_tuple_lock")
    (by decide) (by decide) (by decide) (by decide)

/-! ## Command id and command type around a row-version search -/

theorem wrapInt32_of_small (x : Int) (h1 : -2147483648 ≤ x) (h2 : x < 2147483648) :
    wrapInt32 x = x := by
  unfold wrapInt32
  omega

theorem sampleSearchLoop_empty (rs_vistuples : Nat → OffsetNumber) (tupoffset : OffsetNumber)
    (fuel : Nat) (start stop : Int) (h : ¬start ≤ stop) :
    sampleSearchLoop rs_vistuples tupoffset fuel start stop = some (false, 0) := by
  cases fuel <;> simp [sampleSearchLoop, h]

theorem sorted_index_le (vis : Nat → Nat) (n : Nat)
    (hsorted : ∀ i j, i < j → j < n → vis i < vis j) : ∀ i, i < n → i ≤ vis i := by
  intro i
  induction i with
  | zero => intro _; exact Nat.zero_le _
  | succ i ih =>
    intro hi
    have h1 := ih (by omega)
    have h2 := hsorted i (i + 1) (by omega) hi
    omega

theorem sampleSearchLoop_spec (vis : Nat → Nat) (t n : Nat) (hn : n ≤ 65536)
    (hsorted : ∀ i j, i < j → j < n → vis i < vis j) :
    ∀ (fuel lo hi : Nat), lo ≤ hi → hi ≤ n → hi - lo < 2 ^ fuel →
      (∀ i, i < lo → vis i < t) → (∀ i, hi ≤ i → i < n → t < vis i) →
      ∃ b k, sampleSearchLoop vis t fuel (lo : Int) ((hi : Int) - 1) = some (b, k) ∧
        k ≤ fuel ∧ (b = true ↔ ∃ i, i < n ∧ vis i = t) := by
  intro fuel
  induction fuel with
  | zero =>
    intro lo hi hle hhi hlen hlow hup
    have heq : lo = hi := by
      simp only [pow_zero, Nat.lt_one_iff] at hlen
      omega
    refine ⟨false, 0, sampleSearchLoop_empty vis t 0 _ _ (by omega), le_refl 0, ?_⟩
    constructor
    · intro h
      cases h
    · rintro ⟨i, hi, hv⟩
      by_cases hc : i < lo
      · have := hlow i hc
        omega
      · have := hup i (by omega) hi
        omega
  | succ fuel ih =>
    intro lo hi hle hhi hlen hlow hup
    by_cases heq : lo = hi
    · refine ⟨false, 0, sampleSearchLoop_empty vis t _ _ _ (by omega), Nat.zero_le _, ?_⟩
      constructor
      · intro h
        cases h
      · rintro ⟨i, hi, hv⟩
        by_cases hc : i < lo
        · have := hlow i hc
          omega
        · have := hup i (by omega) hi
          omega
    · have hlt : lo < hi := by omega
      have hcond : (lo : Int) ≤ (hi : Int) - 1 := by omega
      have hw : wrapInt32 ((lo : Int) + ((hi : Int) - 1)) = (lo : Int) + ((hi : Int) - 1) :=
        wrapInt32_of_small _ (by omega) (by omega)
      have hmid : Int.tdiv ((lo : Int) + ((hi : Int) - 1)) 2 = (((lo + hi - 1) / 2 : Nat) : Int) := by
        rw [Int.tdiv_eq_ediv (by omega) (by norm_num)]
        omega
      have hm1 : lo ≤ (lo + hi - 1) / 2 := by omega
      have hm2 : (lo + hi - 1) / 2 < hi := by omega
      have hpow : 2 ^ (fuel + 1) = 2 * 2 ^ fuel := by ring
      rw [hpow] at hlen
      unfold sampleSearchLoop
      rw [if_pos hcond]
      dsimp only
      rw [hw, hmid, Int.toNat_natCast]
      by_cases h1 : t = vis ((lo + hi - 1) / 2)
      · rw [if_pos h1]
        exact ⟨true, 1, rfl, by omega, fun _ => ⟨_, by omega, h1.symm⟩, fun _ => rfl⟩
      · rw [if_neg h1]
        by_cases h2 : t < vis ((lo + hi - 1) / 2)
        · rw [if_pos h2, wrapInt32_of_small _ (by omega) (by omega)]
          obtain ⟨b, k, e1, e2, e3⟩ := ih lo ((lo + hi - 1) / 2) hm1 (by omega) (by omega) hlow
            (by
              intro i hi1 hi2
              by_cases hc : i = (lo + hi - 1) / 2
              · rw [hc]
                exact h2
              · have := hsorted ((lo + hi - 1) / 2) i (by omega) hi2
                omega)
          rw [e1]
          exact ⟨b, k + 1, rfl, by omega, e3⟩
        · rw [if_neg h2, wrapInt32_of_small _ (by omega) (by omega)]
          have hcast : (((lo + hi - 1) / 2 : Nat) : Int) + 1 = (((lo + hi - 1) / 2 + 1 : Nat) : Int) := by
            push_cast
            rfl
          rw [hcast]
          obtain ⟨b, k, e1, e2, e3⟩ := ih ((lo + hi - 1) / 2 + 1) hi (by omega) hhi (by omega)
            (by
              intro i hi1
              by_cases hc : i = (lo + hi - 1) / 2
              · rw [hc]
                omega
              · have := hsorted i ((lo + hi - 1) / 2) (by omega) (by omega)
                omega)
            hup
          rw [e1]
          exact ⟨b, k + 1, rfl, by omega, e3⟩

theorem sampleSearchLoop_succ (vis : Nat → Nat) (t : Nat) :
    ∀ (fuel : Nat) (start stop : Int) (r : Bool × Nat),
      sampleSearchLoop vis t fuel start stop = some r →
      sampleSearchLoop vis t (fuel + 1) start stop = some r := by
  intro fuel
  induction fuel with
  | zero =>
    intro start stop r h
    unfold sampleSearchLoop at h
    split_ifs at h with hc
    rw [sampleSearchLoop_empty vis t _ _ _ hc]
    exact h
  | succ fuel ih =>
    intro start stop r h
    rw [sampleSearchLoop] at h ⊢
    dsimp only at h ⊢
    split_ifs at h ⊢ with hc h1 h2
    · exact h
    · rw [Option.map_eq_some'] at h ⊢
      obtain ⟨a, ha, hr⟩ := h
      exact ⟨a, ih _ _ a ha, hr⟩
    · rw [Option.map_eq_some'] at h ⊢
      obtain ⟨a, ha, hr⟩ := h
      exact ⟨a, ih _ _ a ha, hr⟩
    · exact h

theorem sampleSearchLoop_mono (vis : Nat → Nat) (t : Nat) (fuel : Nat) (start stop : Int)
    (r : Bool × Nat) (h : sampleSearchLoop vis t fuel start stop = some r) :
    ∀ d, sampleSearchLoop vis t (fuel + d) start stop = some r := by
  intro d
  induction d with
  | zero => exact h
  | succ d ih => exact sampleSearchLoop_succ vis t (fuel + d) start stop r ih

/-- C30: in page-at-a-time mode, for offsets `rs_vistuples[0..n)` in strictly
ascending order (each an `OffsetNumber`, below `2 ^ 16`) and every offset `t`,
`SampleHeapTupleVisible` run with a budget of at least `ceil(log2(n + 1))`
iterations returns, after at most `ceil(log2(n + 1))` iterations, and it
returns true if and only if `t` occurs in `rs_vistuples[0..n)`.  In every
iteration `mid` lies in `[start, end]`, so both `[start, mid - 1]` and
`[mid + 1, end]` are strictly shorter than `[start, end]`. -/
theorem sample_tuple_visible_binary_search (satisfies : Bool) (rs_vistuples : Nat → OffsetNumber)
    (t : OffsetNumber) (n fuel : Nat)
    (hoff : ∀ i, i < n → rs_vistuples i < 65536)
    (hsorted : ∀ i j, i < j → j < n → rs_vistuples i < rs_vistuples j)
    (hfuel : Nat.clog 2 (n + 1) ≤ fuel) :
    (∃ b k, SampleHeapTupleVisible true satisfies n rs_vistuples t fuel = some (b, k) ∧
        k ≤ Nat.clog 2 (n + 1) ∧ (b = true ↔ ∃ i, i < n ∧ rs_vistuples i = t)) ∧
      (∀ start stop : Int, 0 ≤ start → start ≤ stop → stop < n →
        start ≤ Int.tdiv (wrapInt32 (start + stop)) 2 ∧
          Int.tdiv (wrapInt32 (start + stop)) 2 ≤ stop ∧
          wrapInt32 (Int.tdiv (wrapInt32 (start + stop)) 2 - 1) - start < stop - start ∧
          stop - wrapInt32 (Int.tdiv (wrapInt32 (start + stop)) 2 + 1) < stop - start) := by
  have hn : n ≤ 65536 := by
    by_cases h0 : n = 0
    · omega
    · have h1 := sorted_index_le rs_vistuples n hsorted (n - 1) (by omega)
      have h2 := hoff (n - 1) (by omega)
      have h3 : n - 1 < 65536 := lt_of_le_of_lt h1 h2
      omega
  constructor
  · have hlen : n - 0 < 2 ^ Nat.clog 2 (n + 1) := by
      have := Nat.le_pow_clog (by norm_num : 1 < 2) (n + 1)
      omega
    obtain ⟨b, k, e1, e2, e3⟩ := sampleSearchLoop_spec rs_vistuples t n hn hsorted
      (Nat.clog 2 (n + 1)) 0 n (Nat.zero_le n) (le_refl n) hlen
      (fun i hi => absurd hi (Nat.not_lt_zero i)) (fun i h1 h2 => absurd h2 (by omega))
    refine ⟨b, k, ?_, e2, e3⟩
    unfold SampleHeapTupleVisible
    rw [if_pos rfl, wrapInt32_of_small _ (by omega) (by omega)]
    obtain ⟨d, hd⟩ := Nat.exists_eq_add_of_le hfuel
    rw [hd]
    exact sampleSearchLoop_mono rs_vistuples t _ _ _ _ e1 d
  · intro start stop h0 h1 h2
    have hw : wrapInt32 (start + stop) = start + stop :=
      wrapInt32_of_small _ (by omega) (by omega)
    have hmid : Int.tdiv (start + stop) 2 = (start + stop) / 2 :=
      Int.tdiv_eq_ediv (by omega) (by norm_num)
    rw [hw, hmid, wrapInt32_of_small _ (by omega) (by omega),
      wrapInt32_of_small _ (by omega) (by omega)]
    omega

/-- Witness of C30: three visible offsets, searched for one that is present. -/
theorem sample_tuple_visible_binary_search_witness :
    SampleHeapTupleVisible true false 3 (fun i => 2 * i + 1) 5 2 = some (true, 2) ∧
      ∃ b k, SampleHeapTupleVisible true false (3 : Nat) (fun i => 2 * i + 1) 5 2 = some (b, k) ∧
        k ≤ Nat.clog 2 (3 + 1) ∧ (b = true ↔ ∃ i, i < 3 ∧ (fun i => 2 * i + 1) i = 5) :=
  ⟨by decide,
    (sample_tuple_visible_binary_search false (fun i => 2 * i + 1) 5 3 2
      (fun i hi => by show 2 * i + 1 < 65536; omega)
      (fun i j hij hj => by show 2 * i + 1 < 2 * j + 1; omega)
      ((Nat.le_pow_iff_clog_le (by norm_num)).mp (by norm_num))).1⟩

end Locator
